import Mathlib

/-!
A verification development for the Longhorn node controller
(`controller/node_controller.go`, here `src/unnamed/part_000`) and the
datastore layer (`src/datastore/longhorn.go`).

The Go code is shallowly embedded: Go maps become association lists
(`List (String × _)`); a nil Go map is `Option.none`; fallible calls return
`Except GoErr _`; the surrounding cluster (listers, settings, disk probes,
disk-config files) is an explicit environment record whose fields hold the
results each datastore or util call would produce during one reconcile pass.
Datastore writes (instance-manager create/delete) are recorded as `Action`s.
Go's int64 arithmetic is modelled by `Int` (no overflow is claim-relevant);
int64 division is `Int.tdiv` (truncation toward zero, as in Go).

Functions of this repository that the controller calls but whose source is
not part of the two files above (the `types` and `scheduler` packages) are
modelled from the specification; each such definition carries a doc comment
starting with `Modelled from the spec:`.
-/

/-! ## Errors

Go errors, with the structural classification used by the controller:
`apierrors.IsConflict` / `apierrors.IsNotFound` inspect the error value's
type, never its message.  `wrapped` models `errors.Wrapf`; `errors.Cause`
unwraps it. -/

inductive GoErr where
  | notFound (msg : String)
  | conflict (msg : String)
  | other (msg : String)
  | wrapped (msg : String) (inner : GoErr)
deriving Repr, DecidableEq

/-- `errors.Cause`: unwrap all `errors.Wrapf` layers. -/
def GoErr.cause : GoErr → GoErr
  | .wrapped _ e => e.cause
  | e => e

/-- `apierrors.IsNotFound` (structural, no unwrapping). -/
def GoErr.isNotFound : GoErr → Bool
  | .notFound _ => true
  | _ => false

/-- `apierrors.IsConflict` (structural, no unwrapping; the caller applies
`errors.Cause` first, as `syncNode` does). -/
def GoErr.isConflict : GoErr → Bool
  | .conflict _ => true
  | _ => false

/-! ## Association-list maps (Go `map[string]V`) -/

/-- Go map assignment `m[k] = v`: replace in place, else append. -/
def upsert {α : Type} : List (String × α) → String → α → List (String × α)
  | [], k, v => [(k, v)]
  | (k₀, v₀) :: rest, k, v =>
    if k₀ = k then (k, v) :: rest else (k₀, v₀) :: upsert rest k v

/-- Go `delete(m, k)`. -/
def eraseKey {α : Type} (m : List (String × α)) (k : String) : List (String × α) :=
  m.filter (fun e => e.1 != k)

/-! ## Conditions -/

def conditionStatusTrue : String := "True"
def conditionStatusFalse : String := "False"
def conditionStatusUnknown : String := "Unknown"

/-- A condition value; the map key is the condition type.
`LastTransitionTime` is not modelled (no claim mentions it). -/
structure Condition where
  status : String
  reason : String
  message : String
deriving Repr, DecidableEq

/-- Modelled from the spec: `types.GetCondition` (the `types` package is not
in `src/`).  A condition is tri-valued; an absent entry (or a nil map) reads
as an `Unknown` condition. -/
def GetCondition (conditions : Option (List (String × Condition))) (condType : String) :
    Condition :=
  match conditions with
  | none => { status := conditionStatusUnknown, reason := "", message := "" }
  | some cs =>
    match cs.lookup condType with
    | some c => c
    | none => { status := conditionStatusUnknown, reason := "", message := "" }

/-- Modelled from the spec: `types.SetCondition` (the `types` package is not
in `src/`) stores the given status/reason/message under the condition type,
creating the map when nil. -/
def SetCondition (conditions : Option (List (String × Condition)))
    (condType status reason message : String) : Option (List (String × Condition)) :=
  some (upsert (conditions.getD []) condType
    { status := status, reason := reason, message := message })

/-- Modelled from the spec: `types.SetConditionAndRecord` updates the
condition exactly as `SetCondition` and additionally emits an event on
transitions; events are not claim-relevant and are not modelled. -/
def SetConditionAndRecord (conditions : Option (List (String × Condition)))
    (condType status reason message : String) : Option (List (String × Condition)) :=
  SetCondition conditions condType status reason message

/-! ## Condition types and reasons (string constants of the `types` package) -/

def nodeConditionTypeReady : String := "Ready"
def nodeConditionTypeSchedulable : String := "Schedulable"
def nodeConditionTypeMountPropagation : String := "MountPropagation"
def diskConditionTypeReady : String := "Ready"
def diskConditionTypeSchedulable : String := "Schedulable"

def nodeConditionReasonManagerPodDown : String := "ManagerPodDown"
def nodeConditionReasonManagerPodMissing : String := "ManagerPodMissing"
def nodeConditionReasonKubernetesNodeGone : String := "KubernetesNodeGone"
def nodeConditionReasonKubernetesNodeNotReady : String := "KubernetesNodeNotReady"
def nodeConditionReasonKubernetesNodePressure : String := "KubernetesNodePressure"
def nodeConditionReasonKubernetesNodeCordoned : String := "KubernetesNodeCordoned"
def nodeConditionReasonNoMountPropagationSupport : String := "NoMountPropagationSupport"
def diskConditionReasonNoDiskInfo : String := "NoDiskInfo"
def diskConditionReasonDiskFilesystemChanged : String := "DiskFilesystemChanged"
def diskConditionReasonDiskPressure : String := "DiskPressure"

def podConditionTypeReady : String := "Ready"
def podPhaseRunning : String := "Running"
def kubeNodeConditionTypeReady : String := "Ready"
def kubeNodeConditionTypeOutOfDisk : String := "OutOfDisk"
def kubeNodeConditionTypeDiskPressure : String := "DiskPressure"
def kubeNodeConditionTypePIDPressure : String := "PIDPressure"
def kubeNodeConditionTypeMemoryPressure : String := "MemoryPressure"
def kubeNodeConditionTypeNetworkUnavailable : String := "NetworkUnavailable"
def mountPropagationBidirectional : String := "Bidirectional"
def longhornSystemKey : String := "longhorn-system"

def instanceManagerTypeEngine : String := "engine"
def instanceManagerTypeReplica : String := "replica"
def instanceManagerStateRunning : String := "running"
def instanceStateRunning : String := "running"
def instanceStateStarting : String := "starting"

/-! ## Data model (longhorn `v1beta1` types used by the controller) -/

structure DiskSpec where
  path : String
  storageReserved : Int
  allowScheduling : Bool
  tags : List String
deriving Repr, DecidableEq

structure DiskStatus where
  conditions : Option (List (String × Condition))
  diskUUID : String
  storageAvailable : Int
  storageMaximum : Int
  storageScheduled : Int
  scheduledReplica : Option (List (String × Int))
deriving Repr, DecidableEq

/-- The Go zero value `&types.DiskStatus{}` (nil maps, empty strings, zeros). -/
def DiskStatus.empty : DiskStatus :=
  { conditions := none, diskUUID := "", storageAvailable := 0, storageMaximum := 0,
    storageScheduled := 0, scheduledReplica := none }

structure NodeSpec where
  disks : List (String × DiskSpec)
  allowScheduling : Bool
deriving Repr, DecidableEq

structure NodeStatus where
  conditions : Option (List (String × Condition))
  diskStatus : Option (List (String × DiskStatus))
  region : String
  zone : String
deriving Repr, DecidableEq

structure LhNode where
  name : String
  uid : String
  deletionTimestamp : Option String
  spec : NodeSpec
  status : NodeStatus
deriving Repr, DecidableEq

/-- A replica as read by the node controller (`Spec.VolumeSize` and its name;
`ListReplicasByNode` already groups replicas by `Spec.DiskID`). -/
structure Replica where
  name : String
  volumeSize : Int
deriving Repr, DecidableEq

structure OwnerReference where
  apiVersion : String
  kind : String
  name : String
  uid : String
  blockOwnerDeletion : Bool
deriving Repr, DecidableEq

structure InstanceManager where
  name : String
  labels : List (String × String)
  ownerReferences : List OwnerReference
  deletionTimestamp : Option String
  image : String
  nodeID : String
  imType : String
  currentState : String
  instances : List (String × String)
deriving Repr, DecidableEq

structure PodCondition where
  condType : String
  status : String
deriving Repr, DecidableEq

structure VolumeMount where
  name : String
  mountPropagation : Option String
deriving Repr, DecidableEq

/-- A manager pod as read by the controller: `Spec.NodeName`,
`Status.Conditions`, `Status.Phase`, and the first container's volume
mounts (`Spec.Containers[0].VolumeMounts`). -/
structure Pod where
  name : String
  nodeName : String
  containerMounts : List VolumeMount
  conditions : List PodCondition
  phase : String
deriving Repr, DecidableEq

structure KubeNodeCondition where
  condType : String
  status : String
  reason : String
  message : String
deriving Repr, DecidableEq

structure KubeNode where
  conditions : List KubeNodeCondition
  unschedulable : Bool
  labels : List (String × String)
deriving Repr, DecidableEq

structure DiskInfo where
  fsid : String
  storageMaximum : Int
  storageAvailable : Int
deriving Repr, DecidableEq

structure DiskConfig where
  diskUUID : String
deriving Repr, DecidableEq

/-! ## Settings and the datastore `GetSetting` family (`src/datastore/longhorn.go`) -/

structure Setting where
  name : String
  value : String
deriving Repr, DecidableEq

/-- The fields of `types.SettingDefinition` that `GetSetting` reads. -/
structure SettingDefinition where
  settingType : String
  required : Bool
  defaultValue : String
deriving Repr, DecidableEq

/-- The setting registry as seen by `DataStore.GetSetting`:
`types.SettingDefinitions` plus the lister read `getSettingRO`. -/
structure SettingStore where
  settingDefinitions : String → Option SettingDefinition
  getSettingRO : String → Except GoErr Setting

/-- `DataStore.GetSetting` (`src/datastore/longhorn.go:138`): reject names
without a definition; on a not-found lister error build a fresh setting
carrying the definition's default; propagate any other lister error. -/
def GetSetting (s : SettingStore) (sName : String) : Except GoErr Setting :=
  match s.settingDefinitions sName with
  | none => .error (.other ("setting " ++ sName ++ " is not supported"))
  | some definition =>
    match s.getSettingRO sName with
    | .ok resultRO => .ok resultRO
    | .error e =>
      if e.isNotFound then
        .ok { name := sName, value := definition.defaultValue }
      else
        .error e

/-- `DataStore.GetSettingValueExisted` (`src/datastore/longhorn.go:160`). -/
def GetSettingValueExisted (s : SettingStore) (sName : String) : Except GoErr String :=
  match GetSetting s sName with
  | .error e => .error e
  | .ok setting =>
    if setting.value = "" then .error (.other ("setting " ++ sName ++ " is empty"))
    else .ok setting.value

/-! ## Scheduler (spec-modelled: the `scheduler` package is not in `src/`) -/

structure DiskSchedulingInfo where
  storageMaximum : Int
  storageAvailable : Int
  storageReserved : Int
  storageScheduled : Int
deriving Repr, DecidableEq

/-- Modelled from the spec: `scheduler.GetDiskSchedulingInfo` projects a disk
spec plus disk status into the four scheduling counters. -/
def GetDiskSchedulingInfo (disk : DiskSpec) (diskStatus : DiskStatus) : DiskSchedulingInfo :=
  { storageMaximum := diskStatus.storageMaximum,
    storageAvailable := diskStatus.storageAvailable,
    storageReserved := disk.storageReserved,
    storageScheduled := diskStatus.storageScheduled }

/-- Modelled from the spec: `scheduler.IsSchedulableToDisk` returns true iff
`info.available − required_size ≥ max(info.reserved, info.maximum ×
minimal_available_percentage/100)`.  The spec passes the percentage as the
scheduler's ambient setting; here it is an explicit argument.  The second
argument (`required_reserved`) does not occur in the spec's formula. -/
def IsSchedulableToDisk (size requiredReserved : Int) (minimalAvailablePercentage : Int)
    (info : DiskSchedulingInfo) : Bool :=
  decide (info.storageAvailable - size ≥
    max info.storageReserved (Int.tdiv (info.storageMaximum * minimalAvailablePercentage) 100))

/-! ## The reconcile environment -/

/-- One reconcile's view of the cluster: the result every datastore, probe or
disk-config call would return during this `syncNode` pass.  `Option GoErr`
fields are calls whose only result is an error (`none` = success). -/
structure SyncEnv where
  getNode : Except GoErr LhNode
  removeFinalizerForNode : Option GoErr
  listManagerPods : Except GoErr (List Pod)
  getKubernetesNode : Except GoErr KubeNode
  getSettingDisableSchedulingOnCordonedNode : Except GoErr Bool
  topologyLabelsChecker : Except GoErr Bool
  getDiskInfo : String → Except GoErr DiskInfo
  getDiskConfig : String → Except GoErr DiskConfig
  generateDiskConfig : String → Except GoErr DiskConfig
  listReplicasByNode : Except GoErr (List (String × List Replica))
  getSettingMinimalAvailablePercentage : Except GoErr Int
  getSettingDefaultInstanceManagerImage : Except GoErr String
  listInstanceManagersByNode : String → Except GoErr (List InstanceManager)
  deleteInstanceManager : String → Option GoErr
  createInstanceManager : InstanceManager → Except GoErr InstanceManager
  updateNodeStatus : LhNode → Option GoErr

/-- The controller's own identity (`NodeController.namespace/controllerID`). -/
structure NodeControllerCfg where
  controllerNamespace : String
  controllerID : String
deriving Repr, DecidableEq

/-- Datastore writes performed by one reconcile. -/
inductive DsAction where
  | deleteIM (name : String)
  | createIM (im : InstanceManager)
deriving Repr, DecidableEq

/-! ## Disk sync (`NodeController.syncDiskStatus`, `src/unnamed/part_000:702`) -/

/-- The status-map reconciliation at the top of `syncDiskStatus`
(lines 704–722): for a disk id in spec, take the existing entry (or a zero
`DiskStatus`), replace nil `Conditions` / `ScheduledReplica` maps by empty
ones and zero the two storage counters. -/
def initDiskStatusEntry (ds : DiskStatus) : DiskStatus :=
  let ds := if ds.conditions = none then { ds with conditions := some [] } else ds
  let ds := if ds.scheduledReplica = none then { ds with scheduledReplica := some [] } else ds
  { ds with storageMaximum := 0, storageAvailable := 0 }

/-- The `for id := range node.Spec.Disks` loop of lines 707–722. -/
def initDiskStatusLoop : List (String × DiskSpec) → List (String × DiskStatus) →
    List (String × DiskStatus)
  | [], m => m
  | p :: rest, m =>
    initDiskStatusLoop rest
      (upsert m p.1 (initDiskStatusEntry ((m.lookup p.1).getD DiskStatus.empty)))

/-- Lines 707–727 of `syncDiskStatus`: add/initialise an entry for every id in
`Spec.Disks`, then delete every entry whose id is no longer in spec. -/
def syncDiskStatusMaps (specDisks : List (String × DiskSpec))
    (statusMap : List (String × DiskStatus)) : List (String × DiskStatus) :=
  (initDiskStatusLoop specDisks statusMap).filter (fun e => (specDisks.lookup e.1).isSome)

/-- `NodeController.getDiskInfoMap` (line 671): probe every disk in spec. -/
def getDiskInfoMap (env : SyncEnv) (node : LhNode) :
    List (String × Except GoErr DiskInfo) :=
  node.spec.disks.map (fun p => (p.1, env.getDiskInfo p.2.path))

/-- Write one condition through the disk-status map, as the Go code does via
the entry pointer `diskStatusMap[id]`.  Ids handed to this function always
exist in the map (in Go a missing id would be a nil-pointer dereference). -/
def setDiskCondition (m : List (String × DiskStatus)) (id condType status reason message : String) :
    List (String × DiskStatus) :=
  match m.lookup id with
  | none => m
  | some ds =>
    upsert m id
      { ds with conditions := SetConditionAndRecord ds.conditions condType status reason message }

/-- Lines 733–747: walk the probe results; a probe error marks the disk
`Ready=False` with reason `NoDiskInfo`, a successful probe appends the disk id
to its fsid's group. -/
def collectFsidLoop : List (String × Except GoErr DiskInfo) →
    List (String × DiskStatus) × List (String × List String) →
    List (String × DiskStatus) × List (String × List String)
  | [], acc => acc
  | p :: rest, acc =>
    collectFsidLoop rest
      (match p.2 with
       | .error _ =>
         (setDiskCondition acc.1 p.1 diskConditionTypeReady conditionStatusFalse
           diskConditionReasonNoDiskInfo "Get disk information error", acc.2)
       | .ok info =>
         (acc.1, upsert acc.2 info.fsid (((acc.2.lookup info.fsid).getD []) ++ [p.1])))

def collectFsidGroups (diskInfoMap : List (String × Except GoErr DiskInfo))
    (m : List (String × DiskStatus)) :
    List (String × DiskStatus) × List (String × List String) :=
  collectFsidLoop diskInfoMap (m, [])

/-- `NodeController.isFSIDDuplicatedWithExistingReadyDisk` (line 684): within
a group of more than one disk sharing an fsid, is some other disk's `Ready`
condition currently `True`? -/
def isFSIDDuplicatedWithExistingReadyDisk (name : String) (disks : List String)
    (diskStatusMap : List (String × DiskStatus)) : Bool :=
  if disks.length > 1 then
    disks.any (fun otherName =>
      let diskReady := GetCondition
        (match diskStatusMap.lookup otherName with
         | some ds => ds.conditions
         | none => none) diskConditionTypeReady
      (otherName != name) && (diskReady.status == conditionStatusTrue))
  else
    false

/-- Lines 815–822: the final `if diskStatus.DiskUUID == diskUUID` body — copy
the probe's storage counters into the entry and set `Ready=True`.  Ids handed
here have a successful probe. -/
def finalizeReadyDisk (diskInfoMap : List (String × Except GoErr DiskInfo))
    (m : List (String × DiskStatus)) (id : String) : List (String × DiskStatus) :=
  match m.lookup id, diskInfoMap.lookup id with
  | some ds, some (.ok info) =>
    let ds := { ds with storageMaximum := info.storageMaximum,
                        storageAvailable := info.storageAvailable }
    let conds := SetConditionAndRecord ds.conditions diskConditionTypeReady
      conditionStatusTrue "" "Disk is ready"
    upsert m id { ds with conditions := conds }
  | _, _ => m

/-- Lines 768–824, after the disk-config read produced the local `diskUUID`
value (empty when the config file was not found): the UUID
assignment/collision logic for one disk of an fsid group, followed by the
`diskStatus.DiskUUID == diskUUID` finalisation. -/
def syncGroupDiskUUID (env : SyncEnv) (diskInfoMap : List (String × Except GoErr DiskInfo))
    (disks : List String) (m : List (String × DiskStatus)) (id : String) (disk : DiskSpec)
    (ds0 : DiskStatus) (diskUUID : String) : List (String × DiskStatus) :=
  if ds0.diskUUID = "" then
    if isFSIDDuplicatedWithExistingReadyDisk id disks m then
      setDiskCondition m id diskConditionTypeReady conditionStatusFalse
        diskConditionReasonDiskFilesystemChanged "disk has same file system ID as other disks"
    else
      let generated : Except GoErr String :=
        if diskUUID = "" then
          match env.generateDiskConfig disk.path with
          | .error e => .error e
          | .ok diskConfig => .ok diskConfig.diskUUID
        else .ok diskUUID
      match generated with
      | .error _ =>
        setDiskCondition m id diskConditionTypeReady conditionStatusFalse
          diskConditionReasonNoDiskInfo "failed to generate disk config"
      | .ok u =>
        let m := upsert m id { ds0 with diskUUID := u }
        finalizeReadyDisk diskInfoMap m id
  else
    let m :=
      if diskUUID = "" then
        setDiskCondition m id diskConditionTypeReady conditionStatusFalse
          diskConditionReasonDiskFilesystemChanged
          "cannot find disk config file, maybe due to a mount error"
      else if ds0.diskUUID ≠ diskUUID then
        setDiskCondition m id diskConditionTypeReady conditionStatusFalse
          diskConditionReasonDiskFilesystemChanged "record diskUUID does not match the one on the disk"
      else m
    if ds0.diskUUID = diskUUID then finalizeReadyDisk diskInfoMap m id else m

/-- One iteration of the fsid-group loop body (lines 750–824): read the
on-disk config (a not-found is permissible and leaves the local `diskUUID`
empty; any other error marks the disk `NoDiskInfo` and skips it), then run
the UUID logic. -/
def syncGroupDisk (env : SyncEnv) (node : LhNode)
    (diskInfoMap : List (String × Except GoErr DiskInfo)) (disks : List String)
    (m : List (String × DiskStatus)) (id : String) : List (String × DiskStatus) :=
  match node.spec.disks.lookup id, m.lookup id with
  | some disk, some ds0 =>
    match env.getDiskConfig disk.path with
    | .error e =>
      if e.isNotFound then
        syncGroupDiskUUID env diskInfoMap disks m id disk ds0 ""
      else
        setDiskCondition m id diskConditionTypeReady conditionStatusFalse
          diskConditionReasonNoDiskInfo "failed to get disk config"
    | .ok diskConfig =>
      syncGroupDiskUUID env diskInfoMap disks m id disk ds0 diskConfig.diskUUID
  | _, _ => m

/-- The inner loop of lines 750–824: the disks of one fsid group, with the
whole group list `disks` in scope for the collision check. -/
def syncGroupDisksLoop (env : SyncEnv) (node : LhNode)
    (diskInfoMap : List (String × Except GoErr DiskInfo)) (disks : List String) :
    List String → List (String × DiskStatus) → List (String × DiskStatus)
  | [], m => m
  | id :: rest, m =>
    syncGroupDisksLoop env node diskInfoMap disks rest
      (syncGroupDisk env node diskInfoMap disks m id)

/-- The two nested loops of lines 749–826: every disk of every fsid group. -/
def syncAllFsidGroups (env : SyncEnv) (node : LhNode)
    (diskInfoMap : List (String × Except GoErr DiskInfo)) :
    List (String × List String) → List (String × DiskStatus) → List (String × DiskStatus)
  | [], m => m
  | g :: rest, m =>
    syncAllFsidGroups env node diskInfoMap rest
      (syncGroupDisksLoop env node diskInfoMap g.2 g.2 m)

/-- One iteration of the Schedulable loop (lines 838–872): recompute
`StorageScheduled`/`ScheduledReplica` from the replica listing and classify
the disk with the scheduling predicate at `required = 0`.  (The Go code also
removes the processed id from its local copy of the replica map, which only
feeds the leftover-replica log line and is not modelled.) -/
def syncDiskSchedulableStep (minimalAvailablePercentage : Int)
    (replicaDiskMap : List (String × List Replica))
    (m : List (String × DiskStatus)) (p : String × DiskSpec) : List (String × DiskStatus) :=
  match m.lookup p.1 with
  | none => m
  | some ds =>
    let replicas := (replicaDiskMap.lookup p.1).getD []
    let storageScheduled := replicas.foldl (fun acc r => acc + r.volumeSize) 0
    let scheduledReplica := replicas.foldl (fun acc r => upsert acc r.name r.volumeSize) []
    let ds := { ds with storageScheduled := storageScheduled,
                        scheduledReplica := some scheduledReplica }
    let info := GetDiskSchedulingInfo p.2 ds
    let ds :=
      if !(IsSchedulableToDisk 0 0 minimalAvailablePercentage info) then
        let conds := SetConditionAndRecord ds.conditions diskConditionTypeSchedulable
          conditionStatusFalse diskConditionReasonDiskPressure
          "the disk has insufficient available storage to schedule more replicas"
        { ds with conditions := conds }
      else
        let conds := SetConditionAndRecord ds.conditions diskConditionTypeSchedulable
          conditionStatusTrue "" "Disk is schedulable"
        { ds with conditions := conds }
    upsert m p.1 ds

/-- The `for id, disk := range node.Spec.Disks` loop of lines 838–872. -/
def syncSchedulableLoop (minimalAvailablePercentage : Int)
    (replicaDiskMap : List (String × List Replica)) :
    List (String × DiskSpec) → List (String × DiskStatus) → List (String × DiskStatus)
  | [], m => m
  | p :: rest, m =>
    syncSchedulableLoop minimalAvailablePercentage replicaDiskMap rest
      (syncDiskSchedulableStep minimalAvailablePercentage replicaDiskMap m p)

/-- `NodeController.syncDiskStatus` (lines 702–886). -/
def syncDiskStatus (env : SyncEnv) (node : LhNode) : Except GoErr LhNode :=
  let statusMap0 := node.status.diskStatus.getD []
  let m1 := syncDiskStatusMaps node.spec.disks statusMap0
  let diskInfoMap := getDiskInfoMap env node
  let mg := collectFsidGroups diskInfoMap m1
  let m3 := syncAllFsidGroups env node diskInfoMap mg.2 mg.1
  match env.listReplicasByNode with
  | .error e => .error e
  | .ok replicaDiskMap =>
    match env.getSettingMinimalAvailablePercentage with
    | .error e => .error e
    | .ok minimalAvailablePercentage =>
      let m4 := syncSchedulableLoop minimalAvailablePercentage replicaDiskMap
        node.spec.disks m3
      .ok { node with status := { node.status with diskStatus := some m4 } }

/-! ## Mount propagation (`NodeController.syncNodeStatus`, line 888) -/

/-- `NodeController.syncNodeStatus` (lines 888–910): inspect the first
container's volume mount named `longhorn-system`; set the
`MountPropagation` node condition accordingly (via `types.SetCondition`,
which emits no event). -/
def syncMountPropagation (pod : Pod) (node : LhNode) : LhNode :=
  match pod.containerMounts.find? (fun mount => mount.name == longhornSystemKey) with
  | none => node
  | some mount =>
    if mount.mountPropagation = none ∨
        mount.mountPropagation ≠ some mountPropagationBidirectional then
      let conds := SetCondition node.status.conditions nodeConditionTypeMountPropagation
        conditionStatusFalse nodeConditionReasonNoMountPropagationSupport
        "The MountPropagation value is not detected from pod"
      { node with status := { node.status with conditions := conds } }
    else
      let conds := SetCondition node.status.conditions nodeConditionTypeMountPropagation
        conditionStatusTrue "" ""
      { node with status := { node.status with conditions := conds } }

/-! ## Instance-manager sync (`NodeController.syncInstanceManagers`, line 912) -/

/-- Modelled from the spec: `types.GetLonghornLabelKey(types.LonghornLabelNode)`
(the `types` package is not in `src/`). -/
def longhornLabelKeyNode : String := "longhorn.io/node"

/-- Modelled from the spec: `types.GetInstanceManagerLabels` builds labels
encoding node, image and type. -/
def GetInstanceManagerLabels (node image imType : String) : List (String × String) :=
  [("longhorn.io/component", "instance-manager"),
   (longhornLabelKeyNode, node),
   ("longhorn.io/instance-manager-image", image),
   ("longhorn.io/instance-manager-type", imType)]

/-- Modelled from the spec: `types.GetInstanceManagerName` derives the
manager name deterministically from the type (the call site at line 971
passes only the type); an unknown type is an error. -/
def GetInstanceManagerName (imType : String) : Except GoErr String :=
  if imType = instanceManagerTypeEngine then .ok "instance-manager-e"
  else if imType = instanceManagerTypeReplica then .ok "instance-manager-r"
  else .error (.other ("unknown instance manager type " ++ imType))

/-- `datastore.GetOwnerReferencesForNode` (`src/datastore/longhorn.go:1078`). -/
def GetOwnerReferencesForNode (node : LhNode) : List OwnerReference :=
  [{ apiVersion := "longhorn.io/v1beta1", kind := "Node", name := node.name,
     uid := node.uid, blockOwnerDeletion := true }]

/-- `NodeController.createInstanceManager` (line 985): the object handed to
`DataStore.CreateInstanceManager`. -/
def createInstanceManagerObject (node : LhNode) (imName image imType : String) :
    InstanceManager :=
  { name := imName,
    labels := GetInstanceManagerLabels node.name image imType,
    ownerReferences := GetOwnerReferencesForNode node,
    deletionTimestamp := none,
    image := image,
    nodeID := node.name,
    imType := imType,
    currentState := "",
    instances := [] }

/-- Lines 947–962 of `syncInstanceManagers`: `cleanupRequired` for one listed
manager.  Default-image managers are kept; a non-default manager is kept only
when it is `Running`, not being deleted, and has a `Running` or `Starting`
instance. -/
def cleanupRequiredFor (im : InstanceManager) (defaultInstanceManagerImage : String) : Bool :=
  if im.image = defaultInstanceManagerImage then false
  else if im.currentState = instanceManagerStateRunning ∧ im.deletionTimestamp = none then
    !(im.instances.any (fun inst =>
      inst.2 == instanceStateRunning || inst.2 == instanceStateStarting))
  else true

/-- Lines 926–931: eagerly delete every replica manager (the disk-free-node
cleanup loop).  Deletions are recorded as actions; a failed delete stops the
loop and surfaces its error. -/
def deleteInstanceManagersLoop (env : SyncEnv) :
    List InstanceManager → List DsAction × Option GoErr
  | [] => ([], none)
  | rm :: rest =>
    match env.deleteInstanceManager rm.name with
    | some e => ([DsAction.deleteIM rm.name], some e)
    | none =>
      let r := deleteInstanceManagersLoop env rest
      (DsAction.deleteIM rm.name :: r.1, r.2)

/-- Lines 942–969: the per-manager loop of one instance-manager type.  The
boolean accumulates `defaultInstanceManagerCreated`; a label/NodeID mismatch
is the `BUG` error. -/
def syncIMListLoop (env : SyncEnv) (defaultInstanceManagerImage : String) :
    List InstanceManager → Bool → List DsAction × Bool × Option GoErr
  | [], defaultCreated => ([], defaultCreated, none)
  | im :: rest, defaultCreated =>
    if (im.labels.lookup longhornLabelKeyNode).getD "" ≠ im.nodeID then
      ([], defaultCreated, some (.other "BUG: Instance manager NodeID is not consistent with the label"))
    else
      let defaultCreated := defaultCreated || (im.image == defaultInstanceManagerImage)
      if cleanupRequiredFor im defaultInstanceManagerImage then
        match env.deleteInstanceManager im.name with
        | some e => ([DsAction.deleteIM im.name], defaultCreated, some e)
        | none =>
          let r := syncIMListLoop env defaultInstanceManagerImage rest defaultCreated
          (DsAction.deleteIM im.name :: r.1, r.2.1, r.2.2)
      else
        syncIMListLoop env defaultInstanceManagerImage rest defaultCreated

/-- Lines 936–981 for a single type: list the managers, run the per-manager
loop, and create the default-image manager when none was observed. -/
def syncIMType (env : SyncEnv) (node : LhNode) (defaultInstanceManagerImage imType : String) :
    List DsAction × Option GoErr :=
  match env.listInstanceManagersByNode imType with
  | .error e => ([], some e)
  | .ok imMap =>
    let r := syncIMListLoop env defaultInstanceManagerImage imMap false
    match r.2.2 with
    | some e => (r.1, some e)
    | none =>
      if !r.2.1 then
        match GetInstanceManagerName imType with
        | .error e => (r.1, some e)
        | .ok imName =>
          let im := createInstanceManagerObject node imName defaultInstanceManagerImage imType
          match env.createInstanceManager im with
          | .error e => (r.1 ++ [DsAction.createIM im], some e)
          | .ok _ => (r.1 ++ [DsAction.createIM im], none)
      else (r.1, none)

/-- `NodeController.syncInstanceManagers` (lines 912–983). -/
def syncInstanceManagers (env : SyncEnv) (node : LhNode) : List DsAction × Option GoErr :=
  match env.getSettingDefaultInstanceManagerImage with
  | .error e => ([], some e)
  | .ok defaultInstanceManagerImage =>
    let cleanup : List DsAction × Option GoErr :=
      if node.spec.disks.length = 0 then
        match env.listInstanceManagersByNode instanceManagerTypeReplica with
        | .error e => ([], some e)
        | .ok rmMap => deleteInstanceManagersLoop env rmMap
      else ([], none)
    match cleanup.2 with
    | some e => (cleanup.1, some e)
    | none =>
      let imTypes :=
        if node.spec.disks.length = 0 then [instanceManagerTypeEngine]
        else [instanceManagerTypeEngine, instanceManagerTypeReplica]
      imTypes.foldl
        (fun acc imType =>
          match acc.2 with
          | some e => (acc.1, some e)
          | none =>
            let r := syncIMType env node defaultInstanceManagerImage imType
            (acc.1 ++ r.1, r.2))
        (cleanup.1, none)

/-! ## The reconcile (`NodeController.syncNode`, line 414) -/

/-- Modelled from the spec: `types.GetRegionAndZone` reads the region/zone
topology labels, preferring the newer label family when the detected
Kubernetes version supports it. -/
def GetRegionAndZone (labels : List (String × String)) (isUsingTopologyLabels : Bool) :
    String × String :=
  if isUsingTopologyLabels then
    ((labels.lookup "topology.kubernetes.io/region").getD "",
     (labels.lookup "topology.kubernetes.io/zone").getD "")
  else
    ((labels.lookup "failure-domain.beta.kubernetes.io/region").getD "",
     (labels.lookup "failure-domain.beta.kubernetes.io/zone").getD "")

/-- Write one node condition (helper for the condition writes of `syncNode`). -/
def setNodeCondition (node : LhNode) (condType status reason message : String) : LhNode :=
  let conds := SetConditionAndRecord node.status.conditions condType status reason message
  { node with status := { node.status with conditions := conds } }

/-- Lines 460–492: the manager-pod health section.  The Go loop breaks at the
first pod on this node, and inside it at the first `Ready` pod condition; a
pod without a `Ready` condition leaves the node condition untouched. -/
def syncNodePodSection (managerPods : List Pod) (node : LhNode) : LhNode :=
  match managerPods.find? (fun pod => pod.nodeName == node.name) with
  | none =>
    setNodeCondition node nodeConditionTypeReady conditionStatusFalse
      nodeConditionReasonManagerPodMissing "manager pod missing"
  | some pod =>
    match pod.conditions.find? (fun c => c.condType == podConditionTypeReady) with
    | none => node
    | some podCondition =>
      if podCondition.status = conditionStatusTrue ∧ pod.phase = podPhaseRunning then
        setNodeCondition node nodeConditionTypeReady conditionStatusTrue "" "Node is ready"
      else
        setNodeCondition node nodeConditionTypeReady conditionStatusFalse
          nodeConditionReasonManagerPodDown "the manager pod is not running"

/-- One iteration of the kube-node condition switch (lines 509–539).  The Go
`break` statements leave the `switch`, not the loop, so every kube condition
is examined; the unknown-condition default arm only emits an event. -/
def syncKubeNodeConditionStep (node : LhNode) (con : KubeNodeCondition) : LhNode :=
  if con.condType = kubeNodeConditionTypeReady then
    if con.status ≠ conditionStatusTrue then
      setNodeCondition node nodeConditionTypeReady conditionStatusFalse
        nodeConditionReasonKubernetesNodeNotReady "Kubernetes node not ready"
    else node
  else if con.condType = kubeNodeConditionTypeOutOfDisk ∨
      con.condType = kubeNodeConditionTypeDiskPressure ∨
      con.condType = kubeNodeConditionTypePIDPressure ∨
      con.condType = kubeNodeConditionTypeMemoryPressure ∨
      con.condType = kubeNodeConditionTypeNetworkUnavailable then
    if con.status = conditionStatusTrue then
      setNodeCondition node nodeConditionTypeReady conditionStatusFalse
        nodeConditionReasonKubernetesNodePressure "Kubernetes node has pressure"
    else node
  else node

/-- The `for _, con := range kubeConditions` loop of lines 509–540. -/
def syncKubeNodeConditionsLoop : List KubeNodeCondition → LhNode → LhNode
  | [], node => node
  | con :: rest, node => syncKubeNodeConditionsLoop rest (syncKubeNodeConditionStep node con)

/-- Lines 495–580: the kube-node section.  A not-found kube node sets
`Ready=False/KubernetesNodeGone` and skips the cordon/topology work; any
other lookup error propagates. -/
def syncNodeKubeSection (env : SyncEnv) (node : LhNode) : Except GoErr LhNode :=
  match env.getKubernetesNode with
  | .error e =>
    if e.isNotFound then
      .ok (setNodeCondition node nodeConditionTypeReady conditionStatusFalse
        nodeConditionReasonKubernetesNodeGone "Kubernetes node missing")
    else .error e
  | .ok kubeNode =>
    let node := syncKubeNodeConditionsLoop kubeNode.conditions node
    match env.getSettingDisableSchedulingOnCordonedNode with
    | .error e => .error e
    | .ok disableSchedulingOnCordonedNode =>
      let node :=
        if disableSchedulingOnCordonedNode ∧ kubeNode.unschedulable then
          setNodeCondition node nodeConditionTypeSchedulable conditionStatusFalse
            nodeConditionReasonKubernetesNodeCordoned "Node is cordoned"
        else
          setNodeCondition node nodeConditionTypeSchedulable conditionStatusTrue "" ""
      match env.topologyLabelsChecker with
      | .error e => .error e
      | .ok isUsingTopologyLabels =>
        let rz := GetRegionAndZone kubeNode.labels isUsingTopologyLabels
        .ok { node with status := { node.status with region := rz.1, zone := rz.2 } }

/-- The mount-propagation loop of lines 591–597: every manager pod on this
node (`syncNodeStatus` itself always returns nil). -/
def syncMountPropagationLoop : List Pod → LhNode → LhNode
  | [], node => node
  | pod :: rest, node =>
    syncMountPropagationLoop rest
      (if pod.nodeName == node.name then syncMountPropagation pod node else node)

/-- Lines 586–601: the owner-restricted tail of `syncNode` — disk sync, then
mount propagation for every manager pod on this node, then instance-manager
sync. -/
def syncNodeOwnedSection (env : SyncEnv) (managerPods : List Pod) (node : LhNode) :
    Except GoErr LhNode × List DsAction :=
  match syncDiskStatus env node with
  | .error e => (.error e, [])
  | .ok node =>
    let node := syncMountPropagationLoop managerPods node
    let r := syncInstanceManagers env node
    match r.2 with
    | some e => (.error e, r.1)
    | none => (.ok node, r.1)

/-- Lines 455–603: the body of `syncNode` after the deletion gate — node
mutations and the returned error, plus the datastore write actions.  When
`controllerID` is not this node's name the body returns right after the
kube-node section. -/
def syncNodeBody (nc : NodeControllerCfg) (env : SyncEnv) (node : LhNode) :
    Except GoErr LhNode × List DsAction :=
  match env.listManagerPods with
  | .error e => (.error e, [])
  | .ok managerPods =>
    let node := syncNodePodSection managerPods node
    match syncNodeKubeSection env node with
    | .error e => (.error e, [])
    | .ok node =>
      if nc.controllerID ≠ node.name then (.ok node, [])
      else syncNodeOwnedSection env managerPods node

/-- The externally observable outcome of one `syncNode` call. -/
structure SyncNodeOutcome where
  err : Option GoErr
  written : Option LhNode
  enqueued : Bool
  removedFinalizer : Bool
  actions : List DsAction
deriving Repr, DecidableEq

/-- The wrap applied by the outermost defer of `syncNode`
(`errors.Wrapf(err, "fail to sync node for %v", key)`; nil stays nil). -/
def wrapSyncNodeErr (e : Option GoErr) : Option GoErr :=
  e.map (GoErr.wrapped "fail to sync node")

/-- `NodeController.syncNode` (lines 414–604) for an already split key.
Control flow: foreign namespace and not-found nodes return cleanly; a node
with a deletion timestamp gets its finalizer removed; otherwise the body
runs, and the deferred writeback updates the status iff the body succeeded
and the status changed, swallowing conflict errors into a re-enqueue.  The
outermost defer wraps every non-nil returned error. -/
def syncNode (nc : NodeControllerCfg) (env : SyncEnv) (keyNamespace keyName : String) :
    SyncNodeOutcome :=
  if keyNamespace ≠ nc.controllerNamespace then
    { err := none, written := none, enqueued := false, removedFinalizer := false, actions := [] }
  else
    match env.getNode with
    | .error e =>
      if e.isNotFound then
        { err := none, written := none, enqueued := false, removedFinalizer := false,
          actions := [] }
      else
        { err := wrapSyncNodeErr (some e), written := none, enqueued := false,
          removedFinalizer := false, actions := [] }
    | .ok node =>
      if node.deletionTimestamp ≠ none then
        { err := wrapSyncNodeErr env.removeFinalizerForNode, written := none,
          enqueued := false, removedFinalizer := true, actions := [] }
      else
        let existingNode := node
        let br := syncNodeBody nc env node
        let afterWriteback : Option GoErr × Option LhNode :=
          match br.1 with
          | .error e => (some e, none)
          | .ok node2 =>
            if node2.status ≠ existingNode.status then
              (env.updateNodeStatus node2, some node2)
            else
              (none, none)
        let afterConflict : Option GoErr × Bool :=
          match afterWriteback.1 with
          | some e => if (GoErr.cause e).isConflict then (none, true) else (some e, false)
          | none => (none, false)
        { err := wrapSyncNodeErr afterConflict.1,
          written := afterWriteback.2,
          enqueued := afterConflict.2,
          removedFinalizer := false,
          actions := br.2 }


/-! ## Observers and post-state views used by the statements -/

/-- The ids of one reconcile's fsid groups, flattened. -/
def groupIds (groups : List (String × List String)) : List String :=
  (groups.map Prod.snd).join

/-- Whether a probe result is a success. -/
def exceptIsOk : Except GoErr DiskInfo → Bool
  | .ok _ => true
  | .error _ => false

/-- The disk ids whose probe succeeded, in probe order. -/
def okIds (l : List (String × Except GoErr DiskInfo)) : List String :=
  (l.filter (fun p => exceptIsOk p.2)).map Prod.fst

/-- Every id of every fsid group has a successful probe in `L` whose fsid is
the group's key. -/
def GroupsConsistent (L : List (String × Except GoErr DiskInfo))
    (gs : List (String × List String)) : Prop :=
  ∀ g ∈ gs, ∀ x ∈ g.2, ∃ info, L.lookup x = some (Except.ok info) ∧ info.fsid = g.1

/-- The entry a disk id has in a node's disk-status map (Go's map read:
a missing id reads as the zero value). -/
def diskStatusIn (node : LhNode) (id : String) : DiskStatus :=
  ((node.status.diskStatus.getD []).lookup id).getD DiskStatus.empty

/-- One disk condition of a node's disk-status entry. -/
def diskConditionIn (node : LhNode) (id condType : String) : Condition :=
  GetCondition (diskStatusIn node id).conditions condType

/-- The `Ready` disk condition of an entry of a disk-status map. -/
def readyCondOf (m : List (String × DiskStatus)) (id : String) : Condition :=
  GetCondition (((m.lookup id).getD DiskStatus.empty).conditions) diskConditionTypeReady

/-- The instance managers of one type that exist after the reconcile's
datastore writes: the listed ones minus those a `deleteIM` action named, plus
the managers the reconcile created with that type. -/
def createOfType (t : String) : DsAction → Option InstanceManager
  | .createIM im => if im.imType = t then some im else none
  | .deleteIM _ => none

def imMapAfter (ims : List InstanceManager) (acts : List DsAction) (t : String) :
    List InstanceManager :=
  ims.filter (fun im => !(decide (DsAction.deleteIM im.name ∈ acts))) ++
    acts.filterMap (createOfType t)

/-- How many managers of a listing carry the given image. -/
def countWithImage (ims : List InstanceManager) (image : String) : Nat :=
  (ims.filter (fun im => im.image == image)).length

/-- A registry with one defined setting whose cache read reports not-found. -/
def settingStoreW : SettingStore :=
  { settingDefinitions := fun n =>
      if n = "storage-minimal-available-percentage" then
        some { settingType := "int", required := true, defaultValue := "25" }
      else none,
    getSettingRO := fun _ => .error (.notFound "setting not in cache") }

/-! ## Concrete scenario data used by witnesses and counterexamples -/

/-- A replica-type instance manager sitting on a node with no disks. -/
def rmW9 : InstanceManager :=
  { name := "rm-1",
    labels := GetInstanceManagerLabels "n1" "v1" instanceManagerTypeReplica,
    ownerReferences := [], deletionTimestamp := none, image := "v1", nodeID := "n1",
    imType := instanceManagerTypeReplica, currentState := instanceManagerStateRunning,
    instances := [("i1", instanceStateRunning)] }

/-- A node with no disks declared. -/
def nodeW9 : LhNode :=
  { name := "n1", uid := "u1", deletionTimestamp := none,
    spec := { disks := [], allowScheduling := true },
    status := { conditions := none, diskStatus := none, region := "", zone := "" } }

/-- A benign environment whose lister sees `rmW9` as the only replica-type
manager and no engine-type manager. -/
def envW9 : SyncEnv :=
  { getNode := .ok nodeW9,
    removeFinalizerForNode := none,
    listManagerPods := .ok [],
    getKubernetesNode := .error (.notFound "nf"),
    getSettingDisableSchedulingOnCordonedNode := .ok false,
    topologyLabelsChecker := .ok true,
    getDiskInfo := fun _ => .error (.other "no probe"),
    getDiskConfig := fun _ => .error (.notFound "nf"),
    generateDiskConfig := fun _ => .error (.other "gen fail"),
    listReplicasByNode := .ok [],
    getSettingMinimalAvailablePercentage := .ok 25,
    getSettingDefaultInstanceManagerImage := .ok "v2",
    listInstanceManagersByNode := fun t =>
      if t = instanceManagerTypeReplica then .ok [rmW9] else .ok [],
    deleteInstanceManager := fun _ => none,
    createInstanceManager := fun im => .ok im,
    updateNodeStatus := fun _ => none }

/-- A non-default-image manager that is Running with a live instance but is
already being deleted (its DeletionTimestamp is set). -/
def imC7 : InstanceManager :=
  { name := "im-old",
    labels := GetInstanceManagerLabels "n1" "v1" instanceManagerTypeEngine,
    ownerReferences := [], deletionTimestamp := some "2020-01-01T00:00:00Z",
    image := "v1", nodeID := "n1",
    imType := instanceManagerTypeEngine, currentState := instanceManagerStateRunning,
    instances := [("i1", instanceStateRunning)] }

/-- A running non-default manager with a live instance and no deletion
timestamp, which the loop must preserve. -/
def imC7live : InstanceManager :=
  { imC7 with name := "im-live", deletionTimestamp := none }

/-- A node with one declared disk (so the replica cleanup path is not taken). -/
def nodeC7 : LhNode :=
  { name := "n1", uid := "u1", deletionTimestamp := none,
    spec := { disks := [("d1", { path := "/mnt/d1", storageReserved := 0,
                                 allowScheduling := true, tags := [] })],
              allowScheduling := true },
    status := { conditions := none, diskStatus := none, region := "", zone := "" } }

/-- Environment whose engine-type listing holds exactly `imC7`. -/
def envC7 : SyncEnv :=
  { envW9 with
    listInstanceManagersByNode := fun t =>
      if t = instanceManagerTypeEngine then .ok [imC7] else .ok [] }

/-- Environment with empty instance-manager listings for both types. -/
def envW8 : SyncEnv :=
  { envW9 with listInstanceManagersByNode := fun _ => .ok [] }

/-- A plain disk spec used by the disk-sync scenarios. -/
def dW : DiskSpec :=
  { path := "/mnt/d1", storageReserved := 0, allowScheduling := true, tags := [] }

def gib : Int := 1073741824

/-- Disk-pressure scenario: 100 GiB capacity, 5 GiB free, 10 GiB reserved,
minimal-available percentage 20. -/
def envPressW : SyncEnv :=
  { envW9 with
    getDiskInfo := fun _ => .ok { fsid := "fsA", storageMaximum := 100*gib,
                                  storageAvailable := 5*gib },
    getDiskConfig := fun _ => .ok { diskUUID := "U1" },
    getSettingMinimalAvailablePercentage := .ok 20 }

def nodePressW : LhNode :=
  { nodeW9 with
    spec := { disks := [("d1", { dW with storageReserved := 10*gib })],
              allowScheduling := true },
    status := { conditions := none, region := "", zone := "",
                diskStatus := some [("d1", { DiskStatus.empty with diskUUID := "U1" })] } }

/-- Filesystem-swap scenario: the status already records UUID `U1`, the probe
succeeds, but the on-disk config file is gone (not-found). -/
def envSwapW : SyncEnv :=
  { envW9 with
    getDiskInfo := fun _ => .ok { fsid := "fsB", storageMaximum := 1000,
                                  storageAvailable := 900 } }

def swapEntryW : DiskStatus :=
  { DiskStatus.empty with
    diskUUID := "U1",
    conditions := some [("Ready", { status := "True", reason := "", message := "" })] }

def nodeSwapW : LhNode :=
  { nodeW9 with
    spec := { disks := [("d1", dW)], allowScheduling := true },
    status := { conditions := none, region := "", zone := "",
                diskStatus := some [("d1", swapEntryW)] } }

/-- Duplicate-fsid scenario with both UUIDs already recorded: two disks whose
probes report the same fsid, both of whose recorded UUIDs match the on-disk
config. -/
def nodeDupW : LhNode :=
  { nodeW9 with
    spec := { disks := [("d1", dW), ("d2", { dW with path := "/mnt/d2" })],
              allowScheduling := true },
    status := { conditions := none, region := "", zone := "",
                diskStatus := some [("d1", { DiskStatus.empty with diskUUID := "U" }),
                                    ("d2", { DiskStatus.empty with diskUUID := "U" })] } }

def envDupW : SyncEnv :=
  { envW9 with
    getDiskInfo := fun _ => .ok { fsid := "fsX", storageMaximum := 1000,
                                  storageAvailable := 900 },
    getDiskConfig := fun _ => .ok { diskUUID := "U" } }

/-- Duplicate-fsid scenario with both UUIDs still empty: two fresh disks on
the same filesystem, no config files, UUID generation succeeding. -/
def nodeDupEW : LhNode :=
  { nodeW9 with
    spec := { disks := [("d1", dW), ("d2", { dW with path := "/mnt/d2" })],
              allowScheduling := true },
    status := { conditions := none, region := "", zone := "", diskStatus := none } }

def envDupEW : SyncEnv :=
  { envW9 with
    getDiskInfo := fun _ => .ok { fsid := "fsX", storageMaximum := 1000,
                                  storageAvailable := 900 },
    generateDiskConfig := fun _ => .ok { diskUUID := "U" } }

/-- The node a successful `syncDiskStatus` run produces (the input node when
the run fails); lets concrete runs be named in closed statements. -/
def runDiskSync (env : SyncEnv) (node : LhNode) : LhNode :=
  match syncDiskStatus env node with
  | .ok n => n
  | .error _ => node

/-- A controller identity owning node `n1`. -/
def ncW : NodeControllerCfg :=
  { controllerNamespace := "longhorn-system", controllerID := "n1" }

/-- A node owned by another controller (`n2` while the controller is `n1`). -/
def nodeC6 : LhNode := { nodeW9 with name := "n2" }

/-- Environment whose node read returns the foreign-owned node. -/
def envC6 : SyncEnv := { envW9 with getNode := .ok nodeC6 }

/-- The node a successful `syncNodeBody` run produces (the input node when
the body fails). -/
def runNodeBody (nc : NodeControllerCfg) (env : SyncEnv) (node : LhNode) : LhNode :=
  match (syncNodeBody nc env node).1 with
  | .ok n => n
  | .error _ => node

/-- Entries of a disk-status map carry materialised (non-nil) `Conditions`
and `ScheduledReplica` maps. -/
def DiskEntriesInitialized (m : List (String × DiskStatus)) : Prop :=
  ∀ id ds, m.lookup id = some ds → ds.conditions ≠ none ∧ ds.scheduledReplica ≠ none

/-! # Theorems

Helper lemmas about the map embedding, then one theorem per claim (with a
witness where the theorem carries hypotheses). -/

theorem lookup_upsert {α : Type} (m : List (String × α)) (k : String) (v : α) (j : String) :
    (upsert m k v).lookup j = if j = k then some v else m.lookup j := by
  induction m with
  | nil =>
    by_cases h : j = k
    · simp [upsert, List.lookup_cons, h]
    · simp [upsert, List.lookup_cons, beq_false_of_ne h, h]
  | cons p rest ih =>
    obtain ⟨k₀, v₀⟩ := p
    by_cases hk : k₀ = k
    · subst hk
      by_cases hj : j = k₀
      · simp [upsert, List.lookup_cons, hj]
      · simp [upsert, List.lookup_cons, beq_false_of_ne hj, hj]
    · by_cases hj : j = k₀
      · have hjk : ¬ j = k := by rw [hj]; exact hk
        simp [upsert, hk, List.lookup_cons, hj, hjk]
      · simp [upsert, hk, List.lookup_cons, beq_false_of_ne hj, ih]

theorem mem_upsert {α : Type} {k : String} {v : α} {p : String × α} :
    ∀ {m : List (String × α)}, p ∈ upsert m k v → p = (k, v) ∨ p ∈ m
  | [], h => by simpa [upsert] using h
  | (k₀, v₀) :: rest, h => by
    by_cases hk : k₀ = k
    · subst hk
      simp [upsert] at h
      rcases h with h1 | h1
      · exact Or.inl h1
      · exact Or.inr (List.mem_cons_of_mem _ h1)
    · simp only [upsert, if_neg hk, List.mem_cons] at h
      rcases h with h1 | h1
      · exact Or.inr (List.mem_cons.mpr (Or.inl h1))
      · rcases mem_upsert h1 with h2 | h2
        · exact Or.inl h2
        · exact Or.inr (List.mem_cons_of_mem _ h2)

theorem lookup_mem {α : Type} {m : List (String × α)} {k : String} {v : α}
    (h : m.lookup k = some v) : (k, v) ∈ m := by
  induction m with
  | nil => simp [List.lookup] at h
  | cons p rest ih =>
    obtain ⟨k₀, v₀⟩ := p
    by_cases hk : k = k₀
    · subst hk
      simp [List.lookup_cons] at h
      simp [← h]
    · simp [List.lookup_cons, beq_false_of_ne hk] at h
      exact List.mem_cons_of_mem _ (ih h)

theorem lookup_isSome_iff_mem_keys {α : Type} (m : List (String × α)) (k : String) :
    (m.lookup k).isSome ↔ k ∈ m.map Prod.fst := by
  induction m with
  | nil => simp [List.lookup]
  | cons p rest ih =>
    obtain ⟨k₀, v₀⟩ := p
    by_cases hk : k = k₀
    · subst hk
      simp [List.lookup_cons]
    · simp [List.lookup_cons, beq_false_of_ne hk, hk, ih]

theorem lookup_eq_some_of_nodupkeys_mem {α : Type} {m : List (String × α)} {k : String} {v : α}
    (hnd : (m.map Prod.fst).Nodup) (h : (k, v) ∈ m) : m.lookup k = some v := by
  induction m with
  | nil => simp at h
  | cons p rest ih =>
    obtain ⟨k₀, v₀⟩ := p
    simp only [List.map_cons, List.nodup_cons] at hnd
    rcases List.mem_cons.mp h with h1 | h1
    · cases h1
      simp [List.lookup_cons]
    · have hk : k ≠ k₀ := by
        rintro rfl
        exact hnd.1 (List.mem_map_of_mem Prod.fst h1)
      simp [List.lookup_cons, beq_false_of_ne hk]
      exact ih hnd.2 h1

theorem lookup_filter_keys {α : Type} (m : List (String × α)) (p : String → Bool) (k : String) :
    (m.filter (fun e => p e.1)).lookup k = if p k then m.lookup k else none := by
  induction m with
  | nil => simp [List.lookup]
  | cons q rest ih =>
    obtain ⟨k₀, v₀⟩ := q
    by_cases hq : p k₀
    · by_cases hk : k = k₀
      · subst hk
        simp [List.filter, hq, List.lookup_cons]
      · simp [List.filter, hq, List.lookup_cons, beq_false_of_ne hk, ih]
    · by_cases hk : k = k₀
      · subst hk
        simp only [List.filter]
        rw [show (p k) = false from by simpa using hq]
        simp [ih, hq]
      · simp only [List.filter]
        rw [show (p k₀) = false from by simpa using hq]
        rw [ih]
        by_cases hpk : p k <;> simp [hpk, List.lookup_cons, beq_false_of_ne hk]

theorem GetCondition_SetCondition_same (conds : Option (List (String × Condition)))
    (t s r msg : String) :
    GetCondition (SetCondition conds t s r msg) t = { status := s, reason := r, message := msg } := by
  simp [GetCondition, SetCondition, lookup_upsert]

theorem GetCondition_SetCondition_ne (conds : Option (List (String × Condition)))
    (t s r msg t' : String) (h : t' ≠ t) :
    GetCondition (SetCondition conds t s r msg) t' = GetCondition conds t' := by
  cases conds with
  | none => simp [GetCondition, SetCondition, lookup_upsert, h, List.lookup_cons, beq_false_of_ne h]
  | some cs => simp [GetCondition, SetCondition, lookup_upsert, h]

/-! ## C10: `GetSetting` never fails for defined names on a not-found cache miss -/

/-- C10: for every setting name that has a definition, `GetSetting` returns a
setting (never an error) when the cache read succeeds or reports not-found;
on a not-found it is a freshly built setting carrying the definition's
default value; an error is returned only when the cache read fails with an
error other than not-found (and such names, or undefined names, are the only
error cases). -/
theorem GetSetting_defined_total (s : SettingStore) (sName : String) (d : SettingDefinition)
    (hdef : s.settingDefinitions sName = some d) :
    (∀ e, s.getSettingRO sName = .error e → e.isNotFound = true →
      GetSetting s sName = .ok { name := sName, value := d.defaultValue }) ∧
    (∀ st, s.getSettingRO sName = .ok st → GetSetting s sName = .ok st) ∧
    (∀ e, GetSetting s sName = .error e →
      s.getSettingRO sName = .error e ∧ e.isNotFound = false) := by
  refine ⟨?_, ?_, ?_⟩
  · intro e he hnf
    simp [GetSetting, hdef, he, hnf]
  · intro st hst
    simp [GetSetting, hdef, hst]
  · intro e he
    unfold GetSetting at he
    rw [hdef] at he
    cases hro : s.getSettingRO sName with
    | ok st => rw [hro] at he; simp at he
    | error e2 =>
      rw [hro] at he
      by_cases hnf : e2.isNotFound
      · simp [hnf] at he
      · simp only [Bool.not_eq_true] at hnf
        simp [hnf] at he
        subst he
        exact ⟨rfl, hnf⟩

/-- Witness for C10 at a concrete store: the defined name resolves to its
default value instead of an error. -/
theorem GetSetting_defined_total_witness :
    GetSetting settingStoreW "storage-minimal-available-percentage" =
      .ok { name := "storage-minimal-available-percentage", value := "25" } := by
  exact (GetSetting_defined_total settingStoreW "storage-minimal-available-percentage"
    { settingType := "int", required := true, defaultValue := "25" } (by rfl)).1
    (.notFound "setting not in cache") (by rfl) (by rfl)

/-! ## Instance-manager loop characterizations -/

theorem deleteInstanceManagersLoop_ok (env : SyncEnv) :
    ∀ rms : List InstanceManager, (deleteInstanceManagersLoop env rms).2 = none →
      (deleteInstanceManagersLoop env rms).1 =
        rms.map (fun rm => DsAction.deleteIM rm.name)
  | [], _ => rfl
  | rm :: rest, h => by
    cases hdel : env.deleteInstanceManager rm.name with
    | some e => simp [deleteInstanceManagersLoop, hdel] at h
    | none =>
      simp only [deleteInstanceManagersLoop, hdel] at h ⊢
      rw [deleteInstanceManagersLoop_ok env rest h]
      simp

theorem syncIMListLoop_ok (env : SyncEnv) (dflt : String) :
    ∀ (ims : List InstanceManager) (b : Bool),
      (syncIMListLoop env dflt ims b).2.2 = none →
      (syncIMListLoop env dflt ims b).1 =
        (ims.filter (fun im => cleanupRequiredFor im dflt)).map
          (fun im => DsAction.deleteIM im.name) ∧
      (syncIMListLoop env dflt ims b).2.1 = (b || ims.any (fun im => im.image == dflt))
  | [], b, _ => by simp [syncIMListLoop]
  | im :: rest, b, h => by
    by_cases hlbl : (im.labels.lookup longhornLabelKeyNode).getD "" ≠ im.nodeID
    · simp [syncIMListLoop, hlbl] at h
    · simp only [syncIMListLoop] at h ⊢
      rw [if_neg hlbl] at h ⊢
      by_cases hclean : cleanupRequiredFor im dflt
      · rw [if_pos hclean] at h ⊢
        cases hdel : env.deleteInstanceManager im.name with
        | some e => simp [hdel] at h
        | none =>
          simp only [hdel] at h ⊢
          obtain ⟨h1, h2⟩ := syncIMListLoop_ok env dflt rest
            (b || (im.image == dflt)) h
          simp [List.filter_cons, hclean, h1, h2, Bool.or_assoc]
      · rw [if_neg hclean] at h ⊢
        obtain ⟨h1, h2⟩ := syncIMListLoop_ok env dflt rest (b || (im.image == dflt)) h
        simp [List.filter_cons, hclean, h1, h2, Bool.or_assoc]

theorem syncIMListLoop_acts_deletes (env : SyncEnv) (dflt : String) :
    ∀ (ims : List InstanceManager) (b : Bool) (a : DsAction),
      a ∈ (syncIMListLoop env dflt ims b).1 →
      ∃ im, im ∈ ims ∧ a = DsAction.deleteIM im.name ∧ cleanupRequiredFor im dflt = true
  | [], b, a, h => by simp [syncIMListLoop] at h
  | im :: rest, b, a, h => by
    by_cases hlbl : (im.labels.lookup longhornLabelKeyNode).getD "" ≠ im.nodeID
    · simp [syncIMListLoop, hlbl] at h
    · simp only [syncIMListLoop] at h
      rw [if_neg hlbl] at h
      by_cases hclean : cleanupRequiredFor im dflt
      · rw [if_pos hclean] at h
        cases hdel : env.deleteInstanceManager im.name with
        | some e =>
          simp [hdel] at h
          exact ⟨im, List.mem_cons_self _ _, h, hclean⟩
        | none =>
          simp only [hdel, List.mem_cons] at h
          rcases h with h | h
          · exact ⟨im, List.mem_cons_self _ _, h, hclean⟩
          · obtain ⟨im2, hmem, ha, hc⟩ := syncIMListLoop_acts_deletes env dflt rest _ a h
            exact ⟨im2, List.mem_cons_of_mem _ hmem, ha, hc⟩
      · rw [if_neg hclean] at h
        obtain ⟨im2, hmem, ha, hc⟩ := syncIMListLoop_acts_deletes env dflt rest _ a h
        exact ⟨im2, List.mem_cons_of_mem _ hmem, ha, hc⟩

theorem syncIMType_create_mem (env : SyncEnv) (node : LhNode) (dflt t : String)
    (im : InstanceManager) (h : DsAction.createIM im ∈ (syncIMType env node dflt t).1) :
    im.imType = t ∧ im.image = dflt ∧ im.nodeID = node.name ∧
      im.labels = GetInstanceManagerLabels node.name dflt t ∧
      im.ownerReferences = GetOwnerReferencesForNode node := by
  unfold syncIMType at h
  cases hlist : env.listInstanceManagersByNode t with
  | error e => rw [hlist] at h; simp at h
  | ok ims =>
    rw [hlist] at h
    simp only at h
    rcases hloop : (syncIMListLoop env dflt ims false).2.2 with _ | e2
    · rw [hloop] at h
      simp only at h
      by_cases hdc : (syncIMListLoop env dflt ims false).2.1
      · simp [hdc] at h
        obtain ⟨im2, _, ha, _⟩ := syncIMListLoop_acts_deletes env dflt ims false _ h
        simp at ha
      · simp only [hdc, Bool.not_false, if_pos] at h
        cases hname : GetInstanceManagerName t with
        | error e3 =>
          rw [hname] at h
          obtain ⟨im2, _, ha, _⟩ := syncIMListLoop_acts_deletes env dflt ims false _ h
          simp at ha
        | ok nm =>
          rw [hname] at h
          simp only at h
          have : DsAction.createIM im ∈ (syncIMListLoop env dflt ims false).1 ++
              [DsAction.createIM (createInstanceManagerObject node nm dflt t)] := by
            cases hcr : env.createInstanceManager (createInstanceManagerObject node nm dflt t) with
            | error e4 => simpa [hcr] using h
            | ok im3 => simpa [hcr] using h
          rcases List.mem_append.mp this with h2 | h2
          · obtain ⟨im2, _, ha, _⟩ := syncIMListLoop_acts_deletes env dflt ims false _ h2
            simp at ha
          · simp at h2
            subst h2
            simp [createInstanceManagerObject]
    · rw [hloop] at h
      obtain ⟨im2, _, ha, _⟩ := syncIMListLoop_acts_deletes env dflt ims false _ h
      simp at ha

/-! ## C9: a node with no disks keeps no replica-type instance manager -/

/-- C9: when `Spec.Disks` is empty and the reconcile's instance-manager sync
returns without error, `DeleteInstanceManager` was called on every listed
replica-type manager regardless of its state, every created manager is of
engine type (Replica is not among the needed types), and no replica-type
manager remains afterwards. -/
theorem syncInstanceManagers_no_disks (env : SyncEnv) (node : LhNode)
    (rms : List InstanceManager) (acts : List DsAction)
    (hdisks : node.spec.disks = [])
    (hlist : env.listInstanceManagersByNode instanceManagerTypeReplica = .ok rms)
    (hrun : syncInstanceManagers env node = (acts, none)) :
    (∀ rm ∈ rms, DsAction.deleteIM rm.name ∈ acts) ∧
    (∀ im, DsAction.createIM im ∈ acts → im.imType = instanceManagerTypeEngine) ∧
    imMapAfter rms acts instanceManagerTypeReplica = [] := by
  unfold syncInstanceManagers at hrun
  cases hdf : env.getSettingDefaultInstanceManagerImage with
  | error e =>
    rw [hdf] at hrun
    simp at hrun
  | ok dflt =>
    rw [hdf] at hrun
    simp only [hdisks, List.length_nil, eq_self_iff_true, if_true, hlist] at hrun
    cases hc2 : (deleteInstanceManagersLoop env rms).2 with
    | some e => rw [hc2] at hrun; simp at hrun
    | none =>
      rw [hc2] at hrun
      simp only [List.foldl_cons, List.foldl_nil] at hrun
      cases ht : (syncIMType env node dflt instanceManagerTypeEngine).2 with
      | some e =>
        rw [ht] at hrun
        simp at hrun
      | none =>
        rw [ht] at hrun
        simp only [Prod.mk.injEq] at hrun
        obtain ⟨hacts, -⟩ := hrun
        have hdel := deleteInstanceManagersLoop_ok env rms hc2
        have hmem : ∀ rm ∈ rms, DsAction.deleteIM rm.name ∈ acts := by
          intro rm hrm
          rw [← hacts]
          exact List.mem_append_left _ (hdel ▸ List.mem_map_of_mem _ hrm)
        have hcre : ∀ im, DsAction.createIM im ∈ acts → im.imType = instanceManagerTypeEngine := by
          intro im him
          rw [← hacts] at him
          rcases List.mem_append.mp him with h | h
          · rw [hdel] at h
            simp only [List.mem_map] at h
            obtain ⟨rm, -, hbad⟩ := h
            exact absurd hbad (by simp)
          · exact (syncIMType_create_mem env node dflt instanceManagerTypeEngine im h).1
        refine ⟨hmem, hcre, ?_⟩
        unfold imMapAfter
        rw [List.filter_eq_nil.mpr, List.filterMap_eq_nil.mpr, List.nil_append]
        · intro a ha
          cases a with
          | deleteIM nm => rfl
          | createIM im =>
            have := hcre im ha
            simp only [createOfType]
            rw [if_neg]
            rw [this]
            intro hcontra
            exact absurd hcontra (by decide)
        · intro rm hrm
          simp [hmem rm hrm]

/-- Witness for C9: on the disk-free node `nodeW9` the sole replica manager
`rmW9` is deleted and no replica-type manager survives. -/
theorem syncInstanceManagers_no_disks_witness :
    DsAction.deleteIM "rm-1" ∈ (syncInstanceManagers envW9 nodeW9).1 ∧
    imMapAfter [rmW9] (syncInstanceManagers envW9 nodeW9).1 instanceManagerTypeReplica = [] := by
  obtain ⟨h1, h2, h3⟩ := syncInstanceManagers_no_disks envW9 nodeW9 [rmW9]
    (syncInstanceManagers envW9 nodeW9).1 rfl (by rfl) (by rfl)
  exact ⟨by simpa [rmW9] using h1 rmW9 (by simp), h3⟩

/-! ## C7: which instance managers the per-type loop deletes -/

theorem cleanupRequiredFor_iff (im : InstanceManager) (dflt : String) :
    cleanupRequiredFor im dflt = true ↔
      im.image ≠ dflt ∧ (im.currentState ≠ instanceManagerStateRunning ∨
        im.deletionTimestamp ≠ none ∨
        ∀ inst ∈ im.instances,
          inst.2 ≠ instanceStateRunning ∧ inst.2 ≠ instanceStateStarting) := by
  unfold cleanupRequiredFor
  by_cases h1 : im.image = dflt
  · simp [h1]
  · by_cases h2 : im.currentState = instanceManagerStateRunning ∧ im.deletionTimestamp = none
    · obtain ⟨h2a, h2b⟩ := h2
      rw [if_neg h1, if_pos ⟨h2a, h2b⟩]
      constructor
      · intro h
        simp only [Bool.not_eq_true', List.any_eq_false] at h
        refine ⟨h1, Or.inr (Or.inr ?_)⟩
        intro inst hinst
        have hb : (inst.2 == instanceStateRunning || inst.2 == instanceStateStarting) = false := by
          simpa using h inst hinst
        simp only [Bool.or_eq_false_iff] at hb
        exact ⟨by simpa using hb.1, by simpa using hb.2⟩
      · rintro ⟨-, h | h | h⟩
        · exact absurd h2a h
        · exact absurd h2b h
        · have hany : im.instances.any (fun inst =>
              inst.2 == instanceStateRunning || inst.2 == instanceStateStarting) = false := by
            simp only [List.any_eq_false]
            intro inst hinst
            have hq := h inst hinst
            simp [beq_false_of_ne hq.1, beq_false_of_ne hq.2]
          simp [hany]
    · rw [if_neg h1, if_neg h2]
      simp only [true_iff]
      refine ⟨h1, ?_⟩
      rcases not_and_or.mp h2 with h | h
      · exact Or.inl h
      · exact Or.inr (Or.inl h)

theorem syncIMType_act_cases (env : SyncEnv) (node : LhNode) (dflt t : String)
    (ims : List InstanceManager)
    (hlist : env.listInstanceManagersByNode t = .ok ims) :
    ∀ a ∈ (syncIMType env node dflt t).1,
      (∃ im2 ∈ ims, a = DsAction.deleteIM im2.name ∧ cleanupRequiredFor im2 dflt = true) ∨
      (∃ nm, a = DsAction.createIM (createInstanceManagerObject node nm dflt t)) := by
  intro a ha
  unfold syncIMType at ha
  rw [hlist] at ha
  simp only at ha
  rcases hloop : (syncIMListLoop env dflt ims false).2.2 with _ | e2
  · rw [hloop] at ha
    simp only at ha
    by_cases hdc : (syncIMListLoop env dflt ims false).2.1
    · simp only [hdc, Bool.not_true, Bool.false_eq_true, if_false] at ha
      obtain ⟨im2, hm, he, hc⟩ := syncIMListLoop_acts_deletes env dflt ims false a ha
      exact Or.inl ⟨im2, hm, he, hc⟩
    · simp only [hdc, Bool.not_false, if_pos] at ha
      cases hname : GetInstanceManagerName t with
      | error e3 =>
        rw [hname] at ha
        obtain ⟨im2, hm, he, hc⟩ := syncIMListLoop_acts_deletes env dflt ims false a ha
        exact Or.inl ⟨im2, hm, he, hc⟩
      | ok nm =>
        rw [hname] at ha
        simp only at ha
        have hmem : a ∈ (syncIMListLoop env dflt ims false).1 ++
            [DsAction.createIM (createInstanceManagerObject node nm dflt t)] := by
          cases hcr : env.createInstanceManager (createInstanceManagerObject node nm dflt t) with
          | error e4 => simpa [hcr] using ha
          | ok im3 => simpa [hcr] using ha
        rcases List.mem_append.mp hmem with h2 | h2
        · obtain ⟨im2, hm, he, hc⟩ := syncIMListLoop_acts_deletes env dflt ims false a h2
          exact Or.inl ⟨im2, hm, he, hc⟩
        · simp at h2
          exact Or.inr ⟨nm, h2⟩
  · rw [hloop] at ha
    obtain ⟨im2, hm, he, hc⟩ := syncIMListLoop_acts_deletes env dflt ims false a ha
    exact Or.inl ⟨im2, hm, he, hc⟩

/-- C7 (amended): in the per-type loop of `syncInstanceManagers`, a listed
manager is deleted only if its image differs from the default AND (it is not
`Running`, OR its DeletionTimestamp is already set, OR none of its instances
is `Running` or `Starting`); a running, not-being-deleted, non-default
manager with a live instance is preserved; a default-image manager is never
deleted by this loop. -/
theorem syncIMType_cleanup_policy (env : SyncEnv) (node : LhNode) (dflt t : String)
    (ims : List InstanceManager)
    (hlist : env.listInstanceManagersByNode t = .ok ims)
    (huniq : ∀ im1 ∈ ims, ∀ im2 ∈ ims, im1.name = im2.name → im1 = im2) :
    (∀ im ∈ ims, DsAction.deleteIM im.name ∈ (syncIMType env node dflt t).1 →
      im.image ≠ dflt ∧ (im.currentState ≠ instanceManagerStateRunning ∨
        im.deletionTimestamp ≠ none ∨
        ∀ inst ∈ im.instances,
          inst.2 ≠ instanceStateRunning ∧ inst.2 ≠ instanceStateStarting)) ∧
    (∀ im ∈ ims, im.image ≠ dflt → im.currentState = instanceManagerStateRunning →
      im.deletionTimestamp = none →
      (∃ inst ∈ im.instances, inst.2 = instanceStateRunning ∨ inst.2 = instanceStateStarting) →
      DsAction.deleteIM im.name ∉ (syncIMType env node dflt t).1) ∧
    (∀ im ∈ ims, im.image = dflt →
      DsAction.deleteIM im.name ∉ (syncIMType env node dflt t).1) := by
  have hdel : ∀ im ∈ ims, DsAction.deleteIM im.name ∈ (syncIMType env node dflt t).1 →
      cleanupRequiredFor im dflt = true := by
    intro im hmem hact
    rcases syncIMType_act_cases env node dflt t ims hlist _ hact with
      ⟨im2, hm2, he2, hc2⟩ | ⟨nm, he2⟩
    · have : im2 = im := huniq im2 hm2 im hmem (by
        injection he2 with h
        exact h.symm)
      exact this ▸ hc2
    · simp at he2
  refine ⟨?_, ?_, ?_⟩
  · intro im hmem hact
    exact (cleanupRequiredFor_iff im dflt).mp (hdel im hmem hact)
  · intro im hmem himg hrun hdts ⟨inst, hinst, hlive⟩ hact
    obtain ⟨-, h | h | h⟩ := (cleanupRequiredFor_iff im dflt).mp (hdel im hmem hact)
    · exact h hrun
    · exact h hdts
    · rcases hlive with hl | hl
      · exact (h inst hinst).1 hl
      · exact (h inst hinst).2 hl
  · intro im hmem himg hact
    exact ((cleanupRequiredFor_iff im dflt).mp (hdel im hmem hact)).1 himg

/-- Counterexample for C7 as frozen: `imC7` is non-default, `Running` and has
a `Running` instance, yet the sync deletes it (because its DeletionTimestamp
is set) — contradicting the claim that such a manager is deleted only when
not Running or without live instances. -/
theorem syncIMType_cleanup_policy_cex :
    imC7.image ≠ "v2" ∧
    imC7.currentState = instanceManagerStateRunning ∧
    (∃ inst ∈ imC7.instances,
      inst.2 = instanceStateRunning ∨ inst.2 = instanceStateStarting) ∧
    DsAction.deleteIM imC7.name ∈ (syncInstanceManagers envC7 nodeC7).1 := by
  refine ⟨by decide, by decide, ⟨("i1", instanceStateRunning), by decide, by decide⟩, ?_⟩
  decide

/-- Witness for the amended C7: with `imC7live` (running, live instance, not
being deleted) listed, no delete action is produced for it. -/
theorem syncIMType_cleanup_policy_witness :
    DsAction.deleteIM "im-live" ∉
      (syncIMType { envC7 with listInstanceManagersByNode := fun t =>
          if t = instanceManagerTypeEngine then .ok [imC7live] else .ok [] }
        nodeC7 "v2" instanceManagerTypeEngine).1 := by
  have h := (syncIMType_cleanup_policy
    { envC7 with listInstanceManagersByNode := fun t =>
        if t = instanceManagerTypeEngine then .ok [imC7live] else .ok [] }
    nodeC7 "v2" instanceManagerTypeEngine [imC7live] (by rfl)
    (by intro im1 h1 im2 h2 _; simp at h1 h2; rw [h1, h2])).2.1
  have := h imC7live (by simp) (by decide) (by decide) (by decide)
    ⟨("i1", instanceStateRunning), by decide, Or.inl (by decide)⟩
  simpa [imC7live, imC7] using this

/-! ## C8: exactly one default-image manager per needed type -/

theorem syncIMType_ok_decomp (env : SyncEnv) (node : LhNode) (dflt t : String)
    (ims : List InstanceManager)
    (hlist : env.listInstanceManagersByNode t = .ok ims)
    (hok : (syncIMType env node dflt t).2 = none) :
    ∃ creates, (syncIMType env node dflt t).1 =
        (ims.filter (fun im => cleanupRequiredFor im dflt)).map
          (fun im => DsAction.deleteIM im.name) ++ creates ∧
      ((ims.any (fun im => im.image == dflt) = true → creates = []) ∧
       (ims.any (fun im => im.image == dflt) = false →
         ∃ nm, GetInstanceManagerName t = .ok nm ∧
           creates = [DsAction.createIM (createInstanceManagerObject node nm dflt t)])) := by
  rcases hloop : (syncIMListLoop env dflt ims false).2.2 with _ | e2
  · obtain ⟨h1, h2⟩ := syncIMListLoop_ok env dflt ims false hloop
    rw [Bool.false_or] at h2
    by_cases hany : ims.any (fun im => im.image == dflt)
    · refine ⟨[], ?_, fun _ => rfl, fun hc => by rw [hany] at hc; cases hc⟩
      unfold syncIMType
      rw [hlist]
      simp [hloop, h2, hany, h1]
    · simp only [Bool.not_eq_true] at hany
      cases hname : GetInstanceManagerName t with
      | error e3 =>
        exfalso
        unfold syncIMType at hok
        rw [hlist] at hok
        simp [hloop, h2, hany, hname] at hok
      | ok nm =>
        cases hcr : env.createInstanceManager (createInstanceManagerObject node nm dflt t) with
        | error e4 =>
          exfalso
          unfold syncIMType at hok
          rw [hlist] at hok
          simp [hloop, h2, hany, hname, hcr] at hok
        | ok im3 =>
          refine ⟨[DsAction.createIM (createInstanceManagerObject node nm dflt t)], ?_, ?_, ?_⟩
          · unfold syncIMType
            rw [hlist]
            simp [hloop, h2, hany, hname, hcr, h1]
          · intro hc
            rw [hc] at hany
            cases hany
          · intro _
            exact ⟨nm, rfl, rfl⟩
  · exfalso
    unfold syncIMType at hok
    rw [hlist] at hok
    simp [hloop] at hok

theorem countWithImage_cons (im : InstanceManager) (rest : List InstanceManager)
    (dflt : String) :
    countWithImage (im :: rest) dflt =
      (if im.image = dflt then 1 else 0) + countWithImage rest dflt := by
  by_cases h : im.image = dflt
  · simp [countWithImage, List.filter_cons, h, Nat.add_comm]
  · simp [countWithImage, List.filter_cons, beq_false_of_ne h, h]

theorem countWithImage_append (l1 l2 : List InstanceManager) (dflt : String) :
    countWithImage (l1 ++ l2) dflt = countWithImage l1 dflt + countWithImage l2 dflt := by
  simp [countWithImage, List.filter_append]

theorem countWithImage_eq_zero_iff (ims : List InstanceManager) (dflt : String) :
    countWithImage ims dflt = 0 ↔ ims.any (fun im => im.image == dflt) = false := by
  simp only [countWithImage, List.length_eq_zero, List.filter_eq_nil_iff, List.any_eq_false]

theorem countWithImage_pos_of_any (ims : List InstanceManager) (dflt : String)
    (h : ims.any (fun im => im.image == dflt) = true) : 1 ≤ countWithImage ims dflt := by
  obtain ⟨im, hm, himg⟩ := List.any_eq_true.mp h
  have : im ∈ ims.filter (fun im => im.image == dflt) := List.mem_filter.mpr ⟨hm, himg⟩
  have := List.length_pos.mpr (List.ne_nil_of_mem this)
  simpa [countWithImage] using this

theorem countWithImage_filter_keep (ims : List InstanceManager) (dflt : String)
    (p : InstanceManager → Bool) (h : ∀ im ∈ ims, im.image = dflt → p im = true) :
    countWithImage (ims.filter p) dflt = countWithImage ims dflt := by
  induction ims with
  | nil => rfl
  | cons im rest ih =>
    have hrest := ih (fun im2 hm => h im2 (List.mem_cons_of_mem _ hm))
    by_cases himg : im.image = dflt
    · rw [List.filter_cons, if_pos (by simpa using h im (List.mem_cons_self _ _) himg)]
      rw [countWithImage_cons, countWithImage_cons, if_pos himg, hrest]
    · by_cases hp : p im
      · rw [List.filter_cons, if_pos (by simpa using hp)]
        rw [countWithImage_cons, countWithImage_cons, if_neg himg, hrest]
      · rw [List.filter_cons, if_neg (by simpa using hp)]
        rw [countWithImage_cons, if_neg himg, hrest]
        simp

theorem filterMap_createOfType_map_delete (t : String) (l : List InstanceManager) :
    (l.map (fun im => DsAction.deleteIM im.name)).filterMap (createOfType t) = [] := by
  induction l with
  | nil => rfl
  | cons im rest ih => simp [createOfType, ih]

theorem filterMap_createOfType_singleton (t : String) (im : InstanceManager) :
    ([DsAction.createIM im]).filterMap (createOfType t) =
      if im.imType = t then [im] else [] := by
  by_cases h : im.imType = t <;> simp [createOfType, h]

theorem name_ne_of_nodup_append {l1 l2 : List InstanceManager}
    (h : ((l1 ++ l2).map InstanceManager.name).Nodup) {a b : InstanceManager}
    (ha : a ∈ l1) (hb : b ∈ l2) : a.name ≠ b.name := by
  rw [List.map_append] at h
  have hd := (List.nodup_append.mp h).2.2
  intro he
  exact hd (List.mem_map_of_mem _ ha) (he ▸ List.mem_map_of_mem _ hb)

/-- The per-type core of C8: when the loop for type `t` succeeded and the
surrounding actions can neither delete a `t`-listed name nor create a
`t`-typed manager, the post-state holds exactly one default-image manager,
and a creation with the canonical object happened iff none was listed. -/
theorem imMapAfter_one_default (env : SyncEnv) (node : LhNode) (dflt t : String)
    (imsT : List InstanceManager) (pre post : List DsAction) (acts : List DsAction)
    (hlist : env.listInstanceManagersByNode t = .ok imsT)
    (hok : (syncIMType env node dflt t).2 = none)
    (hacts : acts = pre ++ (syncIMType env node dflt t).1 ++ post)
    (hprefm : pre.filterMap (createOfType t) = [])
    (hpostfm : post.filterMap (createOfType t) = [])
    (hprename : ∀ nm, DsAction.deleteIM nm ∈ pre → ∀ im ∈ imsT, im.name ≠ nm)
    (hpostname : ∀ nm, DsAction.deleteIM nm ∈ post → ∀ im ∈ imsT, im.name ≠ nm)
    (hnodupT : (imsT.map InstanceManager.name).Nodup)
    (hcount : countWithImage imsT dflt ≤ 1) :
    countWithImage (imMapAfter imsT acts t) dflt = 1 ∧
    (countWithImage imsT dflt = 0 →
      ∃ nm, GetInstanceManagerName t = .ok nm ∧
        DsAction.createIM (createInstanceManagerObject node nm dflt t) ∈ acts) := by
  obtain ⟨creates, hdec, hctrue, hcfalse⟩ := syncIMType_ok_decomp env node dflt t imsT hlist hok
  have hnodel : ∀ im ∈ imsT, im.image = dflt →
      DsAction.deleteIM im.name ∉ acts := by
    intro im hm himg hdel
    rw [hacts] at hdel
    rcases List.mem_append.mp hdel with hdel | hdel
    · rcases List.mem_append.mp hdel with hdel | hdel
      · exact hprename im.name hdel im hm rfl
      · rw [hdec] at hdel
        rcases List.mem_append.mp hdel with hdel | hdel
        · simp only [List.mem_map] at hdel
          obtain ⟨im2, hm2, heq⟩ := hdel
          have hm2im : im2 ∈ imsT := (List.mem_filter.mp hm2).1
          have hclean : cleanupRequiredFor im2 dflt = true := by
            simpa using (List.mem_filter.mp hm2).2
          have hname : im2.name = im.name := by injection heq
          have : im2 = im := List.inj_on_of_nodup_map hnodupT hm2im hm hname
          subst this
          exact ((cleanupRequiredFor_iff im2 dflt).mp hclean).1 himg
        · by_cases hany : imsT.any (fun im => im.image == dflt)
          · rw [hctrue hany] at hdel
            simp at hdel
          · obtain ⟨nm, -, hcr⟩ := hcfalse (by simpa using hany)
            rw [hcr] at hdel
            simp at hdel
    · exact hpostname im.name hdel im hm rfl
  have hfilter : countWithImage
      (imsT.filter (fun im => !(decide (DsAction.deleteIM im.name ∈ acts)))) dflt =
      countWithImage imsT dflt := by
    apply countWithImage_filter_keep
    intro im hm himg
    simpa using hnodel im hm himg
  have hfm : acts.filterMap (createOfType t) = creates.filterMap (createOfType t) := by
    rw [hacts, hdec]
    simp only [List.filterMap_append, hprefm, hpostfm,
      filterMap_createOfType_map_delete]
    simp
  by_cases hany : imsT.any (fun im => im.image == dflt)
  · have hcreates := hctrue hany
    have hT1 : countWithImage imsT dflt = 1 :=
      Nat.le_antisymm hcount (countWithImage_pos_of_any imsT dflt hany)
    constructor
    · rw [imMapAfter, countWithImage_append, hfilter, hfm, hcreates]
      rw [hT1]
      rfl
    · intro h0
      rw [h0] at hT1
      cases hT1
  · have hany0 : imsT.any (fun im => im.image == dflt) = false := by simpa using hany
    obtain ⟨nm, hnm, hcreates⟩ := hcfalse hany0
    have hT0 : countWithImage imsT dflt = 0 := (countWithImage_eq_zero_iff imsT dflt).mpr hany0
    constructor
    · rw [imMapAfter, countWithImage_append, hfilter, hfm, hcreates, hT0]
      rw [filterMap_createOfType_singleton]
      rw [if_pos (by simp [createInstanceManagerObject])]
      simp [countWithImage, createInstanceManagerObject]
    · intro h0
      refine ⟨nm, hnm, ?_⟩
      rw [hacts, hdec, hcreates]
      exact List.mem_append.mpr (Or.inl (List.mem_append.mpr (Or.inr
        (List.mem_append.mpr (Or.inr (List.mem_singleton_self _))))))

theorem syncIMType_delete_names (env : SyncEnv) (node : LhNode) (dflt u : String)
    (ims : List InstanceManager)
    (hlist : env.listInstanceManagersByNode u = .ok ims) :
    ∀ nm, DsAction.deleteIM nm ∈ (syncIMType env node dflt u).1 →
      ∃ im2 ∈ ims, im2.name = nm := by
  intro nm hmem
  rcases syncIMType_act_cases env node dflt u ims hlist _ hmem with
    ⟨im2, hm2, he2, -⟩ | ⟨nm2, he2⟩
  · exact ⟨im2, hm2, by injection he2 with h; exact h.symm⟩
  · simp at he2

theorem filterMap_createOfType_syncIMType_other (env : SyncEnv) (node : LhNode)
    (dflt t u : String) (ims : List InstanceManager)
    (hlist : env.listInstanceManagersByNode u = .ok ims)
    (hok : (syncIMType env node dflt u).2 = none) (hne : u ≠ t) :
    (syncIMType env node dflt u).1.filterMap (createOfType t) = [] := by
  obtain ⟨creates, hdec, hctrue, hcfalse⟩ := syncIMType_ok_decomp env node dflt u ims hlist hok
  rw [hdec, List.filterMap_append, filterMap_createOfType_map_delete]
  by_cases hany : ims.any (fun im => im.image == dflt)
  · rw [hctrue hany]
    rfl
  · obtain ⟨nm, -, hcr⟩ := hcfalse (by simpa using hany)
    rw [hcr, List.nil_append, filterMap_createOfType_singleton]
    rw [if_neg (by simpa [createInstanceManagerObject] using hne)]

theorem syncInstanceManagers_ok_decomp (env : SyncEnv) (node : LhNode)
    (acts : List DsAction) (dflt : String)
    (hdf : env.getSettingDefaultInstanceManagerImage = .ok dflt)
    (hrun : syncInstanceManagers env node = (acts, none)) :
    (node.spec.disks = [] →
      ∃ rms, env.listInstanceManagersByNode instanceManagerTypeReplica = .ok rms ∧
        acts = rms.map (fun rm => DsAction.deleteIM rm.name) ++
          (syncIMType env node dflt instanceManagerTypeEngine).1 ∧
        (syncIMType env node dflt instanceManagerTypeEngine).2 = none) ∧
    (node.spec.disks ≠ [] →
      acts = (syncIMType env node dflt instanceManagerTypeEngine).1 ++
        (syncIMType env node dflt instanceManagerTypeReplica).1 ∧
      (syncIMType env node dflt instanceManagerTypeEngine).2 = none ∧
      (syncIMType env node dflt instanceManagerTypeReplica).2 = none) := by
  unfold syncInstanceManagers at hrun
  rw [hdf] at hrun
  simp only at hrun
  constructor
  · intro hd
    rw [hd] at hrun
    simp only [List.length_nil, eq_self_iff_true, if_true] at hrun
    cases hlr : env.listInstanceManagersByNode instanceManagerTypeReplica with
    | error e =>
      rw [hlr] at hrun
      simp at hrun
    | ok rms =>
      rw [hlr] at hrun
      simp only at hrun
      cases hc2 : (deleteInstanceManagersLoop env rms).2 with
      | some e =>
        rw [hc2] at hrun
        simp at hrun
      | none =>
        rw [hc2] at hrun
        simp only [List.foldl_cons, List.foldl_nil] at hrun
        cases hokE : (syncIMType env node dflt instanceManagerTypeEngine).2 with
        | some e =>
          rw [hokE] at hrun
          simp at hrun
        | none =>
          rw [hokE] at hrun
          simp only [Prod.mk.injEq] at hrun
          refine ⟨rms, rfl, ?_, rfl⟩
          rw [← hrun.1, deleteInstanceManagersLoop_ok env rms hc2]
  · intro hd
    have hlen : ¬ (node.spec.disks.length = 0) := by
      simpa [List.length_eq_zero] using hd
    simp only [if_neg hlen] at hrun
    simp only [List.foldl_cons, List.foldl_nil] at hrun
    cases hokE : (syncIMType env node dflt instanceManagerTypeEngine).2 with
    | some e =>
      rw [hokE] at hrun
      simp at hrun
    | none =>
      rw [hokE] at hrun
      simp only [List.nil_append] at hrun
      cases hokR : (syncIMType env node dflt instanceManagerTypeReplica).2 with
      | some e =>
        rw [hokR] at hrun
        simp at hrun
      | none =>
        rw [hokR] at hrun
        simp only [Prod.mk.injEq] at hrun
        exact ⟨hrun.1.symm, rfl, rfl⟩

/-- C8: for each needed instance-manager type (Engine always, Replica iff
`Spec.Disks` is non-empty), a reconcile that returns without error leaves
exactly one manager carrying the current default image; when the listing had
none, the sync created one whose name comes from `GetInstanceManagerName`,
whose labels are `GetInstanceManagerLabels` (encoding node, image, type) and
whose owner references are `GetOwnerReferencesForNode node` — all by the
definition of `createInstanceManagerObject`.  The listing hypotheses record
that names are unique across the two type listings and that at most one
listed manager of the type already carried the default image (guaranteed in
the running system by the deterministic manager name). -/
theorem syncInstanceManagers_one_default (env : SyncEnv) (node : LhNode)
    (acts : List DsAction) (dflt t : String)
    (imsT imsE imsR : List InstanceManager)
    (hdf : env.getSettingDefaultInstanceManagerImage = .ok dflt)
    (hrun : syncInstanceManagers env node = (acts, none))
    (hlistE : env.listInstanceManagersByNode instanceManagerTypeEngine = .ok imsE)
    (hlistR : env.listInstanceManagersByNode instanceManagerTypeReplica = .ok imsR)
    (hnodup : ((imsE ++ imsR).map InstanceManager.name).Nodup)
    (ht : (t = instanceManagerTypeEngine ∧ imsT = imsE) ∨
          (t = instanceManagerTypeReplica ∧ imsT = imsR ∧ node.spec.disks ≠ []))
    (hcount : countWithImage imsT dflt ≤ 1) :
    countWithImage (imMapAfter imsT acts t) dflt = 1 ∧
    (countWithImage imsT dflt = 0 →
      ∃ nm, GetInstanceManagerName t = .ok nm ∧
        DsAction.createIM (createInstanceManagerObject node nm dflt t) ∈ acts) := by
  have hnodupE : (imsE.map InstanceManager.name).Nodup := by
    rw [List.map_append] at hnodup
    exact (List.nodup_append.mp hnodup).1
  have hnodupR : (imsR.map InstanceManager.name).Nodup := by
    rw [List.map_append] at hnodup
    exact (List.nodup_append.mp hnodup).2.1
  have hdecomp := syncInstanceManagers_ok_decomp env node acts dflt hdf hrun
  rcases ht with ⟨ht1, ht2⟩ | ⟨ht1, ht2, hdne⟩
  · subst ht1
    subst ht2
    by_cases hd : node.spec.disks = []
    · obtain ⟨rms, hlr2, hacts, hokE⟩ := hdecomp.1 hd
      rw [hlistR] at hlr2
      injection hlr2 with h
      rw [← h] at hacts
      apply imMapAfter_one_default env node dflt instanceManagerTypeEngine imsT
        (imsR.map (fun rm => DsAction.deleteIM rm.name)) [] acts hlistE hokE
      · rw [hacts, List.append_nil]
      · exact filterMap_createOfType_map_delete _ _
      · rfl
      · intro nm hmem im hm
        simp only [List.mem_map] at hmem
        obtain ⟨rm, hrm, heq⟩ := hmem
        have : rm.name = nm := by injection heq
        rw [← this]
        exact name_ne_of_nodup_append hnodup hm hrm
      · intro nm hmem
        simp at hmem
      · exact hnodupE
      · exact hcount
    · obtain ⟨hacts, hokE, hokR⟩ := hdecomp.2 hd
      apply imMapAfter_one_default env node dflt instanceManagerTypeEngine imsT
        [] (syncIMType env node dflt instanceManagerTypeReplica).1 acts hlistE hokE
      · rw [hacts, List.nil_append]
      · rfl
      · exact filterMap_createOfType_syncIMType_other env node dflt
          instanceManagerTypeEngine instanceManagerTypeReplica imsR hlistR hokR (by decide)
      · intro nm hmem
        simp at hmem
      · intro nm hmem im hm
        obtain ⟨im2, hm2, hname⟩ :=
          syncIMType_delete_names env node dflt instanceManagerTypeReplica imsR hlistR nm hmem
        rw [← hname]
        exact name_ne_of_nodup_append hnodup hm hm2
      · exact hnodupE
      · exact hcount
  · subst ht1
    subst ht2
    obtain ⟨hacts, hokE, hokR⟩ := hdecomp.2 hdne
    apply imMapAfter_one_default env node dflt instanceManagerTypeReplica imsT
      (syncIMType env node dflt instanceManagerTypeEngine).1 [] acts hlistR hokR
    · rw [hacts, List.append_nil]
    · exact filterMap_createOfType_syncIMType_other env node dflt
        instanceManagerTypeReplica instanceManagerTypeEngine imsE hlistE hokE (by decide)
    · rfl
    · intro nm hmem im hm
      obtain ⟨im2, hm2, hname⟩ :=
        syncIMType_delete_names env node dflt instanceManagerTypeEngine imsE hlistE nm hmem
      rw [← hname]
      intro he
      exact name_ne_of_nodup_append hnodup hm2 hm he.symm
    · intro nm hmem
      simp at hmem
    · exact hnodupR
    · exact hcount

/-- Witness for C8: on a node with one disk and no listed managers, the
reconcile ends with exactly one default-image engine manager, created with
the deterministic name, canonical labels and owner references. -/
theorem syncInstanceManagers_one_default_witness :
    countWithImage (imMapAfter [] (syncInstanceManagers envW8 nodeC7).1
      instanceManagerTypeEngine) "v2" = 1 ∧
    DsAction.createIM (createInstanceManagerObject nodeC7 "instance-manager-e" "v2"
      instanceManagerTypeEngine) ∈ (syncInstanceManagers envW8 nodeC7).1 := by
  obtain ⟨h1, h2⟩ := syncInstanceManagers_one_default envW8 nodeC7
    (syncInstanceManagers envW8 nodeC7).1 "v2" instanceManagerTypeEngine [] [] []
    (by rfl) (by rfl) (by rfl) (by rfl) (by simp) (Or.inl ⟨rfl, rfl⟩) (by decide)
  obtain ⟨nm, hnm, hmem⟩ := h2 rfl
  rw [show GetInstanceManagerName instanceManagerTypeEngine =
    Except.ok "instance-manager-e" from rfl] at hnm
  injection hnm with h
  rw [← h] at hmem
  exact ⟨h1, hmem⟩

/-! ## Frame lemmas for the disk-status map -/

theorem setDiskCondition_lookup_ne (m : List (String × DiskStatus)) (j t s r msg id : String)
    (h : id ≠ j) : (setDiskCondition m j t s r msg).lookup id = m.lookup id := by
  unfold setDiskCondition
  cases hj : m.lookup j with
  | none => rfl
  | some ds => rw [lookup_upsert, if_neg h]

theorem finalizeReadyDisk_lookup_ne (dim : List (String × Except GoErr DiskInfo))
    (m : List (String × DiskStatus)) (j id : String) (h : id ≠ j) :
    (finalizeReadyDisk dim m j).lookup id = m.lookup id := by
  unfold finalizeReadyDisk
  cases hj : m.lookup j with
  | none => rfl
  | some ds =>
    cases hdi : dim.lookup j with
    | none => rfl
    | some r =>
      cases r with
      | error e => rfl
      | ok info => simp only; rw [lookup_upsert, if_neg h]

theorem syncGroupDiskUUID_lookup_ne (env : SyncEnv)
    (dim : List (String × Except GoErr DiskInfo)) (disks : List String)
    (m : List (String × DiskStatus)) (j : String) (disk : DiskSpec) (ds0 : DiskStatus)
    (diskUUID : String) (id : String) (h : id ≠ j) :
    (syncGroupDiskUUID env dim disks m j disk ds0 diskUUID).lookup id = m.lookup id := by
  unfold syncGroupDiskUUID
  by_cases h1 : ds0.diskUUID = ""
  · rw [if_pos h1]
    by_cases h2 : isFSIDDuplicatedWithExistingReadyDisk j disks m
    · rw [if_pos h2, setDiskCondition_lookup_ne _ _ _ _ _ _ _ h]
    · rw [if_neg h2]
      by_cases h3 : diskUUID = ""
      · rw [if_pos h3]
        cases hg : env.generateDiskConfig disk.path with
        | error e => simp only; rw [setDiskCondition_lookup_ne _ _ _ _ _ _ _ h]
        | ok cfg =>
          simp only
          rw [finalizeReadyDisk_lookup_ne _ _ _ _ h, lookup_upsert, if_neg h]
      · rw [if_neg h3]
        simp only
        rw [finalizeReadyDisk_lookup_ne _ _ _ _ h, lookup_upsert, if_neg h]
  · rw [if_neg h1]
    by_cases h4 : ds0.diskUUID = diskUUID
    · rw [if_pos h4, finalizeReadyDisk_lookup_ne _ _ _ _ h]
      by_cases h3 : diskUUID = ""
      · rw [if_pos h3, setDiskCondition_lookup_ne _ _ _ _ _ _ _ h]
      · rw [if_neg h3]
        by_cases h5 : ds0.diskUUID ≠ diskUUID
        · rw [if_pos h5, setDiskCondition_lookup_ne _ _ _ _ _ _ _ h]
        · rw [if_neg h5]
    · rw [if_neg h4]
      by_cases h3 : diskUUID = ""
      · rw [if_pos h3, setDiskCondition_lookup_ne _ _ _ _ _ _ _ h]
      · rw [if_neg h3]
        by_cases h5 : ds0.diskUUID ≠ diskUUID
        · rw [if_pos h5, setDiskCondition_lookup_ne _ _ _ _ _ _ _ h]
        · rw [if_neg h5]

theorem syncGroupDisk_lookup_ne (env : SyncEnv) (node : LhNode)
    (dim : List (String × Except GoErr DiskInfo)) (disks : List String)
    (m : List (String × DiskStatus)) (j id : String) (h : id ≠ j) :
    (syncGroupDisk env node dim disks m j).lookup id = m.lookup id := by
  unfold syncGroupDisk
  cases hs : node.spec.disks.lookup j with
  | none => rfl
  | some disk =>
    cases hm : m.lookup j with
    | none => rfl
    | some ds0 =>
      cases hc : env.getDiskConfig disk.path with
      | error e =>
        simp only [hc]
        by_cases hnf : e.isNotFound
        · rw [if_pos hnf, syncGroupDiskUUID_lookup_ne _ _ _ _ _ _ _ _ _ h]
        · rw [if_neg hnf, setDiskCondition_lookup_ne _ _ _ _ _ _ _ h]
      | ok cfg =>
        simp only [hc]
        rw [syncGroupDiskUUID_lookup_ne _ _ _ _ _ _ _ _ _ h]

theorem syncGroupDisksLoop_lookup_notmem (env : SyncEnv) (node : LhNode)
    (dim : List (String × Except GoErr DiskInfo)) (disks : List String) :
    ∀ (l : List String) (m : List (String × DiskStatus)) (id : String), id ∉ l →
      (syncGroupDisksLoop env node dim disks l m).lookup id = m.lookup id
  | [], m, id, _ => rfl
  | j :: rest, m, id, h => by
    have hj : id ≠ j := fun he => h (he ▸ List.mem_cons_self j rest)
    have hrest : id ∉ rest := fun hr => h (List.mem_cons_of_mem _ hr)
    rw [syncGroupDisksLoop, syncGroupDisksLoop_lookup_notmem env node dim disks rest _ id hrest,
      syncGroupDisk_lookup_ne env node dim disks m j id hj]

theorem syncAllFsidGroups_lookup_notmem (env : SyncEnv) (node : LhNode)
    (dim : List (String × Except GoErr DiskInfo)) :
    ∀ (gs : List (String × List String)) (m : List (String × DiskStatus)) (id : String),
      id ∉ groupIds gs →
      (syncAllFsidGroups env node dim gs m).lookup id = m.lookup id
  | [], m, id, _ => rfl
  | g :: rest, m, id, h => by
    have hg : id ∉ g.2 := by
      intro hmem
      apply h
      simp only [groupIds, List.map_cons, List.join_cons, List.mem_append]
      exact Or.inl hmem
    have hrest : id ∉ groupIds rest := by
      intro hmem
      apply h
      simp only [groupIds, List.map_cons, List.join_cons, List.mem_append]
      right
      exact hmem
    rw [syncAllFsidGroups, syncAllFsidGroups_lookup_notmem env node dim rest _ id hrest,
      syncGroupDisksLoop_lookup_notmem env node dim g.2 g.2 m id hg]

/-! ## The Schedulable pass preserves UUID, storage counters and `Ready` -/

theorem lookup_upsert_preserves_fields (m : List (String × DiskStatus)) (j : String)
    (ds dsNew : DiskStatus) (id : String) (hm : m.lookup j = some ds)
    (huuid : dsNew.diskUUID = ds.diskUUID)
    (hmax : dsNew.storageMaximum = ds.storageMaximum)
    (havail : dsNew.storageAvailable = ds.storageAvailable)
    (hready : GetCondition dsNew.conditions diskConditionTypeReady =
      GetCondition ds.conditions diskConditionTypeReady) :
    ((upsert m j dsNew).lookup id).map DiskStatus.diskUUID =
      (m.lookup id).map DiskStatus.diskUUID ∧
    ((upsert m j dsNew).lookup id).map DiskStatus.storageMaximum =
      (m.lookup id).map DiskStatus.storageMaximum ∧
    ((upsert m j dsNew).lookup id).map DiskStatus.storageAvailable =
      (m.lookup id).map DiskStatus.storageAvailable ∧
    readyCondOf (upsert m j dsNew) id = readyCondOf m id := by
  by_cases hid : id = j
  · subst hid
    rw [lookup_upsert, if_pos rfl, hm]
    refine ⟨?_, ?_, ?_, ?_⟩
    · simp [huuid]
    · simp [hmax]
    · simp [havail]
    · simp [readyCondOf, lookup_upsert, hm, hready]
  · rw [lookup_upsert, if_neg hid]
    refine ⟨rfl, rfl, rfl, ?_⟩
    simp [readyCondOf, lookup_upsert, if_neg hid]

theorem schedStep_preserves (pct : Int) (rmap : List (String × List Replica))
    (m : List (String × DiskStatus)) (p : String × DiskSpec) (id : String) :
    ((syncDiskSchedulableStep pct rmap m p).lookup id).map DiskStatus.diskUUID =
      (m.lookup id).map DiskStatus.diskUUID ∧
    ((syncDiskSchedulableStep pct rmap m p).lookup id).map DiskStatus.storageMaximum =
      (m.lookup id).map DiskStatus.storageMaximum ∧
    ((syncDiskSchedulableStep pct rmap m p).lookup id).map DiskStatus.storageAvailable =
      (m.lookup id).map DiskStatus.storageAvailable ∧
    readyCondOf (syncDiskSchedulableStep pct rmap m p) id = readyCondOf m id := by
  unfold syncDiskSchedulableStep
  cases hm : m.lookup p.1 with
  | none => exact ⟨rfl, rfl, rfl, rfl⟩
  | some ds =>
    simp only [hm]
    apply lookup_upsert_preserves_fields m p.1 ds _ id hm
    · split <;> rfl
    · split <;> rfl
    · split <;> rfl
    · split <;>
        exact GetCondition_SetCondition_ne _ _ _ _ _ _
          (by decide : diskConditionTypeReady ≠ diskConditionTypeSchedulable)

theorem syncSchedulableLoop_preserves (pct : Int) (rmap : List (String × List Replica)) :
    ∀ (l : List (String × DiskSpec)) (m : List (String × DiskStatus)) (id : String),
      ((syncSchedulableLoop pct rmap l m).lookup id).map DiskStatus.diskUUID =
        (m.lookup id).map DiskStatus.diskUUID ∧
      ((syncSchedulableLoop pct rmap l m).lookup id).map DiskStatus.storageMaximum =
        (m.lookup id).map DiskStatus.storageMaximum ∧
      ((syncSchedulableLoop pct rmap l m).lookup id).map DiskStatus.storageAvailable =
        (m.lookup id).map DiskStatus.storageAvailable ∧
      readyCondOf (syncSchedulableLoop pct rmap l m) id = readyCondOf m id
  | [], m, id => ⟨rfl, rfl, rfl, rfl⟩
  | p :: rest, m, id => by
    obtain ⟨h1, h2, h3, h4⟩ :=
      syncSchedulableLoop_preserves pct rmap rest (syncDiskSchedulableStep pct rmap m p) id
    obtain ⟨g1, g2, g3, g4⟩ := schedStep_preserves pct rmap m p id
    exact ⟨by rw [syncSchedulableLoop, h1, g1], by rw [syncSchedulableLoop, h2, g2],
      by rw [syncSchedulableLoop, h3, g3], by rw [syncSchedulableLoop, h4, g4]⟩

/-! ## Phase 1 (status-map reconciliation) lemmas -/

theorem initDiskStatusLoop_lookup_notmem :
    ∀ (l : List (String × DiskSpec)) (m : List (String × DiskStatus)) (id : String),
      id ∉ l.map Prod.fst → (initDiskStatusLoop l m).lookup id = m.lookup id
  | [], _, _, _ => rfl
  | p :: rest, m, id, h => by
    have hp : id ≠ p.1 := by
      intro he
      exact h (by simp [he])
    have hrest : id ∉ rest.map Prod.fst := by
      intro hr
      exact h (by simp [hr])
    rw [initDiskStatusLoop, initDiskStatusLoop_lookup_notmem rest _ id hrest,
      lookup_upsert, if_neg hp]

theorem initDiskStatusLoop_lookup_mem :
    ∀ (l : List (String × DiskSpec)) (m : List (String × DiskStatus)) (id : String),
      (l.map Prod.fst).Nodup → id ∈ l.map Prod.fst →
      (initDiskStatusLoop l m).lookup id =
        some (initDiskStatusEntry ((m.lookup id).getD DiskStatus.empty))
  | [], _, id, _, h => by simp at h
  | p :: rest, m, id, hnd, h => by
    simp only [List.map_cons, List.nodup_cons] at hnd
    by_cases hp : id = p.1
    · subst hp
      rw [initDiskStatusLoop, initDiskStatusLoop_lookup_notmem rest _ p.1 hnd.1,
        lookup_upsert, if_pos rfl]
    · have hrest : id ∈ rest.map Prod.fst := by
        simp only [List.map_cons, List.mem_cons] at h
        rcases h with h1 | h1
        · exact absurd h1 hp
        · exact h1
      rw [initDiskStatusLoop, initDiskStatusLoop_lookup_mem rest _ id hnd.2 hrest,
        lookup_upsert, if_neg hp]

theorem initDiskStatusLoop_isSome :
    ∀ (l : List (String × DiskSpec)) (m : List (String × DiskStatus)) (id : String),
      ((initDiskStatusLoop l m).lookup id).isSome ↔
        id ∈ l.map Prod.fst ∨ (m.lookup id).isSome
  | [], m, id => by simp [initDiskStatusLoop]
  | p :: rest, m, id => by
    rw [initDiskStatusLoop, initDiskStatusLoop_isSome rest _ id]
    by_cases hp : id = p.1
    · subst hp
      simp [lookup_upsert]
    · simp [lookup_upsert, if_neg hp, hp]

theorem syncDiskStatusMaps_lookup (specDisks : List (String × DiskSpec))
    (statusMap : List (String × DiskStatus)) (id : String)
    (hnd : (specDisks.map Prod.fst).Nodup) (hmem : (specDisks.lookup id).isSome) :
    (syncDiskStatusMaps specDisks statusMap).lookup id =
      some (initDiskStatusEntry ((statusMap.lookup id).getD DiskStatus.empty)) := by
  unfold syncDiskStatusMaps
  rw [lookup_filter_keys _ (fun k => (specDisks.lookup k).isSome), if_pos hmem]
  exact initDiskStatusLoop_lookup_mem specDisks statusMap id hnd
    ((lookup_isSome_iff_mem_keys specDisks id).mp hmem)

theorem syncDiskStatusMaps_isSome (specDisks : List (String × DiskSpec))
    (statusMap : List (String × DiskStatus)) (id : String) :
    ((syncDiskStatusMaps specDisks statusMap).lookup id).isSome ↔
      (specDisks.lookup id).isSome := by
  unfold syncDiskStatusMaps
  rw [lookup_filter_keys _ (fun k => (specDisks.lookup k).isSome)]
  by_cases h : (specDisks.lookup id).isSome
  · rw [if_pos h]
    simp only [initDiskStatusLoop_isSome, h, iff_true]
    exact Or.inl ((lookup_isSome_iff_mem_keys specDisks id).mp h)
  · rw [if_neg h]
    simp [h]

/-! ## Collect-phase (fsid grouping) lemmas -/

theorem collectFsidLoop_m_lookup_ok :
    ∀ (l : List (String × Except GoErr DiskInfo))
      (acc : List (String × DiskStatus) × List (String × List String)) (id : String),
      (∀ p ∈ l, p.1 = id → ∃ i, p.2 = Except.ok i) →
      ((collectFsidLoop l acc).1).lookup id = (acc.1).lookup id
  | [], _, _, _ => rfl
  | p :: rest, acc, id, h => by
    rw [collectFsidLoop]
    cases hp : p.2 with
    | ok info =>
      rw [collectFsidLoop_m_lookup_ok rest _ id
        (fun q hq hqid => h q (List.mem_cons_of_mem _ hq) hqid)]
    | error e =>
      rw [collectFsidLoop_m_lookup_ok rest _ id
        (fun q hq hqid => h q (List.mem_cons_of_mem _ hq) hqid)]
      simp only
      by_cases hid : p.1 = id
      · obtain ⟨i, hi⟩ := h p (List.mem_cons_self _ _) hid
        rw [hp] at hi
        cases hi
      · exact setDiskCondition_lookup_ne _ _ _ _ _ _ _ (fun he => hid he.symm)

theorem groupIds_upsert_perm :
    ∀ (gs : List (String × List String)) (f id : String),
      (groupIds (upsert gs f ((gs.lookup f).getD [] ++ [id]))).Perm (id :: groupIds gs)
  | [], f, id => by simp [upsert, groupIds]
  | (f0, l0) :: rest, f, id => by
    by_cases hf : f0 = f
    · subst hf
      rw [show List.lookup f0 ((f0, l0) :: rest) = some l0 by simp [List.lookup_cons]]
      rw [show upsert ((f0, l0) :: rest) f0 ((some l0).getD [] ++ [id]) =
        (f0, l0 ++ [id]) :: rest from by simp [upsert]]
      simp only [groupIds, List.map_cons, List.join_cons, Option.getD_some]
      rw [List.append_assoc, List.singleton_append]
      exact List.perm_middle
    · rw [show List.lookup f ((f0, l0) :: rest) = List.lookup f rest from by
        simp [List.lookup_cons, beq_false_of_ne (fun he => hf he.symm)]]
      rw [show upsert ((f0, l0) :: rest) f ((List.lookup f rest).getD [] ++ [id]) =
        (f0, l0) :: upsert rest f ((List.lookup f rest).getD [] ++ [id]) from by
          simp [upsert, hf]]
      simp only [groupIds, List.map_cons, List.join_cons]
      exact ((groupIds_upsert_perm rest f id).append_left l0).trans List.perm_middle

theorem collectFsidLoop_groupIds_perm :
    ∀ (l : List (String × Except GoErr DiskInfo))
      (acc : List (String × DiskStatus) × List (String × List String)),
      (groupIds (collectFsidLoop l acc).2).Perm (groupIds acc.2 ++ okIds l)
  | [], acc => by simp [collectFsidLoop, okIds]
  | p :: rest, acc => by
    rw [collectFsidLoop]
    cases hp : p.2 with
    | error e =>
      have hok : okIds (p :: rest) = okIds rest := by
        simp [okIds, List.filter_cons, hp, exceptIsOk]
      rw [hok]
      simp only
      exact collectFsidLoop_groupIds_perm rest _
    | ok info =>
      have hok : okIds (p :: rest) = p.1 :: okIds rest := by
        simp [okIds, List.filter_cons, hp, exceptIsOk]
      rw [hok]
      simp only
      exact (collectFsidLoop_groupIds_perm rest _).trans
        (((groupIds_upsert_perm acc.2 info.fsid p.1).append_right (okIds rest)).trans
          List.perm_middle.symm)

theorem okIds_sublist_keys (l : List (String × Except GoErr DiskInfo)) :
    (okIds l).Sublist (l.map Prod.fst) :=
  (List.filter_sublist l).map Prod.fst

theorem mem_okIds_of_ok {l : List (String × Except GoErr DiskInfo)} {id : String}
    {info : DiskInfo} (h : (id, Except.ok info) ∈ l) : id ∈ okIds l := by
  have : (id, Except.ok info) ∈ l.filter (fun p => exceptIsOk p.2) :=
    List.mem_filter.mpr ⟨h, by simp [exceptIsOk]⟩
  exact List.mem_map_of_mem Prod.fst this

theorem mem_keys_upsert {α : Type} (m : List (String × α)) (k : String) (v : α) (j : String) :
    j ∈ (upsert m k v).map Prod.fst ↔ j = k ∨ j ∈ m.map Prod.fst := by
  rw [← lookup_isSome_iff_mem_keys, ← lookup_isSome_iff_mem_keys, lookup_upsert]
  by_cases hj : j = k <;> simp [hj]

theorem nodupkeys_upsert {α : Type} :
    ∀ (m : List (String × α)) (k : String) (v : α),
      (m.map Prod.fst).Nodup → ((upsert m k v).map Prod.fst).Nodup
  | [], k, v, _ => by simp [upsert]
  | (k0, v0) :: rest, k, v, h => by
    simp only [List.map_cons, List.nodup_cons] at h
    by_cases hk : k0 = k
    · subst hk
      simp only [upsert, eq_self_iff_true, if_true, List.map_cons, List.nodup_cons]
      exact ⟨h.1, h.2⟩
    · simp only [upsert, if_neg hk, List.map_cons, List.nodup_cons]
      refine ⟨?_, nodupkeys_upsert rest k v h.2⟩
      intro hmem
      rcases (mem_keys_upsert rest k v k0).mp hmem with h1 | h1
      · exact hk h1
      · exact h.1 h1

theorem groups_entry_unique {gs : List (String × List String)}
    (hnd : (gs.map Prod.fst).Nodup) {f : String} {a b : List String}
    (ha : (f, a) ∈ gs) (hb : (f, b) ∈ gs) : a = b := by
  have h1 := lookup_eq_some_of_nodupkeys_mem hnd ha
  have h2 := lookup_eq_some_of_nodupkeys_mem hnd hb
  rw [h1] at h2
  injection h2

theorem collectFsidLoop_groups_nodupkeys :
    ∀ (l : List (String × Except GoErr DiskInfo))
      (acc : List (String × DiskStatus) × List (String × List String)),
      ((acc.2).map Prod.fst).Nodup → (((collectFsidLoop l acc).2).map Prod.fst).Nodup
  | [], _, h => h
  | p :: rest, acc, h => by
    rw [collectFsidLoop]
    cases hp : p.2 with
    | error e => exact collectFsidLoop_groups_nodupkeys rest _ h
    | ok info => exact collectFsidLoop_groups_nodupkeys rest _ (nodupkeys_upsert _ _ _ h)

theorem collectFsidLoop_groups_consistent (L : List (String × Except GoErr DiskInfo))
    (hnd : (L.map Prod.fst).Nodup) :
    ∀ (l : List (String × Except GoErr DiskInfo))
      (acc : List (String × DiskStatus) × List (String × List String)),
      (∀ p ∈ l, p ∈ L) → GroupsConsistent L acc.2 →
      GroupsConsistent L (collectFsidLoop l acc).2
  | [], _, _, hc => hc
  | p :: rest, acc, hsub, hc => by
    rw [collectFsidLoop]
    cases hp : p.2 with
    | error e =>
      exact collectFsidLoop_groups_consistent L hnd rest _
        (fun q hq => hsub q (List.mem_cons_of_mem _ hq)) hc
    | ok info =>
      apply collectFsidLoop_groups_consistent L hnd rest _
        (fun q hq => hsub q (List.mem_cons_of_mem _ hq))
      intro g hg x hx
      rcases mem_upsert hg with hg1 | hg1
      · subst hg1
        rcases List.mem_append.mp hx with hx1 | hx1
        · cases hold : acc.2.lookup info.fsid with
          | none =>
            rw [hold] at hx1
            simp at hx1
          | some old =>
            rw [hold] at hx1
            simp only [Option.getD_some] at hx1
            exact hc (info.fsid, old) (lookup_mem hold) x hx1
        · have hx2 : x = p.1 := by simpa using hx1
          subst hx2
          have hmemL : (p.1, Except.ok info) ∈ L := by
            rw [← hp]
            exact hsub p (List.mem_cons_self _ _)
          exact ⟨info, lookup_eq_some_of_nodupkeys_mem hnd hmemL, rfl⟩
      · exact hc g hg1 x hx

theorem collectFsidGroups_groupIds_perm (dim : List (String × Except GoErr DiskInfo))
    (m : List (String × DiskStatus)) :
    (groupIds (collectFsidGroups dim m).2).Perm (okIds dim) := by
  have h := collectFsidLoop_groupIds_perm dim (m, [])
  rw [show groupIds ([] : List (String × List String)) = [] from rfl,
    List.nil_append] at h
  exact h

theorem getDiskInfoMap_keys (env : SyncEnv) (node : LhNode) :
    (getDiskInfoMap env node).map Prod.fst = node.spec.disks.map Prod.fst := by
  simp [getDiskInfoMap, List.map_map]

theorem getDiskInfoMap_lookup (env : SyncEnv) (node : LhNode) :
    ∀ (l : List (String × DiskSpec)) (id : String),
      ((l.map (fun p => (p.1, env.getDiskInfo p.2.path))).lookup id) =
        (l.lookup id).map (fun d => env.getDiskInfo d.path)
  | [], _ => rfl
  | q :: rest, id => by
    obtain ⟨k, d⟩ := q
    by_cases hq : id = k
    · subst hq
      simp [List.lookup_cons]
    · simp [List.lookup_cons, beq_false_of_ne hq, getDiskInfoMap_lookup env node rest id]

/-! ## Per-step observable lemmas for the group pass -/

theorem setDiskCondition_fields (m : List (String × DiskStatus)) (j t s r msg id : String) :
    ((setDiskCondition m j t s r msg).lookup id).map DiskStatus.diskUUID =
      (m.lookup id).map DiskStatus.diskUUID ∧
    ((setDiskCondition m j t s r msg).lookup id).map DiskStatus.storageMaximum =
      (m.lookup id).map DiskStatus.storageMaximum ∧
    ((setDiskCondition m j t s r msg).lookup id).map DiskStatus.storageAvailable =
      (m.lookup id).map DiskStatus.storageAvailable := by
  unfold setDiskCondition
  cases hj : m.lookup j with
  | none => exact ⟨rfl, rfl, rfl⟩
  | some ds =>
    by_cases hid : id = j
    · subst hid
      rw [lookup_upsert, if_pos rfl, hj]
      exact ⟨rfl, rfl, rfl⟩
    · rw [lookup_upsert, if_neg hid]
      exact ⟨rfl, rfl, rfl⟩

theorem finalizeReadyDisk_uuid (dim : List (String × Except GoErr DiskInfo))
    (m : List (String × DiskStatus)) (j id : String) :
    ((finalizeReadyDisk dim m j).lookup id).map DiskStatus.diskUUID =
      (m.lookup id).map DiskStatus.diskUUID := by
  unfold finalizeReadyDisk
  cases hj : m.lookup j with
  | none => rfl
  | some ds =>
    cases hdi : dim.lookup j with
    | none => rfl
    | some r =>
      cases r with
      | error e => rfl
      | ok info =>
        simp only
        by_cases hid : id = j
        · subst hid
          rw [lookup_upsert, if_pos rfl, hj]
          rfl
        · rw [lookup_upsert, if_neg hid]

theorem syncGroupDisk_uuid_nonempty (env : SyncEnv) (node : LhNode)
    (dim : List (String × Except GoErr DiskInfo)) (disks : List String)
    (m : List (String × DiskStatus)) (j id : String) (u : String)
    (hu : (m.lookup id).map DiskStatus.diskUUID = some u) (hne : u ≠ "") :
    ((syncGroupDisk env node dim disks m j).lookup id).map DiskStatus.diskUUID = some u := by
  by_cases hij : id = j
  · subst hij
    unfold syncGroupDisk
    cases hs : node.spec.disks.lookup id with
    | none => rw [hu]
    | some disk =>
      cases hm : m.lookup id with
      | none => rw [hu]
      | some ds0 =>
        rw [hm] at hu
        simp only [Option.map_some', Option.some.injEq] at hu
        have hds0 : ds0.diskUUID ≠ "" := by rw [hu]; exact hne
        have helse : ∀ du, ((syncGroupDiskUUID env dim disks m id disk ds0 du).lookup id).map
            DiskStatus.diskUUID = some u := by
          intro du
          unfold syncGroupDiskUUID
          rw [if_neg hds0]
          by_cases h4 : ds0.diskUUID = du
          · rw [if_pos h4]
            by_cases h3 : du = ""
            · rw [if_pos h3, finalizeReadyDisk_uuid, (setDiskCondition_fields m id _ _ _ _ id).1,
                hm, Option.map_some', hu]
            · rw [if_neg h3]
              by_cases h5 : ds0.diskUUID ≠ du
              · rw [if_pos h5, finalizeReadyDisk_uuid,
                  (setDiskCondition_fields m id _ _ _ _ id).1, hm, Option.map_some', hu]
              · rw [if_neg h5, finalizeReadyDisk_uuid, hm, Option.map_some', hu]
          · rw [if_neg h4]
            by_cases h3 : du = ""
            · rw [if_pos h3, (setDiskCondition_fields m id _ _ _ _ id).1, hm,
                Option.map_some', hu]
            · rw [if_neg h3]
              by_cases h5 : ds0.diskUUID ≠ du
              · rw [if_pos h5, (setDiskCondition_fields m id _ _ _ _ id).1, hm,
                  Option.map_some', hu]
              · rw [if_neg h5, hm, Option.map_some', hu]
        cases hc : env.getDiskConfig disk.path with
        | error e =>
          simp only [hc]
          by_cases hnf : e.isNotFound
          · rw [if_pos hnf]
            exact helse ""
          · rw [if_neg hnf, (setDiskCondition_fields m id _ _ _ _ id).1, hm,
              Option.map_some', hu]
        | ok cfg =>
          simp only [hc]
          exact helse cfg.diskUUID
  · rw [syncGroupDisk_lookup_ne env node dim disks m j id hij, hu]

theorem syncGroupDisksLoop_uuid_nonempty (env : SyncEnv) (node : LhNode)
    (dim : List (String × Except GoErr DiskInfo)) (disks : List String) :
    ∀ (l : List String) (m : List (String × DiskStatus)) (id u : String),
      (m.lookup id).map DiskStatus.diskUUID = some u → u ≠ "" →
      ((syncGroupDisksLoop env node dim disks l m).lookup id).map DiskStatus.diskUUID = some u
  | [], _, _, _, hu, _ => hu
  | j :: rest, m, id, u, hu, hne => by
    rw [syncGroupDisksLoop]
    exact syncGroupDisksLoop_uuid_nonempty env node dim disks rest _ id u
      (syncGroupDisk_uuid_nonempty env node dim disks m j id u hu hne) hne

theorem syncAllFsidGroups_uuid_nonempty (env : SyncEnv) (node : LhNode)
    (dim : List (String × Except GoErr DiskInfo)) :
    ∀ (gs : List (String × List String)) (m : List (String × DiskStatus)) (id u : String),
      (m.lookup id).map DiskStatus.diskUUID = some u → u ≠ "" →
      ((syncAllFsidGroups env node dim gs m).lookup id).map DiskStatus.diskUUID = some u
  | [], _, _, _, hu, _ => hu
  | g :: rest, m, id, u, hu, hne => by
    rw [syncAllFsidGroups]
    exact syncAllFsidGroups_uuid_nonempty env node dim rest _ id u
      (syncGroupDisksLoop_uuid_nonempty env node dim g.2 g.2 m id u hu hne) hne

theorem collectFsidLoop_m_uuid :
    ∀ (l : List (String × Except GoErr DiskInfo))
      (acc : List (String × DiskStatus) × List (String × List String)) (id : String),
      (((collectFsidLoop l acc).1).lookup id).map DiskStatus.diskUUID =
        ((acc.1).lookup id).map DiskStatus.diskUUID
  | [], _, _ => rfl
  | p :: rest, acc, id => by
    rw [collectFsidLoop]
    cases hp : p.2 with
    | ok info => exact collectFsidLoop_m_uuid rest _ id
    | error e =>
      rw [collectFsidLoop_m_uuid rest _ id]
      exact (setDiskCondition_fields acc.1 p.1 _ _ _ _ id).1

/-! ## Group-pass core lemmas: fold splitting, UUID freeze, fsid collision -/

theorem syncGroupDisksLoop_append (env : SyncEnv) (node : LhNode)
    (dim : List (String × Except GoErr DiskInfo)) (disks : List String) :
    ∀ (l1 l2 : List String) (m : List (String × DiskStatus)),
      syncGroupDisksLoop env node dim disks (l1 ++ l2) m =
        syncGroupDisksLoop env node dim disks l2 (syncGroupDisksLoop env node dim disks l1 m)
  | [], _, _ => rfl
  | j :: rest, l2, m => by
    rw [List.cons_append, syncGroupDisksLoop, syncGroupDisksLoop,
      syncGroupDisksLoop_append env node dim disks rest l2 _]

theorem syncAllFsidGroups_append (env : SyncEnv) (node : LhNode)
    (dim : List (String × Except GoErr DiskInfo)) :
    ∀ (gs1 gs2 : List (String × List String)) (m : List (String × DiskStatus)),
      syncAllFsidGroups env node dim (gs1 ++ gs2) m =
        syncAllFsidGroups env node dim gs2 (syncAllFsidGroups env node dim gs1 m)
  | [], _, _ => rfl
  | g :: rest, gs2, m => by
    rw [List.cons_append, syncAllFsidGroups, syncAllFsidGroups,
      syncAllFsidGroups_append env node dim rest gs2 _]

theorem syncGroupDisk_freeze (env : SyncEnv) (node : LhNode)
    (dim : List (String × Except GoErr DiskInfo)) (disks : List String)
    (m : List (String × DiskStatus)) (id : String) (disk : DiskSpec) (ds0 : DiskStatus)
    (hspec : node.spec.disks.lookup id = some disk)
    (hm : m.lookup id = some ds0)
    (hne : ds0.diskUUID ≠ "")
    (hmm : (∃ e, env.getDiskConfig disk.path = .error e ∧ e.isNotFound = true) ∨
           (∃ cfg, env.getDiskConfig disk.path = .ok cfg ∧ cfg.diskUUID ≠ ds0.diskUUID)) :
    ∃ msg, (syncGroupDisk env node dim disks m id).lookup id =
      some { ds0 with conditions := SetConditionAndRecord ds0.conditions diskConditionTypeReady conditionStatusFalse diskConditionReasonDiskFilesystemChanged msg } := by
  have hset : ∀ msg, (setDiskCondition m id diskConditionTypeReady conditionStatusFalse
      diskConditionReasonDiskFilesystemChanged msg).lookup id =
      some { ds0 with conditions := SetConditionAndRecord ds0.conditions diskConditionTypeReady conditionStatusFalse diskConditionReasonDiskFilesystemChanged msg } := by
    intro msg
    unfold setDiskCondition
    rw [hm, lookup_upsert, if_pos rfl]
  rcases hmm with ⟨e, hc, hnf⟩ | ⟨cfg, hc, hcu⟩
  · refine ⟨"cannot find disk config file, maybe due to a mount error", ?_⟩
    simp only [syncGroupDisk, hspec, hm, hc]
    rw [if_pos hnf]
    simp only [syncGroupDiskUUID]
    rw [if_neg hne, if_neg hne, if_true]
    exact hset _
  · by_cases hcu0 : cfg.diskUUID = ""
    · refine ⟨"cannot find disk config file, maybe due to a mount error", ?_⟩
      simp only [syncGroupDisk, hspec, hm, hc]
      simp only [syncGroupDiskUUID, hcu0]
      rw [if_neg hne, if_neg hne, if_true]
      exact hset _
    · refine ⟨"record diskUUID does not match the one on the disk", ?_⟩
      simp only [syncGroupDisk, hspec, hm, hc]
      simp only [syncGroupDiskUUID]
      rw [if_neg hne, if_neg hcu0, if_pos (Ne.symm hcu), if_neg (Ne.symm hcu)]
      exact hset _

theorem readyCondOf_eq_match (m : List (String × DiskStatus)) (a : String) :
    GetCondition (match m.lookup a with | some ds => ds.conditions | none => none)
      diskConditionTypeReady = readyCondOf m a := by
  unfold readyCondOf
  cases m.lookup a with
  | none => rfl
  | some ds => rfl

theorem isFSIDDuplicated_of_ready (b : String) (disks : List String)
    (m : List (String × DiskStatus)) (a : String)
    (ha : a ∈ disks) (hb : b ∈ disks) (hab : a ≠ b)
    (hready : (readyCondOf m a).status = conditionStatusTrue) :
    isFSIDDuplicatedWithExistingReadyDisk b disks m = true := by
  have hlen : disks.length > 1 := by
    match disks, ha, hb with
    | [x], ha, hb =>
      have h1 : a = x := by simpa using ha
      have h2 : b = x := by simpa using hb
      exact absurd (h1.trans h2.symm) hab
    | x :: y :: rest, _, _ =>
      simp only [List.length_cons]
      omega
  unfold isFSIDDuplicatedWithExistingReadyDisk
  rw [if_pos hlen]
  apply List.any_eq_true.mpr
  refine ⟨a, ha, ?_⟩
  simp only [Bool.and_eq_true, bne_iff_ne, ne_eq, beq_iff_eq]
  exact ⟨hab, by rw [readyCondOf_eq_match]; exact hready⟩

theorem syncGroupDisk_empty_not_ready (env : SyncEnv) (node : LhNode)
    (dim : List (String × Except GoErr DiskInfo)) (disks : List String)
    (m : List (String × DiskStatus)) (b : String) (diskb : DiskSpec) (ds0 : DiskStatus)
    (hspec : node.spec.disks.lookup b = some diskb)
    (hm : m.lookup b = some ds0)
    (hempty : ds0.diskUUID = "")
    (hdup : isFSIDDuplicatedWithExistingReadyDisk b disks m = true) :
    (readyCondOf (syncGroupDisk env node dim disks m b) b).status = conditionStatusFalse := by
  have hset : ∀ r msg, (readyCondOf (setDiskCondition m b diskConditionTypeReady
      conditionStatusFalse r msg) b).status = conditionStatusFalse := by
    intro r msg
    unfold readyCondOf setDiskCondition
    rw [hm, lookup_upsert, if_pos rfl]
    simp only [Option.getD_some]
    rw [show SetConditionAndRecord ds0.conditions diskConditionTypeReady conditionStatusFalse
        r msg = SetCondition ds0.conditions diskConditionTypeReady conditionStatusFalse
        r msg from rfl,
      GetCondition_SetCondition_same]
  simp only [syncGroupDisk, hspec, hm]
  cases hc : env.getDiskConfig diskb.path with
  | error e =>
    simp only []
    by_cases hnf : e.isNotFound
    · rw [if_pos hnf]
      simp only [syncGroupDiskUUID]
      rw [if_pos hempty, if_pos hdup]
      exact hset _ _
    · rw [if_neg hnf]
      exact hset _ _
  | ok cfg =>
    simp only [syncGroupDiskUUID]
    rw [if_pos hempty, if_pos hdup]
    exact hset _ _

/-! ## Decomposing a successful `syncDiskStatus` -/

theorem syncDiskStatus_ok_elim (env : SyncEnv) (node node' : LhNode)
    (hok : syncDiskStatus env node = .ok node') :
    ∃ rmap pct,
      env.listReplicasByNode = .ok rmap ∧
      env.getSettingMinimalAvailablePercentage = .ok pct ∧
      node'.status.diskStatus =
        some (syncSchedulableLoop pct rmap node.spec.disks
          (syncAllFsidGroups env node (getDiskInfoMap env node)
            (collectFsidGroups (getDiskInfoMap env node)
              (syncDiskStatusMaps node.spec.disks (node.status.diskStatus.getD []))).2
            (collectFsidGroups (getDiskInfoMap env node)
              (syncDiskStatusMaps node.spec.disks (node.status.diskStatus.getD []))).1)) ∧
      node'.spec = node.spec ∧ node'.name = node.name ∧
      node'.status.conditions = node.status.conditions := by
  simp only [syncDiskStatus] at hok
  cases hr : env.listReplicasByNode with
  | error e =>
    rw [hr] at hok
    simp at hok
  | ok rmap =>
    rw [hr] at hok
    simp only at hok
    cases hpct : env.getSettingMinimalAvailablePercentage with
    | error e =>
      rw [hpct] at hok
      simp at hok
    | ok pct =>
      rw [hpct] at hok
      simp only [Except.ok.injEq] at hok
      exact ⟨rmap, pct, rfl, rfl, by rw [← hok], by rw [← hok], by rw [← hok], by rw [← hok]⟩

theorem initDiskStatusEntry_uuid (ds : DiskStatus) :
    (initDiskStatusEntry ds).diskUUID = ds.diskUUID := by
  simp only [initDiskStatusEntry]
  split <;> split <;> rfl

theorem initDiskStatusEntry_storage (ds : DiskStatus) :
    (initDiskStatusEntry ds).storageMaximum = 0 ∧
    (initDiskStatusEntry ds).storageAvailable = 0 := by
  simp [initDiskStatusEntry]

theorem groupIds_append (xs ys : List (String × List String)) :
    groupIds (xs ++ ys) = groupIds xs ++ groupIds ys := by
  simp [groupIds]

theorem groupIds_cons (g : String × List String) (ys : List (String × List String)) :
    groupIds (g :: ys) = g.2 ++ groupIds ys := by
  simp [groupIds]

theorem getDiskInfoMap_lookup_at (env : SyncEnv) (node : LhNode) (id : String) :
    (getDiskInfoMap env node).lookup id =
      (node.spec.disks.lookup id).map (fun d => env.getDiskInfo d.path) := by
  unfold getDiskInfoMap
  exact getDiskInfoMap_lookup env node node.spec.disks id

theorem getDiskInfoMap_ok_at (env : SyncEnv) (node : LhNode) (id : String) (disk : DiskSpec)
    (hnodup : (node.spec.disks.map Prod.fst).Nodup)
    (hspec : node.spec.disks.lookup id = some disk) :
    ∀ p ∈ getDiskInfoMap env node, p.1 = id → p.2 = env.getDiskInfo disk.path := by
  intro p hp hpid
  have hnd : ((getDiskInfoMap env node).map Prod.fst).Nodup := by
    rw [getDiskInfoMap_keys]
    exact hnodup
  have h1 := lookup_eq_some_of_nodupkeys_mem hnd hp
  rw [hpid, getDiskInfoMap_lookup_at, hspec] at h1
  simp only [Option.map_some'] at h1
  injection h1 with h1
  exact h1.symm

theorem readyCondOf_congr (m m' : List (String × DiskStatus)) (id : String)
    (h : m'.lookup id = m.lookup id) : readyCondOf m' id = readyCondOf m id := by
  unfold readyCondOf
  rw [h]

theorem diskConditionIn_ready_eq (node' : LhNode) (m4 : List (String × DiskStatus))
    (h : node'.status.diskStatus = some m4) (id : String) :
    diskConditionIn node' id diskConditionTypeReady = readyCondOf m4 id := by
  unfold diskConditionIn diskStatusIn readyCondOf
  rw [h, Option.getD_some]

theorem diskStatusIn_eq (node' : LhNode) (m4 : List (String × DiskStatus))
    (h : node'.status.diskStatus = some m4) (id : String) :
    diskStatusIn node' id = ((m4.lookup id).getD DiskStatus.empty) := by
  unfold diskStatusIn
  rw [h, Option.getD_some]

theorem group_not_both_ready (env : SyncEnv) (node : LhNode)
    (dim : List (String × Except GoErr DiskInfo)) (gs2 : List (String × List String))
    (g : String × List String) (p q : List String) (x y : String) (dy : DiskSpec)
    (ds1y : DiskStatus) (mPre : List (String × DiskStatus))
    (hg : g.2 = p ++ y :: q) (hxp : x ∈ p) (hxy : x ≠ y)
    (hyp : y ∉ p) (hyq : y ∉ q) (hxq : x ∉ q)
    (hxg2 : x ∉ groupIds gs2) (hyg2 : y ∉ groupIds gs2)
    (hspecy : node.spec.disks.lookup y = some dy)
    (hmy : mPre.lookup y = some ds1y) (huy : ds1y.diskUUID = "") :
    ¬((readyCondOf (syncAllFsidGroups env node dim (g :: gs2) mPre) x).status =
        conditionStatusTrue ∧
      (readyCondOf (syncAllFsidGroups env node dim (g :: gs2) mPre) y).status =
        conditionStatusTrue) := by
  rintro ⟨hrx, hry⟩
  rw [syncAllFsidGroups] at hrx hry
  nth_rewrite 2 [hg] at hrx
  nth_rewrite 2 [hg] at hry
  rw [syncGroupDisksLoop_append env node dim g.2 p (y :: q) mPre] at hrx hry
  rw [syncGroupDisksLoop] at hrx hry
  have hmB0y : (syncGroupDisksLoop env node dim g.2 p mPre).lookup y = some ds1y := by
    rw [syncGroupDisksLoop_lookup_notmem env node dim g.2 p mPre y hyp, hmy]
  have hxB : (readyCondOf (syncGroupDisksLoop env node dim g.2 p mPre) x).status =
      conditionStatusTrue := by
    rw [← readyCondOf_congr _ _ x
      (syncGroupDisk_lookup_ne env node dim g.2 (syncGroupDisksLoop env node dim g.2 p mPre)
        y x hxy)]
    rw [← readyCondOf_congr _ _ x
      (syncGroupDisksLoop_lookup_notmem env node dim g.2 q _ x hxq)]
    rw [← readyCondOf_congr _ _ x (syncAllFsidGroups_lookup_notmem env node dim gs2 _ x hxg2)]
    exact hrx
  have hdup : isFSIDDuplicatedWithExistingReadyDisk y g.2
      (syncGroupDisksLoop env node dim g.2 p mPre) = true := by
    apply isFSIDDuplicated_of_ready y g.2 _ x _ _ hxy hxB
    · rw [hg]; exact List.mem_append.mpr (Or.inl hxp)
    · rw [hg]; exact List.mem_append.mpr (Or.inr (List.mem_cons_self _ _))
  have hyF : (readyCondOf (syncGroupDisk env node dim g.2
      (syncGroupDisksLoop env node dim g.2 p mPre) y) y).status = conditionStatusFalse :=
    syncGroupDisk_empty_not_ready env node dim g.2 _ y dy ds1y hspecy hmB0y huy hdup
  have hry' : (readyCondOf (syncGroupDisk env node dim g.2
      (syncGroupDisksLoop env node dim g.2 p mPre) y) y).status = conditionStatusTrue := by
    rw [← readyCondOf_congr _ _ y
      (syncGroupDisksLoop_lookup_notmem env node dim g.2 q _ y hyq)]
    rw [← readyCondOf_congr _ _ y (syncAllFsidGroups_lookup_notmem env node dim gs2 _ y hyg2)]
    exact hry
  rw [hyF] at hry'
  exact absurd hry' (by decide)

theorem collectFsidGroups_nodupkeys (dim : List (String × Except GoErr DiskInfo))
    (m1 : List (String × DiskStatus)) :
    (((collectFsidGroups dim m1).2).map Prod.fst).Nodup :=
  collectFsidLoop_groups_nodupkeys dim (m1, []) (by simp)

theorem collectFsidGroups_consistent (dim : List (String × Except GoErr DiskInfo))
    (m1 : List (String × DiskStatus)) (hnd : (dim.map Prod.fst).Nodup) :
    GroupsConsistent dim (collectFsidGroups dim m1).2 :=
  collectFsidLoop_groups_consistent dim hnd dim (m1, []) (fun _ hp => hp)
    (fun g hg => absurd hg (List.not_mem_nil g))

theorem mem_group_of_ok (dim : List (String × Except GoErr DiskInfo))
    (m1 : List (String × DiskStatus)) (hnd : (dim.map Prod.fst).Nodup)
    (id : String) (info : DiskInfo) (hdim : dim.lookup id = some (.ok info)) :
    ∃ g ∈ (collectFsidGroups dim m1).2, id ∈ g.2 ∧ g.1 = info.fsid := by
  have hid : id ∈ groupIds (collectFsidGroups dim m1).2 :=
    ((collectFsidGroups_groupIds_perm dim m1).mem_iff).mpr
      (mem_okIds_of_ok (lookup_mem hdim))
  rw [groupIds] at hid
  obtain ⟨l, hl, hidl⟩ := List.mem_join.mp hid
  obtain ⟨g, hg, hgl⟩ := List.mem_map.mp hl
  subst hgl
  obtain ⟨i, hi, hif⟩ := collectFsidGroups_consistent dim m1 hnd g hg id hidl
  rw [hdim] at hi
  injection hi with hi
  injection hi with hi
  exact ⟨g, hg, hidl, by rw [← hif, ← hi]⟩

theorem split_for_pair (gs : List (String × List String)) (g : String × List String)
    (hgmem : g ∈ gs) (hnodup : (groupIds gs).Nodup) (a b : String)
    (hab : a ≠ b) (hag : a ∈ g.2) (hbg : b ∈ g.2) :
    ∃ gs1 gs2 p q x y, gs = gs1 ++ g :: gs2 ∧ ((x = a ∧ y = b) ∨ (x = b ∧ y = a)) ∧
      g.2 = p ++ y :: q ∧ x ∈ p ∧ x ≠ y ∧ y ∉ p ∧ y ∉ q ∧ x ∉ q ∧
      x ∉ groupIds gs2 ∧ y ∉ groupIds gs2 ∧ a ∉ groupIds gs1 ∧ b ∉ groupIds gs1 := by
  obtain ⟨gs1, gs2, hsplit⟩ := List.append_of_mem hgmem
  rw [hsplit, groupIds_append, groupIds_cons] at hnodup
  obtain ⟨hn1, hnrest, hd1⟩ := List.nodup_append.mp hnodup
  obtain ⟨hng, hn2, hd2⟩ := List.nodup_append.mp hnrest
  have hangs1 : a ∉ groupIds gs1 := fun hin =>
    hd1 hin (List.mem_append.mpr (Or.inl hag))
  have hbngs1 : b ∉ groupIds gs1 := fun hin =>
    hd1 hin (List.mem_append.mpr (Or.inl hbg))
  have hangs2 : a ∉ groupIds gs2 := fun hin => hd2 hag hin
  have hbngs2 : b ∉ groupIds gs2 := fun hin => hd2 hbg hin
  obtain ⟨p0, q0, hbsplit⟩ := List.append_of_mem hbg
  have hng' := hbsplit ▸ hng
  obtain ⟨hnp0, hnbq0, hd0⟩ := List.nodup_append.mp hng'
  have hbnq0 : b ∉ q0 := (List.nodup_cons.mp hnbq0).1
  have hnq0 : q0.Nodup := (List.nodup_cons.mp hnbq0).2
  by_cases ha0 : a ∈ p0
  · refine ⟨gs1, gs2, p0, q0, a, b, hsplit, Or.inl ⟨rfl, rfl⟩, hbsplit, ha0, hab, ?_, hbnq0,
      ?_, hangs2, hbngs2, hangs1, hbngs1⟩
    · exact fun hin => hd0 hin (List.mem_cons_self _ _)
    · exact fun hin => hd0 ha0 (List.mem_cons_of_mem _ hin)
  · have haq0 : a ∈ q0 := by
      rcases List.mem_append.mp (hbsplit ▸ hag) with h | h
      · exact absurd h ha0
      · rcases List.mem_cons.mp h with h | h
        · exact absurd h hab
        · exact h
    obtain ⟨q1, q2, hasplit⟩ := List.append_of_mem haq0
    have hnq0' := hasplit ▸ hnq0
    obtain ⟨hnq1, hnaq2, hdq⟩ := List.nodup_append.mp hnq0'
    have hanq2 : a ∉ q2 := (List.nodup_cons.mp hnaq2).1
    refine ⟨gs1, gs2, p0 ++ b :: q1, q2, b, a, hsplit, Or.inr ⟨rfl, rfl⟩, ?_, ?_,
      hab.symm, ?_, hanq2, ?_, hbngs2, hangs2, hangs1, hbngs1⟩
    · rw [hbsplit, hasplit, List.append_assoc, List.cons_append]
    · exact List.mem_append.mpr (Or.inr (List.mem_cons_self _ _))
    · intro hin
      rcases List.mem_append.mp hin with h | h
      · exact ha0 h
      · rcases List.mem_cons.mp h with h | h
        · exact hab h
        · exact hdq h (List.mem_cons_self _ _)
    · intro hin
      exact hbnq0 (hasplit ▸ List.mem_append.mpr (Or.inr (List.mem_cons_of_mem a hin)))

theorem split_for_one (gs : List (String × List String)) (g : String × List String)
    (hgmem : g ∈ gs) (hnodup : (groupIds gs).Nodup) (a : String) (hag : a ∈ g.2) :
    ∃ gs1 gs2 l1 l2, gs = gs1 ++ g :: gs2 ∧ g.2 = l1 ++ a :: l2 ∧
      a ∉ groupIds gs1 ∧ a ∉ groupIds gs2 ∧ a ∉ l1 ∧ a ∉ l2 := by
  obtain ⟨gs1, gs2, hsplit⟩ := List.append_of_mem hgmem
  rw [hsplit, groupIds_append, groupIds_cons] at hnodup
  obtain ⟨hn1, hnrest, hd1⟩ := List.nodup_append.mp hnodup
  obtain ⟨hng, hn2, hd2⟩ := List.nodup_append.mp hnrest
  obtain ⟨l1, l2, hlsplit⟩ := List.append_of_mem hag
  have hng' := hlsplit ▸ hng
  obtain ⟨hnl1, hnal2, hdl⟩ := List.nodup_append.mp hng'
  exact ⟨gs1, gs2, l1, l2, hsplit, hlsplit,
    fun hin => hd1 hin (List.mem_append.mpr (Or.inl hag)),
    fun hin => hd2 hag hin,
    fun hin => hdl hin (List.mem_cons_self _ _),
    (List.nodup_cons.mp hnal2).1⟩

/-- C2: for a disk of the spec whose recorded `DiskUUID` is non-empty at the
start of the reconcile and whose probe succeeds, if the on-disk config read
reports not-found or yields a different UUID, then after a successful
`syncDiskStatus` the recorded `DiskUUID` is unchanged, the `Ready` disk
condition is `False` with reason `DiskFilesystemChanged`, and
`StorageMaximum`/`StorageAvailable` retain the zero values assigned at the
start of the pass. -/
theorem syncDiskStatus_uuid_stable (env : SyncEnv) (node node' : LhNode) (id : String)
    (disk : DiskSpec) (info : DiskInfo) (u : String)
    (hnodup : (node.spec.disks.map Prod.fst).Nodup)
    (hok : syncDiskStatus env node = .ok node')
    (hspec : node.spec.disks.lookup id = some disk)
    (hu : (diskStatusIn node id).diskUUID = u) (hne : u ≠ "")
    (hprobe : env.getDiskInfo disk.path = .ok info)
    (hmm : (∃ e, env.getDiskConfig disk.path = .error e ∧ e.isNotFound = true) ∨
           (∃ cfg, env.getDiskConfig disk.path = .ok cfg ∧ cfg.diskUUID ≠ u)) :
    (diskStatusIn node' id).diskUUID = u ∧
    (diskConditionIn node' id diskConditionTypeReady).status = conditionStatusFalse ∧
    (diskConditionIn node' id diskConditionTypeReady).reason =
      diskConditionReasonDiskFilesystemChanged ∧
    (diskStatusIn node' id).storageMaximum = 0 ∧
    (diskStatusIn node' id).storageAvailable = 0 := by
  obtain ⟨rmap, pct, hr, hpct, hds, _, _, _⟩ := syncDiskStatus_ok_elim env node node' hok
  set dim := getDiskInfoMap env node with hdim
  set m1 := syncDiskStatusMaps node.spec.disks (node.status.diskStatus.getD []) with hm1
  set cg := collectFsidGroups dim m1 with hcg
  set m3 := syncAllFsidGroups env node dim cg.2 cg.1 with hm3
  set m4 := syncSchedulableLoop pct rmap node.spec.disks m3 with hm4
  have hdimnd : (dim.map Prod.fst).Nodup := by
    rw [hdim, getDiskInfoMap_keys]
    exact hnodup
  have hdimid : dim.lookup id = some (Except.ok info) := by
    rw [hdim, getDiskInfoMap_lookup_at, hspec, Option.map_some', hprobe]
  have hAllOk : ∀ p ∈ dim, p.1 = id → ∃ i, p.2 = Except.ok i := by
    intro p hp hpid
    have h := getDiskInfoMap_ok_at env node id disk hnodup hspec p (hdim ▸ hp) hpid
    exact ⟨info, by rw [h, hprobe]⟩
  have hm2id : cg.1.lookup id = m1.lookup id := by
    rw [hcg]
    exact collectFsidLoop_m_lookup_ok dim (m1, []) id hAllOk
  have hm1id : m1.lookup id =
      some (initDiskStatusEntry (((node.status.diskStatus.getD []).lookup id).getD
        DiskStatus.empty)) := by
    rw [hm1]
    exact syncDiskStatusMaps_lookup node.spec.disks _ id hnodup (by rw [hspec]; rfl)
  have hds1u : (initDiskStatusEntry (((node.status.diskStatus.getD []).lookup id).getD
      DiskStatus.empty)).diskUUID = u := by
    rw [initDiskStatusEntry_uuid]
    exact hu
  have hgrp := mem_group_of_ok dim m1 hdimnd id info hdimid
  rw [← hcg] at hgrp
  obtain ⟨g, hgmem, hidg, hgkey⟩ := hgrp
  have hgidnd : (groupIds cg.2).Nodup := by
    rw [hcg]
    exact ((collectFsidGroups_groupIds_perm dim m1).nodup_iff).mpr
      (List.Nodup.sublist (okIds_sublist_keys dim) hdimnd)
  obtain ⟨gs1, gs2, l1, l2, hsplit, hlsplit, hngs1, hngs2, hnl1, hnl2⟩ :=
    split_for_one cg.2 g hgmem hgidnd id hidg
  have hmPre : (syncAllFsidGroups env node dim gs1 cg.1).lookup id =
      some (initDiskStatusEntry (((node.status.diskStatus.getD []).lookup id).getD
        DiskStatus.empty)) := by
    rw [syncAllFsidGroups_lookup_notmem env node dim gs1 cg.1 id hngs1, hm2id, hm1id]
  have hmA : (syncGroupDisksLoop env node dim g.2 l1
      (syncAllFsidGroups env node dim gs1 cg.1)).lookup id =
      some (initDiskStatusEntry (((node.status.diskStatus.getD []).lookup id).getD
        DiskStatus.empty)) := by
    rw [syncGroupDisksLoop_lookup_notmem env node dim g.2 l1 _ id hnl1, hmPre]
  obtain ⟨msg, hF⟩ := syncGroupDisk_freeze env node dim g.2
    (syncGroupDisksLoop env node dim g.2 l1 (syncAllFsidGroups env node dim gs1 cg.1)) id disk
    (initDiskStatusEntry (((node.status.diskStatus.getD []).lookup id).getD DiskStatus.empty))
    hspec hmA (by rw [hds1u]; exact hne)
    (by
      rcases hmm with ⟨e, hc, hnf⟩ | ⟨cfg, hc, hcu⟩
      · exact Or.inl ⟨e, hc, hnf⟩
      · exact Or.inr ⟨cfg, hc, by rw [hds1u]; exact hcu⟩)
  have hm3id : m3.lookup id = some { initDiskStatusEntry
      (((node.status.diskStatus.getD []).lookup id).getD DiskStatus.empty) with
      conditions := SetConditionAndRecord (initDiskStatusEntry
        (((node.status.diskStatus.getD []).lookup id).getD DiskStatus.empty)).conditions
        diskConditionTypeReady conditionStatusFalse diskConditionReasonDiskFilesystemChanged
        msg } := by
    rw [hm3, hsplit, syncAllFsidGroups_append, syncAllFsidGroups]
    rw [syncAllFsidGroups_lookup_notmem env node dim gs2 _ id hngs2]
    nth_rewrite 2 [hlsplit]
    rw [syncGroupDisksLoop_append env node dim g.2 l1 (id :: l2) _]
    rw [syncGroupDisksLoop]
    rw [syncGroupDisksLoop_lookup_notmem env node dim g.2 l2 _ id hnl2]
    exact hF
  obtain ⟨p1, p2, p3, p4⟩ := syncSchedulableLoop_preserves pct rmap node.spec.disks m3 id
  rw [← hm4] at p1 p2 p3 p4
  rw [hm3id] at p1 p2 p3
  cases hx : m4.lookup id with
  | none =>
    rw [hx] at p1
    simp at p1
  | some x =>
    rw [hx] at p1 p2 p3
    simp only [Option.map_some', Option.some.injEq] at p1 p2 p3
    have hxready : readyCondOf m4 id =
        { status := conditionStatusFalse, reason := diskConditionReasonDiskFilesystemChanged,
          message := msg } := by
      rw [p4]
      unfold readyCondOf
      rw [hm3id, Option.getD_some]
      exact GetCondition_SetCondition_same _ _ _ _ _
    have hdsin : diskStatusIn node' id = x := by
      rw [diskStatusIn_eq node' m4 hds id, hx, Option.getD_some]
    have hcondin : diskConditionIn node' id diskConditionTypeReady = readyCondOf m4 id :=
      diskConditionIn_ready_eq node' m4 hds id
    refine ⟨?_, ?_, ?_, ?_, ?_⟩
    · rw [hdsin, p1, hds1u]
    · rw [hcondin, hxready]
    · rw [hcondin, hxready]
    · rw [hdsin, p2, (initDiskStatusEntry_storage _).1]
    · rw [hdsin, p3, (initDiskStatusEntry_storage _).2]

/-! ## Key-set preservation through the disk-sync phases -/

theorem upsert_isSome_present {α : Type} (m : List (String × α)) (j : String) (v v0 : α)
    (hj : m.lookup j = some v0) (id : String) :
    ((upsert m j v).lookup id).isSome = (m.lookup id).isSome := by
  rw [lookup_upsert]
  by_cases hid : id = j
  · rw [if_pos hid, hid, hj]
    rfl
  · rw [if_neg hid]

theorem setDiskCondition_isSome (m : List (String × DiskStatus)) (j t s r msg id : String) :
    ((setDiskCondition m j t s r msg).lookup id).isSome = (m.lookup id).isSome := by
  unfold setDiskCondition
  cases hj : m.lookup j with
  | none => rfl
  | some ds => exact upsert_isSome_present m j _ ds hj id

theorem finalizeReadyDisk_isSome (dim : List (String × Except GoErr DiskInfo))
    (m : List (String × DiskStatus)) (j id : String) :
    ((finalizeReadyDisk dim m j).lookup id).isSome = (m.lookup id).isSome := by
  unfold finalizeReadyDisk
  cases hj : m.lookup j with
  | none => rfl
  | some ds =>
    cases hdi : dim.lookup j with
    | none => rfl
    | some r =>
      cases r with
      | error e => rfl
      | ok info =>
        simp only
        exact upsert_isSome_present m j _ ds hj id

theorem syncGroupDiskUUID_isSome (env : SyncEnv)
    (dim : List (String × Except GoErr DiskInfo)) (disks : List String)
    (m : List (String × DiskStatus)) (j : String) (disk : DiskSpec) (ds0 : DiskStatus)
    (du : String) (hj : m.lookup j = some ds0) (id : String) :
    ((syncGroupDiskUUID env dim disks m j disk ds0 du).lookup id).isSome =
      (m.lookup id).isSome := by
  unfold syncGroupDiskUUID
  by_cases h0 : ds0.diskUUID = ""
  · rw [if_pos h0]
    by_cases hdup : isFSIDDuplicatedWithExistingReadyDisk j disks m
    · rw [if_pos hdup, setDiskCondition_isSome]
    · rw [if_neg hdup]
      cases hg : (if du = "" then
          match env.generateDiskConfig disk.path with
          | .error e => .error e
          | .ok diskConfig => .ok diskConfig.diskUUID
        else Except.ok du : Except GoErr String) with
      | error e =>
        simp only [hg, setDiskCondition_isSome]
      | ok u =>
        simp only [hg]
        rw [finalizeReadyDisk_isSome, upsert_isSome_present m j _ ds0 hj id]
  · rw [if_neg h0]
    by_cases hfin : ds0.diskUUID = du
    · rw [if_pos hfin]
      rw [finalizeReadyDisk_isSome]
      by_cases hdu : du = ""
      · rw [if_pos hdu, setDiskCondition_isSome]
      · rw [if_neg hdu]
        by_cases hne2 : ds0.diskUUID ≠ du
        · rw [if_pos hne2, setDiskCondition_isSome]
        · rw [if_neg hne2]
    · rw [if_neg hfin]
      by_cases hdu : du = ""
      · rw [if_pos hdu, setDiskCondition_isSome]
      · rw [if_neg hdu]
        by_cases hne2 : ds0.diskUUID ≠ du
        · rw [if_pos hne2, setDiskCondition_isSome]
        · rw [if_neg hne2]

theorem syncGroupDisk_isSome (env : SyncEnv) (node : LhNode)
    (dim : List (String × Except GoErr DiskInfo)) (disks : List String)
    (m : List (String × DiskStatus)) (j id : String) :
    ((syncGroupDisk env node dim disks m j).lookup id).isSome = (m.lookup id).isSome := by
  unfold syncGroupDisk
  cases hs : node.spec.disks.lookup j with
  | none => rfl
  | some disk =>
    cases hm : m.lookup j with
    | none => rfl
    | some ds0 =>
      cases hc : env.getDiskConfig disk.path with
      | error e =>
        simp only [hc]
        by_cases hnf : e.isNotFound
        · rw [if_pos hnf, syncGroupDiskUUID_isSome env dim disks m j disk ds0 "" hm id]
        · rw [if_neg hnf, setDiskCondition_isSome]
      | ok cfg =>
        simp only [hc]
        rw [syncGroupDiskUUID_isSome env dim disks m j disk ds0 cfg.diskUUID hm id]

theorem syncGroupDisksLoop_isSome (env : SyncEnv) (node : LhNode)
    (dim : List (String × Except GoErr DiskInfo)) (disks : List String) :
    ∀ (l : List String) (m : List (String × DiskStatus)) (id : String),
      ((syncGroupDisksLoop env node dim disks l m).lookup id).isSome = (m.lookup id).isSome
  | [], _, _ => rfl
  | j :: rest, m, id => by
    rw [syncGroupDisksLoop, syncGroupDisksLoop_isSome env node dim disks rest _ id,
      syncGroupDisk_isSome]

theorem syncAllFsidGroups_isSome (env : SyncEnv) (node : LhNode)
    (dim : List (String × Except GoErr DiskInfo)) :
    ∀ (gs : List (String × List String)) (m : List (String × DiskStatus)) (id : String),
      ((syncAllFsidGroups env node dim gs m).lookup id).isSome = (m.lookup id).isSome
  | [], _, _ => rfl
  | g :: rest, m, id => by
    rw [syncAllFsidGroups, syncAllFsidGroups_isSome env node dim rest _ id,
      syncGroupDisksLoop_isSome]

theorem collectFsidLoop_m_isSome :
    ∀ (l : List (String × Except GoErr DiskInfo))
      (acc : List (String × DiskStatus) × List (String × List String)) (id : String),
      (((collectFsidLoop l acc).1).lookup id).isSome = ((acc.1).lookup id).isSome
  | [], _, _ => rfl
  | p :: rest, acc, id => by
    rw [collectFsidLoop]
    cases hp : p.2 with
    | ok info => exact collectFsidLoop_m_isSome rest _ id
    | error e =>
      rw [collectFsidLoop_m_isSome rest _ id]
      exact setDiskCondition_isSome acc.1 p.1 _ _ _ _ id

theorem schedStep_isSome (pct : Int) (rmap : List (String × List Replica))
    (m : List (String × DiskStatus)) (p : String × DiskSpec) (id : String) :
    ((syncDiskSchedulableStep pct rmap m p).lookup id).isSome = (m.lookup id).isSome := by
  unfold syncDiskSchedulableStep
  cases hm : m.lookup p.1 with
  | none => rfl
  | some ds =>
    simp only
    exact upsert_isSome_present m p.1 _ ds hm id

theorem syncSchedulableLoop_isSome (pct : Int) (rmap : List (String × List Replica)) :
    ∀ (l : List (String × DiskSpec)) (m : List (String × DiskStatus)) (id : String),
      ((syncSchedulableLoop pct rmap l m).lookup id).isSome = (m.lookup id).isSome
  | [], _, _ => rfl
  | p :: rest, m, id => by
    rw [syncSchedulableLoop, syncSchedulableLoop_isSome pct rmap rest _ id, schedStep_isSome]

/-! ## Phase 4 (Schedulable classification) characterization -/

theorem schedStep_lookup_ne (pct : Int) (rmap : List (String × List Replica))
    (m : List (String × DiskStatus)) (p : String × DiskSpec) (id : String) (h : id ≠ p.1) :
    (syncDiskSchedulableStep pct rmap m p).lookup id = m.lookup id := by
  unfold syncDiskSchedulableStep
  cases hm : m.lookup p.1 with
  | none => rfl
  | some ds =>
    simp only
    rw [lookup_upsert, if_neg h]

theorem syncSchedulableLoop_lookup_notmem (pct : Int) (rmap : List (String × List Replica)) :
    ∀ (l : List (String × DiskSpec)) (m : List (String × DiskStatus)) (id : String),
      id ∉ l.map Prod.fst →
      (syncSchedulableLoop pct rmap l m).lookup id = m.lookup id
  | [], _, _, _ => rfl
  | p :: rest, m, id, h => by
    have hp : id ≠ p.1 := fun he => h (by simp [he])
    have hrest : id ∉ rest.map Prod.fst := fun hr => h (by simp [hr])
    rw [syncSchedulableLoop, syncSchedulableLoop_lookup_notmem pct rmap rest _ id hrest,
      schedStep_lookup_ne pct rmap m p id hp]

theorem GetDiskSchedulingInfo_conditions (disk : DiskSpec) (ds : DiskStatus)
    (c : Option (List (String × Condition))) :
    GetDiskSchedulingInfo disk { ds with conditions := c } = GetDiskSchedulingInfo disk ds := rfl

theorem SetConditionAndRecord_eq (c : Option (List (String × Condition))) (t s r m : String) :
    SetConditionAndRecord c t s r m = SetCondition c t s r m := rfl

theorem sched_entry (pct : Int) (ds1 : DiskStatus) (disk : DiskSpec) :
    ∃ dsf, (if !(IsSchedulableToDisk 0 0 pct (GetDiskSchedulingInfo disk ds1)) then
        { ds1 with conditions := SetConditionAndRecord ds1.conditions diskConditionTypeSchedulable conditionStatusFalse diskConditionReasonDiskPressure "the disk has insufficient available storage to schedule more replicas" }
      else
        { ds1 with conditions := SetConditionAndRecord ds1.conditions diskConditionTypeSchedulable conditionStatusTrue "" "Disk is schedulable" }) = dsf ∧
      (GetCondition dsf.conditions diskConditionTypeSchedulable).status =
        (if IsSchedulableToDisk 0 0 pct (GetDiskSchedulingInfo disk dsf) then
          conditionStatusTrue else conditionStatusFalse) ∧
      (GetCondition dsf.conditions diskConditionTypeSchedulable).reason =
        (if IsSchedulableToDisk 0 0 pct (GetDiskSchedulingInfo disk dsf) then ""
         else diskConditionReasonDiskPressure) := by
  by_cases hs : IsSchedulableToDisk 0 0 pct (GetDiskSchedulingInfo disk ds1)
  · refine ⟨{ ds1 with conditions := SetConditionAndRecord ds1.conditions diskConditionTypeSchedulable conditionStatusTrue "" "Disk is schedulable" }, ?_, ?_, ?_⟩
    · rw [hs]
      simp only [Bool.not_true, Bool.false_eq_true, if_false]
    · simp only [SetConditionAndRecord_eq, GetCondition_SetCondition_same,
        GetDiskSchedulingInfo_conditions]
      rw [if_pos hs]
    · simp only [SetConditionAndRecord_eq, GetCondition_SetCondition_same,
        GetDiskSchedulingInfo_conditions]
      rw [if_pos hs]
  · have hs' : IsSchedulableToDisk 0 0 pct (GetDiskSchedulingInfo disk ds1) = false :=
      Bool.eq_false_iff.mpr hs
    refine ⟨{ ds1 with conditions := SetConditionAndRecord ds1.conditions diskConditionTypeSchedulable conditionStatusFalse diskConditionReasonDiskPressure "the disk has insufficient available storage to schedule more replicas" }, ?_, ?_, ?_⟩
    · rw [hs']
      simp only [Bool.not_false, if_true]
    · simp only [SetConditionAndRecord_eq, GetCondition_SetCondition_same,
        GetDiskSchedulingInfo_conditions]
      rw [if_neg hs]
    · simp only [SetConditionAndRecord_eq, GetCondition_SetCondition_same,
        GetDiskSchedulingInfo_conditions]
      rw [if_neg hs]

theorem schedStep_self (pct : Int) (rmap : List (String × List Replica))
    (m : List (String × DiskStatus)) (id : String) (disk : DiskSpec) (ds : DiskStatus)
    (hm : m.lookup id = some ds) :
    ∃ dsf, (syncDiskSchedulableStep pct rmap m (id, disk)).lookup id = some dsf ∧
      (GetCondition dsf.conditions diskConditionTypeSchedulable).status =
        (if IsSchedulableToDisk 0 0 pct (GetDiskSchedulingInfo disk dsf) then
          conditionStatusTrue else conditionStatusFalse) ∧
      (GetCondition dsf.conditions diskConditionTypeSchedulable).reason =
        (if IsSchedulableToDisk 0 0 pct (GetDiskSchedulingInfo disk dsf) then ""
         else diskConditionReasonDiskPressure) := by
  unfold syncDiskSchedulableStep
  simp only [hm]
  obtain ⟨dsf, hdsf, h1, h2⟩ := sched_entry pct
    { ds with
      storageScheduled := ((rmap.lookup id).getD []).foldl (fun acc r => acc + r.volumeSize) 0,
      scheduledReplica :=
        some (((rmap.lookup id).getD []).foldl (fun acc r => upsert acc r.name r.volumeSize) []) }
    disk
  refine ⟨dsf, ?_, h1, h2⟩
  rw [hdsf, lookup_upsert, if_pos rfl]

theorem syncSchedulableLoop_final (pct : Int) (rmap : List (String × List Replica)) :
    ∀ (l : List (String × DiskSpec)) (m : List (String × DiskStatus)) (id : String)
      (disk : DiskSpec), (l.map Prod.fst).Nodup → l.lookup id = some disk →
      ∀ ds, m.lookup id = some ds →
      ∃ dsf, (syncSchedulableLoop pct rmap l m).lookup id = some dsf ∧
        (GetCondition dsf.conditions diskConditionTypeSchedulable).status =
          (if IsSchedulableToDisk 0 0 pct (GetDiskSchedulingInfo disk dsf) then
            conditionStatusTrue else conditionStatusFalse) ∧
        (GetCondition dsf.conditions diskConditionTypeSchedulable).reason =
          (if IsSchedulableToDisk 0 0 pct (GetDiskSchedulingInfo disk dsf) then ""
           else diskConditionReasonDiskPressure)
  | [], _, _, _, _, hl, _, _ => nomatch hl
  | (k, d) :: rest, m, id, disk, hnd, hl, ds, hm => by
    rw [syncSchedulableLoop]
    simp only [List.map_cons, List.nodup_cons] at hnd
    obtain ⟨hk, hndr⟩ := hnd
    by_cases hid : id = k
    · subst hid
      have hd : d = disk := by
        simpa [List.lookup_cons] using hl
      subst hd
      obtain ⟨dsf, h0, h1, h2⟩ := schedStep_self pct rmap m id d ds hm
      refine ⟨dsf, ?_, h1, h2⟩
      rw [syncSchedulableLoop_lookup_notmem pct rmap rest _ id hk, h0]
    · have hlr : rest.lookup id = some disk := by
        rw [List.lookup_cons, beq_false_of_ne hid] at hl
        exact hl
      have hmr : (syncDiskSchedulableStep pct rmap m (k, d)).lookup id = some ds := by
        rw [schedStep_lookup_ne pct rmap m (k, d) id hid]
        exact hm
      exact syncSchedulableLoop_final pct rmap rest _ id disk hndr hlr ds hmr

/-- C4: after a successful `syncDiskStatus`, the `Schedulable` disk condition
of every disk of the spec is classified by the scheduling predicate at
`required = 0`: `True` with empty reason when
`StorageAvailable − 0 ≥ max(StorageReserved, StorageMaximum ×
minimalAvailablePercentage/100)` holds of the final entry, and `False` with
reason `DiskPressure` otherwise. -/
theorem syncDiskStatus_schedulable (env : SyncEnv) (node node' : LhNode) (id : String)
    (disk : DiskSpec) (pct : Int)
    (hnodup : (node.spec.disks.map Prod.fst).Nodup)
    (hok : syncDiskStatus env node = .ok node')
    (hspec : node.spec.disks.lookup id = some disk)
    (hpct : env.getSettingMinimalAvailablePercentage = .ok pct) :
    (diskConditionIn node' id diskConditionTypeSchedulable).status =
      (if IsSchedulableToDisk 0 0 pct (GetDiskSchedulingInfo disk (diskStatusIn node' id)) then
        conditionStatusTrue else conditionStatusFalse) ∧
    (diskConditionIn node' id diskConditionTypeSchedulable).reason =
      (if IsSchedulableToDisk 0 0 pct (GetDiskSchedulingInfo disk (diskStatusIn node' id)) then ""
       else diskConditionReasonDiskPressure) := by
  obtain ⟨rmap, pct', hr, hpct', hds, _, _, _⟩ := syncDiskStatus_ok_elim env node node' hok
  rw [hpct] at hpct'
  injection hpct' with hpcts
  subst hpcts
  set dim := getDiskInfoMap env node with hdim
  set m1 := syncDiskStatusMaps node.spec.disks (node.status.diskStatus.getD []) with hm1
  set cg := collectFsidGroups dim m1 with hcg
  set m3 := syncAllFsidGroups env node dim cg.2 cg.1 with hm3
  have h3some : (m3.lookup id).isSome = true := by
    rw [hm3, syncAllFsidGroups_isSome, hcg]
    show (((collectFsidLoop dim (m1, [])).1).lookup id).isSome = true
    rw [collectFsidLoop_m_isSome, hm1]
    exact (syncDiskStatusMaps_isSome node.spec.disks (node.status.diskStatus.getD []) id).mpr
      (by rw [hspec]; rfl)
  obtain ⟨ds, hds3⟩ := Option.isSome_iff_exists.mp h3some
  obtain ⟨dsf, h0, h1, h2⟩ :=
    syncSchedulableLoop_final pct rmap node.spec.disks m3 id disk hnodup hspec ds hds3
  have hdsin : diskStatusIn node' id = dsf := by
    rw [diskStatusIn_eq node' _ hds id, h0, Option.getD_some]
  have hc : diskConditionIn node' id diskConditionTypeSchedulable =
      GetCondition dsf.conditions diskConditionTypeSchedulable := by
    unfold diskConditionIn
    rw [hdsin]
  rw [hdsin, hc]
  exact ⟨h1, h2⟩

/-- C3 (amended): among the disks of one observed fsid group whose recorded
`DiskUUID` was still empty when the reconcile started, at most one ends a
successful `syncDiskStatus` with `Ready=True`: the collision check fails every
group member that is processed while another member is already `Ready=True`. -/
theorem syncDiskStatus_fsid_at_most_one_ready (env : SyncEnv) (node node' : LhNode)
    (a b : String) (da db : DiskSpec) (infoa infob : DiskInfo)
    (hnodup : (node.spec.disks.map Prod.fst).Nodup)
    (hok : syncDiskStatus env node = .ok node')
    (hab : a ≠ b)
    (hsa : node.spec.disks.lookup a = some da)
    (hsb : node.spec.disks.lookup b = some db)
    (hpa : env.getDiskInfo da.path = .ok infoa)
    (hpb : env.getDiskInfo db.path = .ok infob)
    (hfsid : infoa.fsid = infob.fsid)
    (hua : (diskStatusIn node a).diskUUID = "")
    (hub : (diskStatusIn node b).diskUUID = "") :
    ¬((diskConditionIn node' a diskConditionTypeReady).status = conditionStatusTrue ∧
      (diskConditionIn node' b diskConditionTypeReady).status = conditionStatusTrue) := by
  rintro ⟨hra, hrb⟩
  obtain ⟨rmap, pct, hr, hpct, hds, _, _, _⟩ := syncDiskStatus_ok_elim env node node' hok
  set dim := getDiskInfoMap env node with hdim
  set m1 := syncDiskStatusMaps node.spec.disks (node.status.diskStatus.getD []) with hm1
  set cg := collectFsidGroups dim m1 with hcg
  set m3 := syncAllFsidGroups env node dim cg.2 cg.1 with hm3
  set m4 := syncSchedulableLoop pct rmap node.spec.disks m3 with hm4
  have hdimnd : (dim.map Prod.fst).Nodup := by
    rw [hdim, getDiskInfoMap_keys]
    exact hnodup
  have hdima : dim.lookup a = some (Except.ok infoa) := by
    rw [hdim, getDiskInfoMap_lookup_at, hsa, Option.map_some', hpa]
  have hdimb : dim.lookup b = some (Except.ok infob) := by
    rw [hdim, getDiskInfoMap_lookup_at, hsb, Option.map_some', hpb]
  have hpa4 := (syncSchedulableLoop_preserves pct rmap node.spec.disks m3 a).2.2.2
  have hpb4 := (syncSchedulableLoop_preserves pct rmap node.spec.disks m3 b).2.2.2
  rw [← hm4] at hpa4 hpb4
  have hra3 : (readyCondOf m3 a).status = conditionStatusTrue := by
    rw [← hpa4, ← diskConditionIn_ready_eq node' m4 hds a]
    exact hra
  have hrb3 : (readyCondOf m3 b).status = conditionStatusTrue := by
    rw [← hpb4, ← diskConditionIn_ready_eq node' m4 hds b]
    exact hrb
  have hgrpa := mem_group_of_ok dim m1 hdimnd a infoa hdima
  rw [← hcg] at hgrpa
  obtain ⟨ga, hgamem, haga, hkeya⟩ := hgrpa
  have hgrpb := mem_group_of_ok dim m1 hdimnd b infob hdimb
  rw [← hcg] at hgrpb
  obtain ⟨gb, hgbmem, hbgb, hkeyb⟩ := hgrpb
  have hgsnd : ((cg.2).map Prod.fst).Nodup := by
    rw [hcg]
    exact collectFsidGroups_nodupkeys dim m1
  have hkey : ga.1 = gb.1 := by rw [hkeya, hkeyb, hfsid]
  have hsame : ga.2 = gb.2 := by
    have ha' : (ga.1, ga.2) ∈ cg.2 := by rw [Prod.mk.eta]; exact hgamem
    have hb' : (ga.1, gb.2) ∈ cg.2 := by rw [hkey, Prod.mk.eta]; exact hgbmem
    exact groups_entry_unique hgsnd ha' hb'
  have habg : b ∈ ga.2 := by rw [hsame]; exact hbgb
  have hgidnd : (groupIds cg.2).Nodup := by
    rw [hcg]
    exact ((collectFsidGroups_groupIds_perm dim m1).nodup_iff).mpr
      (List.Nodup.sublist (okIds_sublist_keys dim) hdimnd)
  obtain ⟨gs1, gs2, p, q, x, y, hsplit, hxyass, hgy, hxp, hxy, hynp, hynq, hxq, hxgs2,
    hygs2, hags1, hbgs1⟩ := split_for_pair cg.2 ga hgamem hgidnd a b hab haga habg
  have hentry : ∀ (c : String) (dc : DiskSpec) (infoc : DiskInfo),
      node.spec.disks.lookup c = some dc → dim.lookup c = some (Except.ok infoc) →
      (diskStatusIn node c).diskUUID = "" → c ∉ groupIds gs1 →
      ∃ ds1c, (syncAllFsidGroups env node dim gs1 cg.1).lookup c = some ds1c ∧
        ds1c.diskUUID = "" := by
    intro c dc infoc hsc hdc huc hcgs1
    have hAllOk : ∀ p' ∈ dim, p'.1 = c → ∃ i, p'.2 = Except.ok i := by
      intro p' hp' hpc'
      have h1 := lookup_eq_some_of_nodupkeys_mem hdimnd hp'
      rw [hpc', hdc] at h1
      injection h1 with h1
      exact ⟨infoc, h1.symm⟩
    refine ⟨initDiskStatusEntry (((node.status.diskStatus.getD []).lookup c).getD
      DiskStatus.empty), ?_, ?_⟩
    · rw [syncAllFsidGroups_lookup_notmem env node dim gs1 cg.1 c hcgs1, hcg]
      show ((collectFsidLoop dim (m1, [])).1).lookup c = _
      rw [collectFsidLoop_m_lookup_ok dim (m1, []) c hAllOk]
      show m1.lookup c = _
      rw [hm1]
      exact syncDiskStatusMaps_lookup node.spec.disks _ c hnodup (by rw [hsc]; rfl)
    · rw [initDiskStatusEntry_uuid]
      exact huc
  rw [hm3, hsplit, syncAllFsidGroups_append] at hra3 hrb3
  rcases hxyass with ⟨hxa, hyb⟩ | ⟨hxb, hya⟩
  · obtain ⟨ds1b, hmb, hub'⟩ := hentry b db infob hsb hdimb hub hbgs1
    refine group_not_both_ready env node dim gs2 ga p q x y db ds1b
      (syncAllFsidGroups env node dim gs1 cg.1) hgy hxp hxy hynp hynq hxq hxgs2 hygs2
      (by rw [hyb]; exact hsb) (by rw [hyb]; exact hmb) hub' ⟨?_, ?_⟩
    · rw [hxa]; exact hra3
    · rw [hyb]; exact hrb3
  · obtain ⟨ds1a, hma, hua'⟩ := hentry a da infoa hsa hdima hua hags1
    refine group_not_both_ready env node dim gs2 ga p q x y da ds1a
      (syncAllFsidGroups env node dim gs1 cg.1) hgy hxp hxy hynp hynq hxq hxgs2 hygs2
      (by rw [hya]; exact hsa) (by rw [hya]; exact hma) hua' ⟨?_, ?_⟩
    · rw [hxb]; exact hrb3
    · rw [hya]; exact hra3

/-- Witness for `syncDiskStatus_uuid_stable`: the filesystem-swap scenario,
where the recorded UUID `U1` survives a missing config file. -/
theorem syncDiskStatus_uuid_stable_witness :
    syncDiskStatus envSwapW nodeSwapW = .ok (runDiskSync envSwapW nodeSwapW) ∧
    (diskStatusIn (runDiskSync envSwapW nodeSwapW) "d1").diskUUID = "U1" ∧
    (diskConditionIn (runDiskSync envSwapW nodeSwapW) "d1" diskConditionTypeReady).status =
      conditionStatusFalse ∧
    (diskConditionIn (runDiskSync envSwapW nodeSwapW) "d1" diskConditionTypeReady).reason =
      diskConditionReasonDiskFilesystemChanged ∧
    (diskStatusIn (runDiskSync envSwapW nodeSwapW) "d1").storageMaximum = 0 ∧
    (diskStatusIn (runDiskSync envSwapW nodeSwapW) "d1").storageAvailable = 0 := by
  have h := syncDiskStatus_uuid_stable envSwapW nodeSwapW (runDiskSync envSwapW nodeSwapW)
    "d1" dW { fsid := "fsB", storageMaximum := 1000, storageAvailable := 900 } "U1"
    (by decide) rfl rfl rfl (by decide) rfl
    (Or.inl ⟨GoErr.notFound "nf", rfl, rfl⟩)
  exact ⟨rfl, h.1, h.2.1, h.2.2.1, h.2.2.2.1, h.2.2.2.2⟩

/-- Counterexample to C3 as stated: two disks whose probes report the same
fsid and whose recorded UUIDs both match their on-disk configs both end the
reconcile `Ready=True` — the collision check never runs for disks whose
recorded UUID is already non-empty. -/
theorem syncDiskStatus_fsid_cex :
    syncDiskStatus envDupW nodeDupW = .ok (runDiskSync envDupW nodeDupW) ∧
    (∃ i1 i2 : DiskInfo, envDupW.getDiskInfo "/mnt/d1" = .ok i1 ∧
      envDupW.getDiskInfo "/mnt/d2" = .ok i2 ∧ i1.fsid = i2.fsid) ∧
    (diskConditionIn (runDiskSync envDupW nodeDupW) "d1" diskConditionTypeReady).status =
      conditionStatusTrue ∧
    (diskConditionIn (runDiskSync envDupW nodeDupW) "d2" diskConditionTypeReady).status =
      conditionStatusTrue := by
  refine ⟨rfl, ⟨{ fsid := "fsX", storageMaximum := 1000, storageAvailable := 900 },
    { fsid := "fsX", storageMaximum := 1000, storageAvailable := 900 }, rfl, rfl, rfl⟩, ?_, ?_⟩
  · decide
  · decide

/-- Witness for `syncDiskStatus_fsid_at_most_one_ready`: two fresh disks on
one filesystem cannot both end `Ready=True`. -/
theorem syncDiskStatus_fsid_at_most_one_ready_witness :
    syncDiskStatus envDupEW nodeDupEW = .ok (runDiskSync envDupEW nodeDupEW) ∧
    ¬((diskConditionIn (runDiskSync envDupEW nodeDupEW) "d1" diskConditionTypeReady).status =
        conditionStatusTrue ∧
      (diskConditionIn (runDiskSync envDupEW nodeDupEW) "d2" diskConditionTypeReady).status =
        conditionStatusTrue) :=
  ⟨rfl, syncDiskStatus_fsid_at_most_one_ready envDupEW nodeDupEW
    (runDiskSync envDupEW nodeDupEW) "d1" "d2" dW { dW with path := "/mnt/d2" }
    { fsid := "fsX", storageMaximum := 1000, storageAvailable := 900 }
    { fsid := "fsX", storageMaximum := 1000, storageAvailable := 900 }
    (by decide) rfl (by decide) rfl rfl rfl rfl rfl rfl rfl⟩

/-- Witness for `syncDiskStatus_schedulable`: the 100 GiB / 5 GiB free /
10 GiB reserved / 20 percent example fails the predicate and is classified
`Schedulable=False` with reason `DiskPressure`. -/
theorem syncDiskStatus_schedulable_witness :
    syncDiskStatus envPressW nodePressW = .ok (runDiskSync envPressW nodePressW) ∧
    IsSchedulableToDisk 0 0 20 (GetDiskSchedulingInfo { dW with storageReserved := 10*gib }
      (diskStatusIn (runDiskSync envPressW nodePressW) "d1")) = false ∧
    (diskConditionIn (runDiskSync envPressW nodePressW) "d1"
      diskConditionTypeSchedulable).status = conditionStatusFalse ∧
    (diskConditionIn (runDiskSync envPressW nodePressW) "d1"
      diskConditionTypeSchedulable).reason = diskConditionReasonDiskPressure := by
  have h := syncDiskStatus_schedulable envPressW nodePressW (runDiskSync envPressW nodePressW)
    "d1" { dW with storageReserved := 10*gib } 20 (by decide) rfl rfl rfl
  refine ⟨rfl, by decide, ?_, ?_⟩
  · rw [h.1]
    decide
  · rw [h.2]
    decide

/-! ## Materialised-entry (non-nil maps) preservation -/

theorem upsert_initialized (m : List (String × DiskStatus)) (k : String) (v : DiskStatus)
    (hm : DiskEntriesInitialized m)
    (hv : v.conditions ≠ none ∧ v.scheduledReplica ≠ none) :
    DiskEntriesInitialized (upsert m k v) := by
  intro id ds h
  rw [lookup_upsert] at h
  by_cases hid : id = k
  · rw [if_pos hid] at h
    injection h with h
    rw [← h]
    exact hv
  · rw [if_neg hid] at h
    exact hm id ds h

theorem SetCondition_ne_none (c : Option (List (String × Condition))) (t s r msg : String) :
    SetCondition c t s r msg ≠ none := by
  simp [SetCondition]

theorem setDiskCondition_initialized (m : List (String × DiskStatus)) (j t s r msg : String)
    (hm : DiskEntriesInitialized m) :
    DiskEntriesInitialized (setDiskCondition m j t s r msg) := by
  unfold setDiskCondition
  cases hj : m.lookup j with
  | none => exact hm
  | some ds =>
    exact upsert_initialized m j _ hm ⟨SetCondition_ne_none _ _ _ _ _, (hm j ds hj).2⟩

theorem finalizeReadyDisk_initialized (dim : List (String × Except GoErr DiskInfo))
    (m : List (String × DiskStatus)) (j : String) (hm : DiskEntriesInitialized m) :
    DiskEntriesInitialized (finalizeReadyDisk dim m j) := by
  unfold finalizeReadyDisk
  cases hj : m.lookup j with
  | none => exact hm
  | some ds =>
    cases hdi : dim.lookup j with
    | none => exact hm
    | some r =>
      cases r with
      | error e => exact hm
      | ok info =>
        simp only
        exact upsert_initialized m j _ hm ⟨SetCondition_ne_none _ _ _ _ _, (hm j ds hj).2⟩

theorem syncGroupDiskUUID_initialized (env : SyncEnv)
    (dim : List (String × Except GoErr DiskInfo)) (disks : List String)
    (m : List (String × DiskStatus)) (j : String) (disk : DiskSpec) (ds0 : DiskStatus)
    (du : String) (hj : m.lookup j = some ds0) (hm : DiskEntriesInitialized m) :
    DiskEntriesInitialized (syncGroupDiskUUID env dim disks m j disk ds0 du) := by
  unfold syncGroupDiskUUID
  by_cases h0 : ds0.diskUUID = ""
  · rw [if_pos h0]
    by_cases hdup : isFSIDDuplicatedWithExistingReadyDisk j disks m
    · rw [if_pos hdup]
      exact setDiskCondition_initialized m j _ _ _ _ hm
    · rw [if_neg hdup]
      cases hg : (if du = "" then
          match env.generateDiskConfig disk.path with
          | .error e => .error e
          | .ok diskConfig => .ok diskConfig.diskUUID
        else Except.ok du : Except GoErr String) with
      | error e =>
        simp only [hg]
        exact setDiskCondition_initialized m j _ _ _ _ hm
      | ok u =>
        simp only [hg]
        exact finalizeReadyDisk_initialized dim _ j
          (upsert_initialized m j _ hm ⟨(hm j ds0 hj).1, (hm j ds0 hj).2⟩)
  · rw [if_neg h0]
    have hm' : DiskEntriesInitialized (if du = "" then
        setDiskCondition m j diskConditionTypeReady conditionStatusFalse
          diskConditionReasonDiskFilesystemChanged
          "cannot find disk config file, maybe due to a mount error"
      else if ds0.diskUUID ≠ du then
        setDiskCondition m j diskConditionTypeReady conditionStatusFalse
          diskConditionReasonDiskFilesystemChanged
          "record diskUUID does not match the one on the disk"
      else m) := by
      by_cases hdu : du = ""
      · rw [if_pos hdu]
        exact setDiskCondition_initialized m j _ _ _ _ hm
      · rw [if_neg hdu]
        by_cases hne2 : ds0.diskUUID ≠ du
        · rw [if_pos hne2]
          exact setDiskCondition_initialized m j _ _ _ _ hm
        · rw [if_neg hne2]
          exact hm
    by_cases hfin : ds0.diskUUID = du
    · rw [if_pos hfin]
      exact finalizeReadyDisk_initialized dim _ j hm'
    · rw [if_neg hfin]
      exact hm'

theorem syncGroupDisk_initialized (env : SyncEnv) (node : LhNode)
    (dim : List (String × Except GoErr DiskInfo)) (disks : List String)
    (m : List (String × DiskStatus)) (j : String) (hm : DiskEntriesInitialized m) :
    DiskEntriesInitialized (syncGroupDisk env node dim disks m j) := by
  unfold syncGroupDisk
  cases hs : node.spec.disks.lookup j with
  | none => exact hm
  | some disk =>
    cases hmj : m.lookup j with
    | none => exact hm
    | some ds0 =>
      cases hc : env.getDiskConfig disk.path with
      | error e =>
        simp only [hc]
        by_cases hnf : e.isNotFound
        · rw [if_pos hnf]
          exact syncGroupDiskUUID_initialized env dim disks m j disk ds0 "" hmj hm
        · rw [if_neg hnf]
          exact setDiskCondition_initialized m j _ _ _ _ hm
      | ok cfg =>
        simp only [hc]
        exact syncGroupDiskUUID_initialized env dim disks m j disk ds0 cfg.diskUUID hmj hm

theorem syncGroupDisksLoop_initialized (env : SyncEnv) (node : LhNode)
    (dim : List (String × Except GoErr DiskInfo)) (disks : List String) :
    ∀ (l : List String) (m : List (String × DiskStatus)), DiskEntriesInitialized m →
      DiskEntriesInitialized (syncGroupDisksLoop env node dim disks l m)
  | [], _, hm => hm
  | j :: rest, m, hm =>
    syncGroupDisksLoop_initialized env node dim disks rest _
      (syncGroupDisk_initialized env node dim disks m j hm)

theorem syncAllFsidGroups_initialized (env : SyncEnv) (node : LhNode)
    (dim : List (String × Except GoErr DiskInfo)) :
    ∀ (gs : List (String × List String)) (m : List (String × DiskStatus)),
      DiskEntriesInitialized m →
      DiskEntriesInitialized (syncAllFsidGroups env node dim gs m)
  | [], _, hm => hm
  | g :: rest, m, hm =>
    syncAllFsidGroups_initialized env node dim rest _
      (syncGroupDisksLoop_initialized env node dim g.2 g.2 m hm)

theorem collectFsidLoop_m_initialized :
    ∀ (l : List (String × Except GoErr DiskInfo))
      (acc : List (String × DiskStatus) × List (String × List String)),
      DiskEntriesInitialized acc.1 → DiskEntriesInitialized (collectFsidLoop l acc).1
  | [], _, hm => hm
  | p :: rest, acc, hm => by
    rw [collectFsidLoop]
    cases hp : p.2 with
    | ok info => exact collectFsidLoop_m_initialized rest _ hm
    | error e =>
      exact collectFsidLoop_m_initialized rest _
        (setDiskCondition_initialized acc.1 p.1 _ _ _ _ hm)

theorem schedStep_initialized (pct : Int) (rmap : List (String × List Replica))
    (m : List (String × DiskStatus)) (p : String × DiskSpec)
    (hm : DiskEntriesInitialized m) :
    DiskEntriesInitialized (syncDiskSchedulableStep pct rmap m p) := by
  unfold syncDiskSchedulableStep
  cases hmp : m.lookup p.1 with
  | none => exact hm
  | some ds =>
    simp only
    apply upsert_initialized m p.1 _ hm
    constructor
    · split <;> exact SetCondition_ne_none _ _ _ _ _
    · split <;> simp

theorem syncSchedulableLoop_initialized (pct : Int) (rmap : List (String × List Replica)) :
    ∀ (l : List (String × DiskSpec)) (m : List (String × DiskStatus)),
      DiskEntriesInitialized m →
      DiskEntriesInitialized (syncSchedulableLoop pct rmap l m)
  | [], _, hm => hm
  | p :: rest, m, hm =>
    syncSchedulableLoop_initialized pct rmap rest _ (schedStep_initialized pct rmap m p hm)

theorem initDiskStatusEntry_initialized (ds : DiskStatus) :
    (initDiskStatusEntry ds).conditions ≠ none ∧
    (initDiskStatusEntry ds).scheduledReplica ≠ none := by
  simp only [initDiskStatusEntry]
  split <;> split <;> simp_all

theorem syncDiskStatusMaps_initialized (specDisks : List (String × DiskSpec))
    (statusMap : List (String × DiskStatus)) (hnd : (specDisks.map Prod.fst).Nodup) :
    DiskEntriesInitialized (syncDiskStatusMaps specDisks statusMap) := by
  intro id ds h
  have hs : ((syncDiskStatusMaps specDisks statusMap).lookup id).isSome := by
    rw [h]
    rfl
  have hspec := (syncDiskStatusMaps_isSome specDisks statusMap id).mp hs
  rw [syncDiskStatusMaps_lookup specDisks statusMap id hnd hspec] at h
  injection h with h
  rw [← h]
  exact initDiskStatusEntry_initialized _

theorem syncDiskStatus_keys (env : SyncEnv) (node node' : LhNode)
    (hnodup : (node.spec.disks.map Prod.fst).Nodup)
    (hok : syncDiskStatus env node = .ok node') :
    ∃ m, node'.status.diskStatus = some m ∧
      (∀ id, (m.lookup id).isSome ↔ (node.spec.disks.lookup id).isSome) ∧
      DiskEntriesInitialized m := by
  obtain ⟨rmap, pct, hr, hpct, hds, _, _, _⟩ := syncDiskStatus_ok_elim env node node' hok
  refine ⟨_, hds, ?_, ?_⟩
  · intro id
    have hb : ((syncSchedulableLoop pct rmap node.spec.disks
        (syncAllFsidGroups env node (getDiskInfoMap env node)
          (collectFsidGroups (getDiskInfoMap env node)
            (syncDiskStatusMaps node.spec.disks (node.status.diskStatus.getD []))).2
          (collectFsidGroups (getDiskInfoMap env node)
            (syncDiskStatusMaps node.spec.disks
              (node.status.diskStatus.getD []))).1)).lookup id).isSome =
        ((syncDiskStatusMaps node.spec.disks
          (node.status.diskStatus.getD [])).lookup id).isSome := by
      rw [syncSchedulableLoop_isSome, syncAllFsidGroups_isSome]
      exact collectFsidLoop_m_isSome (getDiskInfoMap env node)
        (syncDiskStatusMaps node.spec.disks (node.status.diskStatus.getD []), []) id
    rw [hb]
    exact syncDiskStatusMaps_isSome node.spec.disks (node.status.diskStatus.getD []) id
  · apply syncSchedulableLoop_initialized
    apply syncAllFsidGroups_initialized
    exact collectFsidLoop_m_initialized (getDiskInfoMap env node)
      (syncDiskStatusMaps node.spec.disks (node.status.diskStatus.getD []), [])
      (syncDiskStatusMaps_initialized node.spec.disks (node.status.diskStatus.getD []) hnodup)

/-! ## Frame facts for the non-disk sections of `syncNode` -/

theorem setNodeCondition_frame (node : LhNode) (t s r msg : String) :
    (setNodeCondition node t s r msg).spec = node.spec ∧
    (setNodeCondition node t s r msg).name = node.name ∧
    (setNodeCondition node t s r msg).status.diskStatus = node.status.diskStatus :=
  ⟨rfl, rfl, rfl⟩

theorem syncNodePodSection_frame (pods : List Pod) (node : LhNode) :
    (syncNodePodSection pods node).spec = node.spec ∧
    (syncNodePodSection pods node).name = node.name ∧
    (syncNodePodSection pods node).status.diskStatus = node.status.diskStatus := by
  unfold syncNodePodSection
  cases pods.find? (fun pod => pod.nodeName == node.name) with
  | none => exact setNodeCondition_frame node _ _ _ _
  | some pod =>
    simp only []
    cases pod.conditions.find? (fun c => c.condType == podConditionTypeReady) with
    | none => exact ⟨rfl, rfl, rfl⟩
    | some pc =>
      simp only []
      by_cases h : pc.status = conditionStatusTrue ∧ pod.phase = podPhaseRunning
      · rw [if_pos h]
        exact setNodeCondition_frame node _ _ _ _
      · rw [if_neg h]
        exact setNodeCondition_frame node _ _ _ _

theorem syncKubeNodeConditionStep_frame (node : LhNode) (con : KubeNodeCondition) :
    (syncKubeNodeConditionStep node con).spec = node.spec ∧
    (syncKubeNodeConditionStep node con).name = node.name ∧
    (syncKubeNodeConditionStep node con).status.diskStatus = node.status.diskStatus := by
  unfold syncKubeNodeConditionStep
  split
  · split
    · exact setNodeCondition_frame node _ _ _ _
    · exact ⟨rfl, rfl, rfl⟩
  · split
    · split
      · exact setNodeCondition_frame node _ _ _ _
      · exact ⟨rfl, rfl, rfl⟩
    · exact ⟨rfl, rfl, rfl⟩

theorem syncKubeNodeConditionsLoop_frame :
    ∀ (cons : List KubeNodeCondition) (node : LhNode),
      (syncKubeNodeConditionsLoop cons node).spec = node.spec ∧
      (syncKubeNodeConditionsLoop cons node).name = node.name ∧
      (syncKubeNodeConditionsLoop cons node).status.diskStatus = node.status.diskStatus
  | [], _ => ⟨rfl, rfl, rfl⟩
  | con :: rest, node => by
    obtain ⟨h1, h2, h3⟩ := syncKubeNodeConditionsLoop_frame rest (syncKubeNodeConditionStep node con)
    obtain ⟨g1, g2, g3⟩ := syncKubeNodeConditionStep_frame node con
    exact ⟨by rw [syncKubeNodeConditionsLoop, h1, g1],
      by rw [syncKubeNodeConditionsLoop, h2, g2],
      by rw [syncKubeNodeConditionsLoop, h3, g3]⟩

theorem syncNodeKubeSection_frame (env : SyncEnv) (node node2 : LhNode)
    (h : syncNodeKubeSection env node = .ok node2) :
    node2.spec = node.spec ∧ node2.name = node.name ∧
    node2.status.diskStatus = node.status.diskStatus := by
  unfold syncNodeKubeSection at h
  cases hk : env.getKubernetesNode with
  | error e =>
    rw [hk] at h
    simp only at h
    by_cases hnf : e.isNotFound
    · rw [if_pos hnf] at h
      injection h with h
      rw [← h]
      exact setNodeCondition_frame node _ _ _ _
    · rw [if_neg hnf] at h
      cases h
  | ok kubeNode =>
    rw [hk] at h
    simp only at h
    cases hc : env.getSettingDisableSchedulingOnCordonedNode with
    | error e =>
      rw [hc] at h
      cases h
    | ok dis =>
      rw [hc] at h
      simp only at h
      cases ht : env.topologyLabelsChecker with
      | error e =>
        rw [ht] at h
        cases h
      | ok topo =>
        rw [ht] at h
        simp only [Except.ok.injEq] at h
        obtain ⟨l1, l2, l3⟩ := syncKubeNodeConditionsLoop_frame kubeNode.conditions node
        rw [← h]
        by_cases hcord : dis ∧ kubeNode.unschedulable
        · rw [if_pos hcord]
          obtain ⟨s1, s2, s3⟩ := setNodeCondition_frame
            (syncKubeNodeConditionsLoop kubeNode.conditions node)
            nodeConditionTypeSchedulable conditionStatusFalse
            nodeConditionReasonKubernetesNodeCordoned "Node is cordoned"
          exact ⟨by rw [s1, l1], by rw [s2, l2], by rw [s3, l3]⟩
        · rw [if_neg hcord]
          obtain ⟨s1, s2, s3⟩ := setNodeCondition_frame
            (syncKubeNodeConditionsLoop kubeNode.conditions node)
            nodeConditionTypeSchedulable conditionStatusTrue "" ""
          exact ⟨by rw [s1, l1], by rw [s2, l2], by rw [s3, l3]⟩

theorem syncMountPropagation_frame (pod : Pod) (node : LhNode) :
    (syncMountPropagation pod node).spec = node.spec ∧
    (syncMountPropagation pod node).name = node.name ∧
    (syncMountPropagation pod node).status.diskStatus = node.status.diskStatus := by
  unfold syncMountPropagation
  cases pod.containerMounts.find? (fun mount => mount.name == longhornSystemKey) with
  | none => exact ⟨rfl, rfl, rfl⟩
  | some mount =>
    split
    · exact ⟨rfl, rfl, rfl⟩
    · split
      · exact ⟨rfl, rfl, rfl⟩
      · exact ⟨rfl, rfl, rfl⟩

theorem syncMountPropagationLoop_frame :
    ∀ (pods : List Pod) (node : LhNode),
      (syncMountPropagationLoop pods node).spec = node.spec ∧
      (syncMountPropagationLoop pods node).name = node.name ∧
      (syncMountPropagationLoop pods node).status.diskStatus = node.status.diskStatus
  | [], _ => ⟨rfl, rfl, rfl⟩
  | pod :: rest, node => by
    obtain ⟨h1, h2, h3⟩ := syncMountPropagationLoop_frame rest
      (if pod.nodeName == node.name then syncMountPropagation pod node else node)
    have g : (if pod.nodeName == node.name then syncMountPropagation pod node
        else node).spec = node.spec ∧
        (if pod.nodeName == node.name then syncMountPropagation pod node
        else node).name = node.name ∧
        (if pod.nodeName == node.name then syncMountPropagation pod node
        else node).status.diskStatus = node.status.diskStatus := by
      split
      · exact syncMountPropagation_frame pod node
      · exact ⟨rfl, rfl, rfl⟩
    exact ⟨by rw [syncMountPropagationLoop, h1, g.1],
      by rw [syncMountPropagationLoop, h2, g.2.1],
      by rw [syncMountPropagationLoop, h3, g.2.2]⟩

/-- C1: when the body of a reconcile on the owning controller returns without
error, the produced node's `Status.DiskStatus` is a materialised map whose
key set equals the key set of `Spec.Disks`, and every entry carries non-nil
`Conditions` and `ScheduledReplica` maps. -/
theorem syncNodeBody_diskStatus_keys (nc : NodeControllerCfg) (env : SyncEnv)
    (node node' : LhNode) (acts : List DsAction)
    (hnodup : (node.spec.disks.map Prod.fst).Nodup)
    (hown : nc.controllerID = node.name)
    (hbody : syncNodeBody nc env node = (.ok node', acts)) :
    ∃ m, node'.status.diskStatus = some m ∧
      (∀ id, (m.lookup id).isSome ↔ (node.spec.disks.lookup id).isSome) ∧
      DiskEntriesInitialized m := by
  unfold syncNodeBody at hbody
  cases hpods : env.listManagerPods with
  | error e =>
    rw [hpods] at hbody
    simp at hbody
  | ok pods =>
    rw [hpods] at hbody
    simp only [] at hbody
    cases hkube : syncNodeKubeSection env (syncNodePodSection pods node) with
    | error e =>
      rw [hkube] at hbody
      simp at hbody
    | ok node2 =>
      rw [hkube] at hbody
      simp only [] at hbody
      obtain ⟨p1, p2, p3⟩ := syncNodePodSection_frame pods node
      obtain ⟨k1, k2, k3⟩ := syncNodeKubeSection_frame env (syncNodePodSection pods node)
        node2 hkube
      have hgate : ¬(nc.controllerID ≠ node2.name) := by
        rw [k2, p2, hown]
        exact fun h => h rfl
      rw [if_neg hgate] at hbody
      unfold syncNodeOwnedSection at hbody
      cases hdsync : syncDiskStatus env node2 with
      | error e =>
        rw [hdsync] at hbody
        simp at hbody
      | ok node3 =>
        rw [hdsync] at hbody
        simp only [] at hbody
        cases him : (syncInstanceManagers env (syncMountPropagationLoop pods node3)).2 with
        | some e =>
          rw [him] at hbody
          simp at hbody
        | none =>
          rw [him] at hbody
          simp only [Prod.mk.injEq, Except.ok.injEq] at hbody
          obtain ⟨hnode', hacts⟩ := hbody
          have hnodup2 : (node2.spec.disks.map Prod.fst).Nodup := by
            rw [k1, p1]
            exact hnodup
          obtain ⟨m, hm, hkeys, hinit⟩ := syncDiskStatus_keys env node2 node3 hnodup2 hdsync
          obtain ⟨q1, q2, q3⟩ := syncMountPropagationLoop_frame pods node3
          refine ⟨m, ?_, ?_, hinit⟩
          · rw [← hnode', q3]
            exact hm
          · intro id
            have h := hkeys id
            rw [k1, p1] at h
            exact h

/-- Witness for `syncNodeBody_diskStatus_keys` at a concrete owned reconcile. -/
theorem syncNodeBody_diskStatus_keys_witness :
    ∃ m, (runNodeBody ncW envSwapW nodeSwapW).status.diskStatus = some m ∧
      (∀ id, (m.lookup id).isSome ↔ (nodeSwapW.spec.disks.lookup id).isSome) ∧
      DiskEntriesInitialized m :=
  syncNodeBody_diskStatus_keys ncW envSwapW nodeSwapW (runNodeBody ncW envSwapW nodeSwapW)
    (syncNodeBody ncW envSwapW nodeSwapW).2 (by decide) rfl rfl

/-! ## Non-owner frame (C6) -/

theorem setNodeCondition_cond_ne (node : LhNode) (t s r msg t' : String) (h : t' ≠ t) :
    GetCondition (setNodeCondition node t s r msg).status.conditions t' =
      GetCondition node.status.conditions t' :=
  GetCondition_SetCondition_ne node.status.conditions t s r msg t' h

theorem syncNodePodSection_mp (pods : List Pod) (node : LhNode) :
    GetCondition (syncNodePodSection pods node).status.conditions
      nodeConditionTypeMountPropagation =
    GetCondition node.status.conditions nodeConditionTypeMountPropagation := by
  unfold syncNodePodSection
  cases pods.find? (fun pod => pod.nodeName == node.name) with
  | none => exact setNodeCondition_cond_ne node _ _ _ _ _ (by decide)
  | some pod =>
    simp only []
    cases pod.conditions.find? (fun c => c.condType == podConditionTypeReady) with
    | none => rfl
    | some pc =>
      simp only []
      by_cases h : pc.status = conditionStatusTrue ∧ pod.phase = podPhaseRunning
      · rw [if_pos h]
        exact setNodeCondition_cond_ne node _ _ _ _ _ (by decide)
      · rw [if_neg h]
        exact setNodeCondition_cond_ne node _ _ _ _ _ (by decide)

theorem syncKubeNodeConditionStep_mp (node : LhNode) (con : KubeNodeCondition) :
    GetCondition (syncKubeNodeConditionStep node con).status.conditions
      nodeConditionTypeMountPropagation =
    GetCondition node.status.conditions nodeConditionTypeMountPropagation := by
  unfold syncKubeNodeConditionStep
  split
  · split
    · exact setNodeCondition_cond_ne node _ _ _ _ _ (by decide)
    · rfl
  · split
    · split
      · exact setNodeCondition_cond_ne node _ _ _ _ _ (by decide)
      · rfl
    · rfl

theorem syncKubeNodeConditionsLoop_mp :
    ∀ (cons : List KubeNodeCondition) (node : LhNode),
      GetCondition (syncKubeNodeConditionsLoop cons node).status.conditions
        nodeConditionTypeMountPropagation =
      GetCondition node.status.conditions nodeConditionTypeMountPropagation
  | [], _ => rfl
  | con :: rest, node => by
    rw [syncKubeNodeConditionsLoop,
      syncKubeNodeConditionsLoop_mp rest (syncKubeNodeConditionStep node con),
      syncKubeNodeConditionStep_mp node con]

theorem syncNodeKubeSection_mp (env : SyncEnv) (node node2 : LhNode)
    (h : syncNodeKubeSection env node = .ok node2) :
    GetCondition node2.status.conditions nodeConditionTypeMountPropagation =
      GetCondition node.status.conditions nodeConditionTypeMountPropagation := by
  unfold syncNodeKubeSection at h
  cases hk : env.getKubernetesNode with
  | error e =>
    rw [hk] at h
    simp only at h
    by_cases hnf : e.isNotFound
    · rw [if_pos hnf] at h
      injection h with h
      rw [← h]
      exact setNodeCondition_cond_ne node _ _ _ _ _ (by decide)
    · rw [if_neg hnf] at h
      cases h
  | ok kubeNode =>
    rw [hk] at h
    simp only at h
    cases hc : env.getSettingDisableSchedulingOnCordonedNode with
    | error e =>
      rw [hc] at h
      cases h
    | ok dis =>
      rw [hc] at h
      simp only at h
      cases ht : env.topologyLabelsChecker with
      | error e =>
        rw [ht] at h
        cases h
      | ok topo =>
        rw [ht] at h
        simp only [Except.ok.injEq] at h
        rw [← h]
        have hl := syncKubeNodeConditionsLoop_mp kubeNode.conditions node
        by_cases hcord : dis ∧ kubeNode.unschedulable
        · rw [if_pos hcord]
          rw [show GetCondition ({ setNodeCondition
              (syncKubeNodeConditionsLoop kubeNode.conditions node)
              nodeConditionTypeSchedulable conditionStatusFalse
              nodeConditionReasonKubernetesNodeCordoned "Node is cordoned" with
              status := { (setNodeCondition (syncKubeNodeConditionsLoop kubeNode.conditions node)
                nodeConditionTypeSchedulable conditionStatusFalse
                nodeConditionReasonKubernetesNodeCordoned "Node is cordoned").status with
                region := (GetRegionAndZone kubeNode.labels topo).1,
                zone := (GetRegionAndZone kubeNode.labels topo).2 } } : LhNode).status.conditions
              nodeConditionTypeMountPropagation =
              GetCondition (setNodeCondition (syncKubeNodeConditionsLoop kubeNode.conditions node)
                nodeConditionTypeSchedulable conditionStatusFalse
                nodeConditionReasonKubernetesNodeCordoned
                "Node is cordoned").status.conditions nodeConditionTypeMountPropagation from rfl]
          rw [setNodeCondition_cond_ne _ _ _ _ _ _ (by decide), hl]
        · rw [if_neg hcord]
          rw [show GetCondition ({ setNodeCondition
              (syncKubeNodeConditionsLoop kubeNode.conditions node)
              nodeConditionTypeSchedulable conditionStatusTrue "" "" with
              status := { (setNodeCondition (syncKubeNodeConditionsLoop kubeNode.conditions node)
                nodeConditionTypeSchedulable conditionStatusTrue "" "").status with
                region := (GetRegionAndZone kubeNode.labels topo).1,
                zone := (GetRegionAndZone kubeNode.labels topo).2 } } : LhNode).status.conditions
              nodeConditionTypeMountPropagation =
              GetCondition (setNodeCondition (syncKubeNodeConditionsLoop kubeNode.conditions node)
                nodeConditionTypeSchedulable conditionStatusTrue
                "" "").status.conditions nodeConditionTypeMountPropagation from rfl]
          rw [setNodeCondition_cond_ne _ _ _ _ _ _ (by decide), hl]

/-- C6: on a node whose name differs from `controllerID`, the reconcile stops
right after the kube-node section: the body performs no datastore action and
any node it produces (and hence any node the deferred writeback persists)
keeps `Status.DiskStatus` and the `MountPropagation` condition unchanged —
only node conditions written by the pod/kube sections and `Region`/`Zone`
may differ. -/
theorem syncNode_non_owner (nc : NodeControllerCfg) (env : SyncEnv) (keyName : String)
    (node : LhNode)
    (hget : env.getNode = .ok node)
    (hdel : node.deletionTimestamp = none)
    (hown : nc.controllerID ≠ node.name) :
    (syncNodeBody nc env node).2 = [] ∧
    (∀ node2, (syncNodeBody nc env node).1 = .ok node2 →
      node2.status.diskStatus = node.status.diskStatus ∧ node2.spec = node.spec ∧
      node2.name = node.name ∧
      GetCondition node2.status.conditions nodeConditionTypeMountPropagation =
        GetCondition node.status.conditions nodeConditionTypeMountPropagation) ∧
    (syncNode nc env nc.controllerNamespace keyName).actions = [] ∧
    (∀ w, (syncNode nc env nc.controllerNamespace keyName).written = some w →
      w.status.diskStatus = node.status.diskStatus ∧
      GetCondition w.status.conditions nodeConditionTypeMountPropagation =
        GetCondition node.status.conditions nodeConditionTypeMountPropagation) := by
  have hbody : (syncNodeBody nc env node).2 = [] ∧
      (∀ node2, (syncNodeBody nc env node).1 = .ok node2 →
        node2.status.diskStatus = node.status.diskStatus ∧ node2.spec = node.spec ∧
        node2.name = node.name ∧
        GetCondition node2.status.conditions nodeConditionTypeMountPropagation =
          GetCondition node.status.conditions nodeConditionTypeMountPropagation) := by
    unfold syncNodeBody
    cases hpods : env.listManagerPods with
    | error e => exact ⟨rfl, fun node2 h => by cases h⟩
    | ok pods =>
      simp only []
      cases hkube : syncNodeKubeSection env (syncNodePodSection pods node) with
      | error e => exact ⟨rfl, fun node2 h => by cases h⟩
      | ok node2 =>
        simp only []
        obtain ⟨p1, p2, p3⟩ := syncNodePodSection_frame pods node
        obtain ⟨k1, k2, k3⟩ := syncNodeKubeSection_frame env (syncNodePodSection pods node)
          node2 hkube
        have hmp2 : GetCondition node2.status.conditions nodeConditionTypeMountPropagation =
            GetCondition node.status.conditions nodeConditionTypeMountPropagation := by
          rw [syncNodeKubeSection_mp env (syncNodePodSection pods node) node2 hkube,
            syncNodePodSection_mp pods node]
        have hgate : nc.controllerID ≠ node2.name := by
          rw [k2, p2]
          exact hown
        rw [if_pos hgate]
        refine ⟨rfl, fun node2' h => ?_⟩
        injection h with h
        rw [← h]
        exact ⟨by rw [k3, p3], by rw [k1, p1], by rw [k2, p2], hmp2⟩
  refine ⟨hbody.1, hbody.2, ?_, ?_⟩
  all_goals
    unfold syncNode
    rw [if_neg (fun h => h rfl), hget]
    simp only []
    rw [if_neg (fun h => h hdel)]
    simp only []
  · exact hbody.1
  · intro w hw
    cases hb : (syncNodeBody nc env node).1 with
    | error e =>
      rw [hb] at hw
      simp only [] at hw
      cases hw
    | ok node2 =>
      rw [hb] at hw
      simp only [] at hw
      by_cases hch : node2.status ≠ node.status
      · rw [if_pos hch] at hw
        simp only [] at hw
        injection hw with hw
        obtain ⟨h1, _, _, h4⟩ := hbody.2 node2 hb
        rw [← hw]
        exact ⟨h1, h4⟩
      · rw [if_neg hch] at hw
        cases hw

/-- Witness for `syncNode_non_owner` at a foreign-owned node. -/
theorem syncNode_non_owner_witness :
    (syncNodeBody ncW envC6 nodeC6).2 = [] ∧
    ((runNodeBody ncW envC6 nodeC6).status.diskStatus = nodeC6.status.diskStatus ∧
     GetCondition (runNodeBody ncW envC6 nodeC6).status.conditions
       nodeConditionTypeMountPropagation =
       GetCondition nodeC6.status.conditions nodeConditionTypeMountPropagation) ∧
    (syncNode ncW envC6 ncW.controllerNamespace "n2").actions = [] := by
  obtain ⟨h1, h2, h3, h4⟩ := syncNode_non_owner ncW envC6 "n2" nodeC6 rfl rfl (by decide)
  obtain ⟨g1, g2, g3, g4⟩ := h2 (runNodeBody ncW envC6 nodeC6) rfl
  exact ⟨h1, ⟨g1, g4⟩, h3⟩

/-- C5: under a successful node read with no deletion timestamp, the deferred
status writeback runs exactly when the body succeeded and changed the status
snapshot taken right after the read; a structurally-conflicting resulting
error — from the body or from the write itself — is swallowed into a
re-enqueue with a nil returned error, and any surfaced error is structurally
a non-conflict. -/
theorem syncNode_writeback_conflict (nc : NodeControllerCfg) (env : SyncEnv) (keyName : String)
    (node : LhNode)
    (hget : env.getNode = .ok node)
    (hdel : node.deletionTimestamp = none) :
    ((syncNode nc env nc.controllerNamespace keyName).written ≠ none ↔
      (∃ node2, (syncNodeBody nc env node).1 = .ok node2 ∧ node2.status ≠ node.status)) ∧
    (∀ node2, (syncNodeBody nc env node).1 = .ok node2 → node2.status ≠ node.status →
      (syncNode nc env nc.controllerNamespace keyName).written = some node2) ∧
    (∀ e, (syncNodeBody nc env node).1 = .error e → (GoErr.cause e).isConflict = true →
      (syncNode nc env nc.controllerNamespace keyName).err = none ∧
      (syncNode nc env nc.controllerNamespace keyName).enqueued = true) ∧
    (∀ node2 e, (syncNodeBody nc env node).1 = .ok node2 → node2.status ≠ node.status →
      env.updateNodeStatus node2 = some e → (GoErr.cause e).isConflict = true →
      (syncNode nc env nc.controllerNamespace keyName).err = none ∧
      (syncNode nc env nc.controllerNamespace keyName).enqueued = true) ∧
    (∀ e', (syncNode nc env nc.controllerNamespace keyName).err = some e' →
      (GoErr.cause e').isConflict = false) := by
  unfold syncNode
  rw [if_neg (fun h => h rfl), hget]
  simp only []
  rw [if_neg (fun h => h hdel)]
  simp only []
  cases hb : (syncNodeBody nc env node).1 with
  | error e =>
    simp only []
    by_cases hc : (GoErr.cause e).isConflict
    · rw [if_pos hc]
      refine ⟨⟨fun h => absurd rfl h, ?_⟩, ?_, ?_, ?_, ?_⟩
      · rintro ⟨n2, h2, _⟩
        cases h2
      · intro n2 h2
        cases h2
      · intro e' he' hc'
        exact ⟨rfl, rfl⟩
      · intro n2 e' h2
        cases h2
      · intro e' he'
        exact Option.noConfusion he'
    · rw [if_neg hc]
      refine ⟨⟨fun h => absurd rfl h, ?_⟩, ?_, ?_, ?_, ?_⟩
      · rintro ⟨n2, h2, _⟩
        cases h2
      · intro n2 h2
        cases h2
      · intro e' he' hc'
        injection he' with he'
        rw [← he'] at hc'
        exact absurd hc' hc
      · intro n2 e' h2
        cases h2
      · intro e' he'
        simp only [wrapSyncNodeErr, Option.map_some'] at he'
        injection he' with he'
        rw [← he']
        have hcw : GoErr.cause (GoErr.wrapped "fail to sync node" e) = GoErr.cause e := rfl
        rw [hcw]
        exact Bool.eq_false_iff.mpr hc
  | ok node2 =>
    simp only []
    by_cases hch : node2.status ≠ node.status
    · rw [if_pos hch]
      cases hu : env.updateNodeStatus node2 with
      | none =>
        simp only []
        refine ⟨⟨fun _ => ⟨node2, rfl, hch⟩, fun _ h => Option.noConfusion h⟩, ?_, ?_, ?_, ?_⟩
        · intro n2 h2 hne
          injection h2 with h2
          rw [h2]
        · intro e' h2
          cases h2
        · intro n2 e' h2 hch' hu' hc'
          injection h2 with h2
          rw [← h2] at hu'
          rw [hu] at hu'
          cases hu'
        · intro e' he'
          exact Option.noConfusion he'
      | some e =>
        simp only []
        by_cases hc : (GoErr.cause e).isConflict
        · rw [if_pos hc]
          refine ⟨⟨fun _ => ⟨node2, rfl, hch⟩, fun _ h => Option.noConfusion h⟩, ?_, ?_, ?_, ?_⟩
          · intro n2 h2 hne
            injection h2 with h2
            rw [h2]
          · intro e' h2
            cases h2
          · intro n2 e' h2 hch' hu' hc'
            exact ⟨rfl, rfl⟩
          · intro e' he'
            exact Option.noConfusion he'
        · rw [if_neg hc]
          refine ⟨⟨fun _ => ⟨node2, rfl, hch⟩, fun _ h => Option.noConfusion h⟩, ?_, ?_, ?_, ?_⟩
          · intro n2 h2 hne
            injection h2 with h2
            rw [h2]
          · intro e' h2
            cases h2
          · intro n2 e' h2 hch' hu' hc'
            injection h2 with h2
            rw [← h2] at hu'
            rw [hu] at hu'
            injection hu' with hu'
            rw [← hu'] at hc'
            exact absurd hc' hc
          · intro e' he'
            simp only [wrapSyncNodeErr, Option.map_some'] at he'
            injection he' with he'
            rw [← he']
            have hcw : GoErr.cause (GoErr.wrapped "fail to sync node" e) = GoErr.cause e := rfl
            rw [hcw]
            exact Bool.eq_false_iff.mpr hc
    · rw [if_neg hch]
      simp only []
      refine ⟨⟨fun h => absurd rfl h, ?_⟩, ?_, ?_, ?_, ?_⟩
      · rintro ⟨n2, h2, hne⟩
        injection h2 with h2
        rw [← h2] at hne
        exact absurd hne hch
      · intro n2 h2 hne
        injection h2 with h2
        rw [← h2] at hne
        exact absurd hne hch
      · intro e' h2
        cases h2
      · intro n2 e' h2 hne
        injection h2 with h2
        rw [← h2] at hne
        exact absurd hne hch
      · intro e' he'
        exact Option.noConfusion he'

/-- Witness for `syncNode_writeback_conflict`: a status-changing reconcile
persists the produced node. -/
theorem syncNode_writeback_conflict_witness :
    (syncNode ncW envC6 ncW.controllerNamespace "n2").written =
      some (runNodeBody ncW envC6 nodeC6) := by
  have h := syncNode_writeback_conflict ncW envC6 "n2" nodeC6 rfl rfl
  exact h.2.1 (runNodeBody ncW envC6 nodeC6) rfl (by decide)
